import Mathlib

/-! Thingstream SDK: shallow embedding of the public headers and example code.

Machine integers are modelled as `Nat`/`Int` with explicit reduction modulo
`2 ^ 32` where the C code relies on unsigned wraparound.  Pointers are
`Option Nat` (`none` is `NULL`).  Calls into the closed part of the SDK are
modelled as recorded events whose results come from an environment.
-/

namespace Thingstream

/-! ## client_platform.h -/

/-- Two to the power 32: the modulus of `uint32_t` arithmetic. -/
def U32 : Nat := 4294967296

/-- Unsigned subtraction `left - right` in `uint32_t` arithmetic. -/
def sub32 (left right : Nat) : Nat := (left % U32 + U32 - right % U32) % U32

/-- Unsigned addition `a + b` in `uint32_t` arithmetic. -/
def add32 (a b : Nat) : Nat := (a + b) % U32

/-- The cast `(int32_t) x` of a `uint32_t` value (two's complement). -/
def toInt32 (x : Nat) : Int :=
  if x % U32 < 2147483648 then ((x % U32 : Nat) : Int) else ((x % U32 : Nat) : Int) - 4294967296

/-- The comparison operator spliced into `TIME_COMPARE(left, cmp, right)`. -/
inductive Cmp
  | lt
  | gt
  | eq
  | le
  | ge
  | ne
  deriving DecidableEq, Repr

/-- Evaluation of `x cmp 0` for a signed `x`. -/
def Cmp.holds0 : Cmp → Int → Bool
  | .lt, x => decide (x < 0)
  | .gt, x => decide (x > 0)
  | .eq, x => decide (x = 0)
  | .le, x => decide (x ≤ 0)
  | .ge, x => decide (x ≥ 0)
  | .ne, x => decide (x ≠ 0)

/-- The macro `TIME_COMPARE(left, cmp, right)`:
`(((int32_t)((left) - (right))) cmp 0)`. -/
def TIME_COMPARE (left : Nat) (cmp : Cmp) (right : Nat) : Bool :=
  cmp.holds0 (toInt32 (sub32 left right))

/-! ## thingstream_result.h -/

/-- The enumerators of `ThingstreamResult`, in declaration order. -/
inductive ThingstreamResult
  | CLIENT_SUCCESS
  | TRANSPORT_SUCCESS
  | CLIENT_COMMAND_RETRY
  | CLIENT_COMMAND_IN_PROGRESS
  | CLIENT_PUBLISH_TOO_LONG
  | CLIENT_OPERATION_TIMED_OUT
  | CLIENT_DOMAIN_KEY_INVALID
  | CLIENT_CLIENT_ID_INVALID
  | CLIENT_NOT_CONNECTED
  | CLIENT_FEATURE_NOT_IMPLEMENTED
  | CLIENT_ILLEGAL_ARGUMENT
  | CLIENT_MQTTSN_DECODE_ERROR
  | CLIENT_TOPIC_INVALID
  | CLIENT_CONGESTION
  | CLIENT_WRONG_STATE
  | CLIENT_CONNECT_BAD_ACK
  | CLIENT_REGISTER_BAD_ACK
  | CLIENT_PUBLISH_BAD_ACK
  | CLIENT_SUBSCRIBE_BAD_ACK
  | CLIENT_UNSUBSCRIBE_BAD_ACK
  | CLIENT_INFORMATION_NOT_AVAILABLE
  | CLIENT_RECURSIVE_CALL
  | CLIENT_UNKNOWN_TRANSPORT_ERROR
  | TRANSPORT_ERROR
  | TRANSPORT_VERSION_MISMATCH
  | TRANSPORT_UNEXPECTED_DATA
  | TRANSPORT_INIT_TIMEOUT
  | TRANSPORT_READ_TIMEOUT
  | TRANSPORT_READ_OVERFLOW
  | TRANSPORT_SEND_TIMEOUT
  | TRANSPORT_ILLEGAL_ARGUMENT
  | TRANSPORT_INTERNAL_ERROR
  | TRANSPORT_ACK_TIMEOUT
  | TRANSPORT_INTERPACKET_ACK_TIMEOUT
  | TRANSPORT_DEFERRED_END_TIMEOUT
  | TRANSPORT_END_TIMEOUT
  | TRANSPORT_INIT_AT_FAILURE
  | TRANSPORT_INIT_CREG5_TIMEOUT
  | TRANSPORT_INIT_CREG_REFUSED
  | TRANSPORT_BUFFER_TOO_SMALL
  | TRANSPORT_INIT_UDP_NETWORK_RESET_FAILED
  | TRANSPORT_INIT_UDP_NETWORK_OPEN_FAILED
  | TRANSPORT_INIT_UDP_NETWORK_ATTACH_FAILED
  | TRANSPORT_INIT_APN_SETUP_FAILED
  | TRANSPORT_INIT_UDP_IP_ADDR_FAILED
  | TRANSPORT_INIT_UDP_CONNECT_FAILED
  | TRANSPORT_INIT_UDP_SOCKET_CREATE_FAILED
  | TRANSPORT_MODEM_ERROR
  | TRANSPORT_MODEM_CME_ERROR
  | TRANSPORT_MODEM_FORCED_RESET
  | TRANSPORT_MODEM_CUSD2_ERROR
  | TRANSPORT_MODEM_CUSD3_ERROR
  | TRANSPORT_MODEM_CUSD4_ERROR
  | TRANSPORT_MODEM_CUSD5_ERROR
  | TRANSPORT_LAST_MODEM_ERROR
  | TRANSPORT_MODEM_WITH_LINE_BUFFER_ERROR
  | TRANSPORT_MODEM_USSD_BASE64_ERROR
  | TRANSPORT_MODEM_SEND_RETRY_REQUEST
  | TRANSPORT_INVALID_STACK
  | TRANSPORT_ERROR_FROM_SERVER
  | CLIENT_MAX_ERROR
  deriving DecidableEq, Repr

namespace ThingstreamResult

/-- The integer value the header assigns to each enumerator. -/
def toInt : ThingstreamResult → Int
  | CLIENT_SUCCESS => 0
  | TRANSPORT_SUCCESS => 0
  | CLIENT_COMMAND_RETRY => -1
  | CLIENT_COMMAND_IN_PROGRESS => -2
  | CLIENT_PUBLISH_TOO_LONG => -3
  | CLIENT_OPERATION_TIMED_OUT => -5
  | CLIENT_DOMAIN_KEY_INVALID => -6
  | CLIENT_CLIENT_ID_INVALID => -6
  | CLIENT_NOT_CONNECTED => -10
  | CLIENT_FEATURE_NOT_IMPLEMENTED => -11
  | CLIENT_ILLEGAL_ARGUMENT => -12
  | CLIENT_MQTTSN_DECODE_ERROR => -13
  | CLIENT_TOPIC_INVALID => -14
  | CLIENT_CONGESTION => -15
  | CLIENT_WRONG_STATE => -16
  | CLIENT_CONNECT_BAD_ACK => -18
  | CLIENT_REGISTER_BAD_ACK => -19
  | CLIENT_PUBLISH_BAD_ACK => -20
  | CLIENT_SUBSCRIBE_BAD_ACK => -21
  | CLIENT_UNSUBSCRIBE_BAD_ACK => -22
  | CLIENT_INFORMATION_NOT_AVAILABLE => -23
  | CLIENT_RECURSIVE_CALL => -24
  | CLIENT_UNKNOWN_TRANSPORT_ERROR => -39
  | TRANSPORT_ERROR => -40
  | TRANSPORT_VERSION_MISMATCH => -41
  | TRANSPORT_UNEXPECTED_DATA => -42
  | TRANSPORT_INIT_TIMEOUT => -43
  | TRANSPORT_READ_TIMEOUT => -44
  | TRANSPORT_READ_OVERFLOW => -45
  | TRANSPORT_SEND_TIMEOUT => -46
  | TRANSPORT_ILLEGAL_ARGUMENT => -47
  | TRANSPORT_INTERNAL_ERROR => -48
  | TRANSPORT_ACK_TIMEOUT => -49
  | TRANSPORT_INTERPACKET_ACK_TIMEOUT => -50
  | TRANSPORT_DEFERRED_END_TIMEOUT => -51
  | TRANSPORT_END_TIMEOUT => -52
  | TRANSPORT_INIT_AT_FAILURE => -53
  | TRANSPORT_INIT_CREG5_TIMEOUT => -54
  | TRANSPORT_INIT_CREG_REFUSED => -55
  | TRANSPORT_BUFFER_TOO_SMALL => -56
  | TRANSPORT_INIT_UDP_NETWORK_RESET_FAILED => -57
  | TRANSPORT_INIT_UDP_NETWORK_OPEN_FAILED => -58
  | TRANSPORT_INIT_UDP_NETWORK_ATTACH_FAILED => -59
  | TRANSPORT_INIT_APN_SETUP_FAILED => -60
  | TRANSPORT_INIT_UDP_IP_ADDR_FAILED => -61
  | TRANSPORT_INIT_UDP_CONNECT_FAILED => -62
  | TRANSPORT_INIT_UDP_SOCKET_CREATE_FAILED => -63
  | TRANSPORT_MODEM_ERROR => -64
  | TRANSPORT_MODEM_CME_ERROR => -65
  | TRANSPORT_MODEM_FORCED_RESET => -66
  | TRANSPORT_MODEM_CUSD2_ERROR => -67
  | TRANSPORT_MODEM_CUSD3_ERROR => -68
  | TRANSPORT_MODEM_CUSD4_ERROR => -69
  | TRANSPORT_MODEM_CUSD5_ERROR => -70
  | TRANSPORT_LAST_MODEM_ERROR => -70
  | TRANSPORT_MODEM_WITH_LINE_BUFFER_ERROR => -71
  | TRANSPORT_MODEM_USSD_BASE64_ERROR => -72
  | TRANSPORT_MODEM_SEND_RETRY_REQUEST => -73
  | TRANSPORT_INVALID_STACK => -74
  | TRANSPORT_ERROR_FROM_SERVER => -75
  | CLIENT_MAX_ERROR => -127

/-- The C identifier of each enumerator. -/
def name : ThingstreamResult → String
  | CLIENT_SUCCESS => "CLIENT_SUCCESS"
  | TRANSPORT_SUCCESS => "TRANSPORT_SUCCESS"
  | CLIENT_COMMAND_RETRY => "CLIENT_COMMAND_RETRY"
  | CLIENT_COMMAND_IN_PROGRESS => "CLIENT_COMMAND_IN_PROGRESS"
  | CLIENT_PUBLISH_TOO_LONG => "CLIENT_PUBLISH_TOO_LONG"
  | CLIENT_OPERATION_TIMED_OUT => "CLIENT_OPERATION_TIMED_OUT"
  | CLIENT_DOMAIN_KEY_INVALID => "CLIENT_DOMAIN_KEY_INVALID"
  | CLIENT_CLIENT_ID_INVALID => "CLIENT_CLIENT_ID_INVALID"
  | CLIENT_NOT_CONNECTED => "CLIENT_NOT_CONNECTED"
  | CLIENT_FEATURE_NOT_IMPLEMENTED => "CLIENT_FEATURE_NOT_IMPLEMENTED"
  | CLIENT_ILLEGAL_ARGUMENT => "CLIENT_ILLEGAL_ARGUMENT"
  | CLIENT_MQTTSN_DECODE_ERROR => "CLIENT_MQTTSN_DECODE_ERROR"
  | CLIENT_TOPIC_INVALID => "CLIENT_TOPIC_INVALID"
  | CLIENT_CONGESTION => "CLIENT_CONGESTION"
  | CLIENT_WRONG_STATE => "CLIENT_WRONG_STATE"
  | CLIENT_CONNECT_BAD_ACK => "CLIENT_CONNECT_BAD_ACK"
  | CLIENT_REGISTER_BAD_ACK => "CLIENT_REGISTER_BAD_ACK"
  | CLIENT_PUBLISH_BAD_ACK => "CLIENT_PUBLISH_BAD_ACK"
  | CLIENT_SUBSCRIBE_BAD_ACK => "CLIENT_SUBSCRIBE_BAD_ACK"
  | CLIENT_UNSUBSCRIBE_BAD_ACK => "CLIENT_UNSUBSCRIBE_BAD_ACK"
  | CLIENT_INFORMATION_NOT_AVAILABLE => "CLIENT_INFORMATION_NOT_AVAILABLE"
  | CLIENT_RECURSIVE_CALL => "CLIENT_RECURSIVE_CALL"
  | CLIENT_UNKNOWN_TRANSPORT_ERROR => "CLIENT_UNKNOWN_TRANSPORT_ERROR"
  | TRANSPORT_ERROR => "TRANSPORT_ERROR"
  | TRANSPORT_VERSION_MISMATCH => "TRANSPORT_VERSION_MISMATCH"
  | TRANSPORT_UNEXPECTED_DATA => "TRANSPORT_UNEXPECTED_DATA"
  | TRANSPORT_INIT_TIMEOUT => "TRANSPORT_INIT_TIMEOUT"
  | TRANSPORT_READ_TIMEOUT => "TRANSPORT_READ_TIMEOUT"
  | TRANSPORT_READ_OVERFLOW => "TRANSPORT_READ_OVERFLOW"
  | TRANSPORT_SEND_TIMEOUT => "TRANSPORT_SEND_TIMEOUT"
  | TRANSPORT_ILLEGAL_ARGUMENT => "TRANSPORT_ILLEGAL_ARGUMENT"
  | TRANSPORT_INTERNAL_ERROR => "TRANSPORT_INTERNAL_ERROR"
  | TRANSPORT_ACK_TIMEOUT => "TRANSPORT_ACK_TIMEOUT"
  | TRANSPORT_INTERPACKET_ACK_TIMEOUT => "TRANSPORT_INTERPACKET_ACK_TIMEOUT"
  | TRANSPORT_DEFERRED_END_TIMEOUT => "TRANSPORT_DEFERRED_END_TIMEOUT"
  | TRANSPORT_END_TIMEOUT => "TRANSPORT_END_TIMEOUT"
  | TRANSPORT_INIT_AT_FAILURE => "TRANSPORT_INIT_AT_FAILURE"
  | TRANSPORT_INIT_CREG5_TIMEOUT => "TRANSPORT_INIT_CREG5_TIMEOUT"
  | TRANSPORT_INIT_CREG_REFUSED => "TRANSPORT_INIT_CREG_REFUSED"
  | TRANSPORT_BUFFER_TOO_SMALL => "TRANSPORT_BUFFER_TOO_SMALL"
  | TRANSPORT_INIT_UDP_NETWORK_RESET_FAILED => "TRANSPORT_INIT_UDP_NETWORK_RESET_FAILED"
  | TRANSPORT_INIT_UDP_NETWORK_OPEN_FAILED => "TRANSPORT_INIT_UDP_NETWORK_OPEN_FAILED"
  | TRANSPORT_INIT_UDP_NETWORK_ATTACH_FAILED => "TRANSPORT_INIT_UDP_NETWORK_ATTACH_FAILED"
  | TRANSPORT_INIT_APN_SETUP_FAILED => "TRANSPORT_INIT_APN_SETUP_FAILED"
  | TRANSPORT_INIT_UDP_IP_ADDR_FAILED => "TRANSPORT_INIT_UDP_IP_ADDR_FAILED"
  | TRANSPORT_INIT_UDP_CONNECT_FAILED => "TRANSPORT_INIT_UDP_CONNECT_FAILED"
  | TRANSPORT_INIT_UDP_SOCKET_CREATE_FAILED => "TRANSPORT_INIT_UDP_SOCKET_CREATE_FAILED"
  | TRANSPORT_MODEM_ERROR => "TRANSPORT_MODEM_ERROR"
  | TRANSPORT_MODEM_CME_ERROR => "TRANSPORT_MODEM_CME_ERROR"
  | TRANSPORT_MODEM_FORCED_RESET => "TRANSPORT_MODEM_FORCED_RESET"
  | TRANSPORT_MODEM_CUSD2_ERROR => "TRANSPORT_MODEM_CUSD2_ERROR"
  | TRANSPORT_MODEM_CUSD3_ERROR => "TRANSPORT_MODEM_CUSD3_ERROR"
  | TRANSPORT_MODEM_CUSD4_ERROR => "TRANSPORT_MODEM_CUSD4_ERROR"
  | TRANSPORT_MODEM_CUSD5_ERROR => "TRANSPORT_MODEM_CUSD5_ERROR"
  | TRANSPORT_LAST_MODEM_ERROR => "TRANSPORT_LAST_MODEM_ERROR"
  | TRANSPORT_MODEM_WITH_LINE_BUFFER_ERROR => "TRANSPORT_MODEM_WITH_LINE_BUFFER_ERROR"
  | TRANSPORT_MODEM_USSD_BASE64_ERROR => "TRANSPORT_MODEM_USSD_BASE64_ERROR"
  | TRANSPORT_MODEM_SEND_RETRY_REQUEST => "TRANSPORT_MODEM_SEND_RETRY_REQUEST"
  | TRANSPORT_INVALID_STACK => "TRANSPORT_INVALID_STACK"
  | TRANSPORT_ERROR_FROM_SERVER => "TRANSPORT_ERROR_FROM_SERVER"
  | CLIENT_MAX_ERROR => "CLIENT_MAX_ERROR"

/-- Every enumerator, in declaration order. -/
def all : List ThingstreamResult :=
  [CLIENT_SUCCESS, TRANSPORT_SUCCESS, CLIENT_COMMAND_RETRY, CLIENT_COMMAND_IN_PROGRESS,
   CLIENT_PUBLISH_TOO_LONG, CLIENT_OPERATION_TIMED_OUT, CLIENT_DOMAIN_KEY_INVALID,
   CLIENT_CLIENT_ID_INVALID, CLIENT_NOT_CONNECTED, CLIENT_FEATURE_NOT_IMPLEMENTED,
   CLIENT_ILLEGAL_ARGUMENT, CLIENT_MQTTSN_DECODE_ERROR, CLIENT_TOPIC_INVALID,
   CLIENT_CONGESTION, CLIENT_WRONG_STATE, CLIENT_CONNECT_BAD_ACK, CLIENT_REGISTER_BAD_ACK,
   CLIENT_PUBLISH_BAD_ACK, CLIENT_SUBSCRIBE_BAD_ACK, CLIENT_UNSUBSCRIBE_BAD_ACK,
   CLIENT_INFORMATION_NOT_AVAILABLE, CLIENT_RECURSIVE_CALL, CLIENT_UNKNOWN_TRANSPORT_ERROR,
   TRANSPORT_ERROR, TRANSPORT_VERSION_MISMATCH, TRANSPORT_UNEXPECTED_DATA,
   TRANSPORT_INIT_TIMEOUT, TRANSPORT_READ_TIMEOUT, TRANSPORT_READ_OVERFLOW,
   TRANSPORT_SEND_TIMEOUT, TRANSPORT_ILLEGAL_ARGUMENT, TRANSPORT_INTERNAL_ERROR,
   TRANSPORT_ACK_TIMEOUT, TRANSPORT_INTERPACKET_ACK_TIMEOUT, TRANSPORT_DEFERRED_END_TIMEOUT,
   TRANSPORT_END_TIMEOUT, TRANSPORT_INIT_AT_FAILURE, TRANSPORT_INIT_CREG5_TIMEOUT,
   TRANSPORT_INIT_CREG_REFUSED, TRANSPORT_BUFFER_TOO_SMALL,
   TRANSPORT_INIT_UDP_NETWORK_RESET_FAILED, TRANSPORT_INIT_UDP_NETWORK_OPEN_FAILED,
   TRANSPORT_INIT_UDP_NETWORK_ATTACH_FAILED, TRANSPORT_INIT_APN_SETUP_FAILED,
   TRANSPORT_INIT_UDP_IP_ADDR_FAILED, TRANSPORT_INIT_UDP_CONNECT_FAILED,
   TRANSPORT_INIT_UDP_SOCKET_CREATE_FAILED, TRANSPORT_MODEM_ERROR, TRANSPORT_MODEM_CME_ERROR,
   TRANSPORT_MODEM_FORCED_RESET, TRANSPORT_MODEM_CUSD2_ERROR, TRANSPORT_MODEM_CUSD3_ERROR,
   TRANSPORT_MODEM_CUSD4_ERROR, TRANSPORT_MODEM_CUSD5_ERROR, TRANSPORT_LAST_MODEM_ERROR,
   TRANSPORT_MODEM_WITH_LINE_BUFFER_ERROR, TRANSPORT_MODEM_USSD_BASE64_ERROR,
   TRANSPORT_MODEM_SEND_RETRY_REQUEST, TRANSPORT_INVALID_STACK, TRANSPORT_ERROR_FROM_SERVER,
   CLIENT_MAX_ERROR]

/-- The enumerator's identifier starts with `CLIENT_`. -/
def isClient (e : ThingstreamResult) : Bool := "CLIENT_".data.isPrefixOf e.name.data

/-- The enumerator's identifier starts with `TRANSPORT_`. -/
def isTransport (e : ThingstreamResult) : Bool := "TRANSPORT_".data.isPrefixOf e.name.data

end ThingstreamResult

end Thingstream

namespace Thingstream

/-! ## transport_api.h -/

/-- The macro `THINGSTREAM_IS_MODEM_OPERATION_ERROR(tRes)`:
`(((tRes) <= TRANSPORT_MODEM_ERROR) && ((tRes) >= TRANSPORT_LAST_MODEM_ERROR))`. -/
def THINGSTREAM_IS_MODEM_OPERATION_ERROR (tRes : Int) : Bool :=
  decide (tRes ≤ ThingstreamResult.TRANSPORT_MODEM_ERROR.toInt)
    && decide (tRes ≥ ThingstreamResult.TRANSPORT_LAST_MODEM_ERROR.toInt)

def TRANSPORT_VERSION_MASK : Nat := 0x003f
def TRANSPORT_VERSION_FLAG_CLIENT : Nat := 0x0040
def TRANSPORT_VERSION_FLAG_PROTOCOL : Nat := 0x0080
def TRANSPORT_VERSION_FLAG_BASE64 : Nat := 0x0100
def TRANSPORT_VERSION_FLAG_DTLS : Nat := 0x0200

/-- The macro `TRANSPORT_API_VERSION(v)`:
`((v) + ((sizeof(ThingstreamTransportResult) - 1) << 4))`.  The size of the
enum type is fixed by the toolchain, so it is the parameter `s` (at least 1;
no `size_t` wraparound occurs for any `s` below `2 ^ 28`). -/
def TRANSPORT_API_VERSION (s v : Nat) : Nat := v + ((s - 1) <<< 4)

/-- The macro `TRANSPORT_VERSION_1`. -/
def TRANSPORT_VERSION_1 (s : Nat) : Nat := TRANSPORT_API_VERSION s 1

/-- The macro `TRANSPORT_CHECK_VERSION_1(passed)`:
`(((passed) & TRANSPORT_VERSION_MASK) == TRANSPORT_VERSION_1)`. -/
def TRANSPORT_CHECK_VERSION_1 (s passed : Nat) : Bool :=
  (passed &&& TRANSPORT_VERSION_MASK) == TRANSPORT_VERSION_1 s

/-- An OR-combination of the four information flag bits. -/
def versionFlags (client protocol base64 dtls : Bool) : Nat :=
  (if client then TRANSPORT_VERSION_FLAG_CLIENT else 0)
    ||| (if protocol then TRANSPORT_VERSION_FLAG_PROTOCOL else 0)
    ||| (if base64 then TRANSPORT_VERSION_FLAG_BASE64 else 0)
    ||| (if dtls then TRANSPORT_VERSION_FLAG_DTLS else 0)

end Thingstream

namespace Thingstream

/-! ## custom_modem_transport.c -/

/-- The struct `CustomModemState`.  Function and data pointers are `Option Nat`
(`none` is `NULL`); the receive buffer is a list of `BUFFER_SIZE` bytes. -/
structure CustomModemState where
  callback : Option Nat
  cookie : Option Nat
  buffer : List Nat
  deriving DecidableEq, Repr

/-- The function `custom_modem_init`; `s` is `sizeof(ThingstreamTransportResult)`. -/
def custom_modem_init (s : Nat) (state : CustomModemState) (version : Nat) :
    CustomModemState × Int :=
  if !TRANSPORT_CHECK_VERSION_1 s version then
    (state, ThingstreamResult.TRANSPORT_VERSION_MISMATCH.toInt)
  else
    ({ state with callback := none }, ThingstreamResult.TRANSPORT_SUCCESS.toInt)

/-- The function `custom_modem_shutdown`. -/
def custom_modem_shutdown (state : CustomModemState) : CustomModemState × Int :=
  ({ state with callback := none }, ThingstreamResult.TRANSPORT_SUCCESS.toInt)

/-- The function `custom_modem_get_buffer`: the out-parameters receive the
buffer and its size. -/
def custom_modem_get_buffer (state : CustomModemState) :
    CustomModemState × (List Nat × Nat) × Int :=
  (state, (state.buffer, state.buffer.length), ThingstreamResult.TRANSPORT_SUCCESS.toInt)

/-- The function `custom_modem_send` (its body is a placeholder in the template). -/
def custom_modem_send (state : CustomModemState) (_flags : Nat) (_data : List Nat)
    (_len : Nat) (_millis : Nat) : CustomModemState × Int :=
  (state, ThingstreamResult.TRANSPORT_SUCCESS.toInt)

/-- The function `custom_modem_register_transport_callback`. -/
def custom_modem_register_transport_callback (state : CustomModemState)
    (callback : Option Nat) (cookie : Option Nat) : CustomModemState × Int :=
  ({ state with callback := callback, cookie := cookie },
    ThingstreamResult.TRANSPORT_SUCCESS.toInt)

/-- The function `custom_modem_run` (its body is a placeholder in the template). -/
def custom_modem_run (state : CustomModemState) (_millis : Nat) : CustomModemState × Int :=
  (state, ThingstreamResult.TRANSPORT_SUCCESS.toInt)

/-- A call through one of the slots of `struct ThingstreamTransport`. -/
inductive TransportOp
  | init (version : Nat)
  | shutdown
  | get_buffer
  | send (flags : Nat) (data : List Nat) (len : Nat) (millis : Nat)
  | register_callback (callback : Option Nat) (cookie : Option Nat)
  | run (millis : Nat)
  deriving DecidableEq, Repr

/-- The call is a `register_callback`. -/
def TransportOp.isRegister : TransportOp → Bool
  | .register_callback _ _ => true
  | _ => false

/-- Dispatch of a slot call through `_custom_modem_transport_instance`. -/
def custom_modem_call (s : Nat) (state : CustomModemState) : TransportOp → CustomModemState × Int
  | .init version => custom_modem_init s state version
  | .shutdown => custom_modem_shutdown state
  | .get_buffer => ((custom_modem_get_buffer state).1, (custom_modem_get_buffer state).2.2)
  | .send flags data len millis => custom_modem_send state flags data len millis
  | .register_callback callback cookie =>
      custom_modem_register_transport_callback state callback cookie
  | .run millis => custom_modem_run state millis

/-- The state after a sequence of slot calls. -/
def custom_modem_calls (s : Nat) (state : CustomModemState) (ops : List TransportOp) :
    CustomModemState :=
  ops.foldl (fun st op => (custom_modem_call s st op).1) state

/-- The slot call clears the stored callback: `shutdown`, or `init` with an
accepted version. -/
def custom_modem_clears (s : Nat) : TransportOp → Bool
  | .init version => TRANSPORT_CHECK_VERSION_1 s version
  | .shutdown => true
  | _ => false

/-! ## serial_transport.c -/

/-- The macro `MAX_TX_BUFFER`. -/
def MAX_TX_BUFFER : Nat := 64

/-- A request issued to the UART driver on `state->uart`. -/
inductive UartOp
  | rx (len : Nat)
  | tx (data : List Nat) (len : Nat)
  | tx_abort
  | uninit
  deriving DecidableEq, Repr

/-- The struct `SerialTransportState`.  The field `uart` records the requests
issued to the driver instance, oldest first. -/
structure SerialTransportState where
  callback : Option Nat
  callback_cookie : Option Nat
  uart : List UartOp
  rx_buffer : List Nat
  tx_buffer : List Nat
  tx_busy : Bool
  deriving DecidableEq, Repr

/-- The function `serial_init`; `s` is `sizeof(ThingstreamTransportResult)` and
`rx_ok` tells whether `nrf_drv_uart_rx` returned `NRF_SUCCESS`. -/
def serial_init (s : Nat) (rx_ok : Bool) (state : SerialTransportState) (version : Nat) :
    SerialTransportState × Int :=
  if !TRANSPORT_CHECK_VERSION_1 s version then
    (state, ThingstreamResult.TRANSPORT_VERSION_MISMATCH.toInt)
  else
    let state1 := { state with uart := state.uart ++ [UartOp.rx state.rx_buffer.length] }
    if rx_ok then (state1, ThingstreamResult.TRANSPORT_SUCCESS.toInt)
    else (state1, ThingstreamResult.TRANSPORT_ERROR.toInt)

end Thingstream

namespace Thingstream

/-! ## client_api.h -/

/-- The enumerator `topicTypeNormal` of `enum TopicType`. -/
def topicTypeNormal : Nat := 0
/-- The enumerator `topicTypePredefined` of `enum TopicType`. -/
def topicTypePredefined : Nat := 1
/-- The enumerator `topicTypeShort` of `enum TopicType`. -/
def topicTypeShort : Nat := 2

/-- The struct `ThingstreamTopic`. -/
structure ThingstreamTopic where
  topicType : Nat
  topicId : Nat
  deriving DecidableEq, Repr

/-- The macro `MAKE_PREDEFINED_TOPIC(id)`: the `uint16_t` field `topicId`
receives `id`. -/
def MAKE_PREDEFINED_TOPIC (id : Nat) : ThingstreamTopic :=
  { topicType := topicTypePredefined, topicId := id % 65536 }

/-- The enumerator `ThingstreamQOSM1`. -/
def ThingstreamQOSM1 : Int := -1
/-- The enumerator `ThingstreamQOS0`. -/
def ThingstreamQOS0 : Int := 0
/-- The enumerator `ThingstreamQOS1`. -/
def ThingstreamQOS1 : Int := 1
/-- The enumerator `ThingstreamQOS2`. -/
def ThingstreamQOS2 : Int := 2

/-- The macro `Thingstream_Client_destroy(client)`:
`((void)(client), CLIENT_SUCCESS)`. -/
def Thingstream_Client_destroy (_client : Option Nat) : Int :=
  ThingstreamResult.CLIENT_SUCCESS.toInt

/-- The `uint32_t` value returned by `Thingstream_Platform_getTimeMillis()` when
the platform clock reads `reading`. -/
def Thingstream_Platform_getTimeMillis (reading : Nat) : Nat := reading % U32

/-! ## predefined_topics.c -/

/-- The constant `Thingstream_PredefinedSelfTopic`. -/
def Thingstream_PredefinedSelfTopic : ThingstreamTopic := MAKE_PREDEFINED_TOPIC 1

/-! ## Calls made by the examples into the SDK and the platform -/

/-- The stack constructors called by the examples. -/
inductive Layer
  | RingBufferTransport
  | ModemLogger
  | ModemTransport
  | Base64CodecTransport
  | ProtocolTransport
  | ClientLogger
  deriving DecidableEq, Repr

/-- One call of an external function, with the arguments that matter and the
value it returned.  A client or transport pointer is `Option Nat`. -/
inductive Event
  | create (layer : Layer) (inner : Option Nat) (ret : Option Nat)
  | createClient (transport : Option Nat) (ret : Option Nat)
  | Client_init (client : Option Nat) (ret : Int)
  | Client_connect (client : Option Nat) (cleanSession : Bool) (keepAlive : Nat)
      (domainKey : Option String) (ret : Int)
  | Client_register (client : Option Nat) (topicName : String) (ret : Int)
  | Client_subscribeName (client : Option Nat) (topicName : String) (qos : Int) (ret : Int)
  | Client_publish (client : Option Nat) (topic : ThingstreamTopic) (qos : Int)
      (retained : Bool) (payload : String) (payloadlen : Nat) (ret : Int)
  | Client_run (client : Option Nat) (millis : Nat)
  | Client_disconnect (client : Option Nat) (duration : Nat) (ret : Int)
  | Client_shutdown (client : Option Nat) (ret : Int)
  | Client_getErrorText (cr : Int)
  | Platform_getTimeMillis (ret : Nat)
  | Platform_delayMillis (millis : Nat)
  | Util_printf (fmt : String) (arg : String)
  deriving DecidableEq, Repr

/-- The C identifier of the function an event calls. -/
def Event.name : Event → String
  | .create .RingBufferTransport _ _ => "Thingstream_createRingBufferTransport"
  | .create .ModemLogger _ _ => "Thingstream_createModemLogger"
  | .create .ModemTransport _ _ => "Thingstream_createModemTransport"
  | .create .Base64CodecTransport _ _ => "Thingstream_createBase64CodecTransport"
  | .create .ProtocolTransport _ _ => "Thingstream_createProtocolTransport"
  | .create .ClientLogger _ _ => "Thingstream_createClientLogger"
  | .createClient _ _ => "Thingstream_createClient"
  | .Client_init _ _ => "Thingstream_Client_init"
  | .Client_connect _ _ _ _ _ => "Thingstream_Client_connect"
  | .Client_register _ _ _ => "Thingstream_Client_register"
  | .Client_subscribeName _ _ _ _ => "Thingstream_Client_subscribeName"
  | .Client_publish _ _ _ _ _ _ _ => "Thingstream_Client_publish"
  | .Client_run _ _ => "Thingstream_Client_run"
  | .Client_disconnect _ _ _ => "Thingstream_Client_disconnect"
  | .Client_shutdown _ _ => "Thingstream_Client_shutdown"
  | .Client_getErrorText _ => "Thingstream_Client_getErrorText"
  | .Platform_getTimeMillis _ => "Thingstream_Platform_getTimeMillis"
  | .Platform_delayMillis _ => "Platform_delayMillis"
  | .Util_printf _ _ => "Thingstream_Util_printf"

/-- The event calls a `Thingstream_Client_xxx()` function. -/
def Event.isClientApi (e : Event) : Bool := "Thingstream_Client_".data.isPrefixOf e.name.data

/-- The event calls a `Thingstream_xxx()` function. -/
def Event.isThingstreamApi (e : Event) : Bool := "Thingstream_".data.isPrefixOf e.name.data

/-- The event is a call of `Thingstream_Client_connect`. -/
def Event.isConnect : Event → Bool
  | .Client_connect _ _ _ _ _ => true
  | _ => false

/-- The event is a call of `Thingstream_Client_publish`. -/
def Event.isPublish : Event → Bool
  | .Client_publish _ _ _ _ _ _ _ => true
  | _ => false

/-- The event is a call of `Thingstream_Client_init` that returned `CLIENT_SUCCESS`. -/
def Event.isInitSuccess : Event → Bool
  | .Client_init _ ret => ret == ThingstreamResult.CLIENT_SUCCESS.toInt
  | _ => false

/-! ## run_example.h -/

/-- The length `sizeof(msg) - 1` of a string literal stored in a `char` array. -/
def sizeofMinus1 (msg : String) : Nat := (msg.length + 1) - 1

/-- The macro `CHECK(msg, truth)`: report, then continue or `goto error`.  The
calls made so far are `tr`; `error` and `next` are the two continuations. -/
def CHECK {α : Type} (msg : String) (truth : Bool) (tr : List Event)
    (error : List Event → α) (next : List Event → α) : α :=
  if truth then next (tr ++ [Event.Util_printf "%s ok\n" msg])
  else error (tr ++ [Event.Util_printf "%s ERROR at line %d\n" msg])

/-- The macro `CHECK_CLIENT_SUCCESS(msg, cr, label)`: report, then continue or
`goto label`. -/
def CHECK_CLIENT_SUCCESS {α : Type} (msg : String) (cr : Int) (tr : List Event)
    (label : List Event → α) (next : List Event → α) : α :=
  if cr = ThingstreamResult.CLIENT_SUCCESS.toInt then
    next (tr ++ [Event.Util_printf "%s ok\n" msg])
  else
    label (tr ++ [Event.Client_getErrorText cr,
      Event.Util_printf "%s ERROR result=%d[%s] at line %d\n" msg])

/-- The build configuration and the results of the stack constructors that
every example calls at the start of `run_example`. -/
structure StackEnv where
  DEBUG_LOG_MODEM : Bool
  DEBUG_LOG_CLIENT : Bool
  ringBuffer : Option Nat
  modemLogger : Option Nat
  modem : Option Nat
  base64 : Option Nat
  protocol : Option Nat
  clientLogger : Option Nat

/-- The stack creation sequence shared by the `run_example` functions, up to
and including `Thingstream_createModemTransport`: on success `next` receives
the modem transport. -/
def createModemStack {α : Type} (env : StackEnv) (transport : Option Nat) (tr : List Event)
    (error : List Event → α) (next : Option Nat → List Event → α) : α :=
  let t1 := env.ringBuffer
  CHECK "ring_buffer" t1.isSome (tr ++ [Event.create .RingBufferTransport transport t1]) error
    fun tr1 =>
  let afterLogger := fun (t2 : Option Nat) (tr2 : List Event) =>
    let t3 := env.modem
    CHECK "modem" t3.isSome (tr2 ++ [Event.create .ModemTransport t2 t3]) error fun tr3 =>
    next t3 tr3
  if env.DEBUG_LOG_MODEM then
    let t2 := env.modemLogger
    CHECK "log_modem" t2.isSome (tr1 ++ [Event.create .ModemLogger t1 t2]) error fun tr2 =>
    afterLogger t2 tr2
  else afterLogger t1 tr1

/-- The rest of the stack creation sequence shared by the `run_example`
functions, from `Thingstream_createBase64CodecTransport` on: on success `next`
receives the outermost transport. -/
def createProtocolStack {α : Type} (env : StackEnv) (transport : Option Nat) (tr : List Event)
    (error : List Event → α) (next : Option Nat → List Event → α) : α :=
  let t4 := env.base64
  CHECK "base64" t4.isSome (tr ++ [Event.create .Base64CodecTransport transport t4]) error
    fun tr4 =>
  let t5 := env.protocol
  CHECK "thingstream" t5.isSome (tr4 ++ [Event.create .ProtocolTransport t4 t5]) error
    fun tr5 =>
  if env.DEBUG_LOG_CLIENT then
    let t6 := env.clientLogger
    CHECK "log_client" t6.isSome (tr5 ++ [Event.create .ClientLogger t5 t6]) error fun tr6 =>
    next t6 tr6
  else next t5 tr5

/-! ## basic_publish.c -/

namespace basic_publish

/-- The results of the calls `run_example` makes. -/
structure Env extends StackEnv where
  client : Option Nat
  init : Int
  publish : Int
  shutdown : Int

/-- The string `msg` published by the example. -/
def msg : String := "Hello basic publish"

/-- The label `error:` of `run_example`. -/
def error (result : Int) (tr : List Event) : List Event × Int := (tr, result)

/-- The label `destroy:` of `run_example`. -/
def destroy (client : Option Nat) (result : Int) (tr : List Event) : List Event × Int :=
  let cr := Thingstream_Client_destroy client
  CHECK_CLIENT_SUCCESS "destroy" cr tr (error result) (error result)

/-- The label `shutdown:` of `run_example`. -/
def shutdown (env : Env) (client : Option Nat) (result : Int) (tr : List Event) :
    List Event × Int :=
  let cr := env.shutdown
  CHECK_CLIENT_SUCCESS "shutdown" cr (tr ++ [Event.Client_shutdown client cr])
    (destroy client result) (destroy client result)

/-- The part of `run_example` that follows the creation of the transport
stack, from `Thingstream_createClient` on. -/
def run_client (env : Env) (transport : Option Nat) (tr : List Event) : List Event × Int :=
  let client := env.client
  CHECK "client" client.isSome (tr ++ [Event.createClient transport client])
    (error ThingstreamResult.TRANSPORT_ERROR.toInt) fun tr1 =>
  let result := env.init
  CHECK_CLIENT_SUCCESS "client init" result (tr1 ++ [Event.Client_init client result])
    (destroy client result) fun tr2 =>
  let result := env.publish
  CHECK_CLIENT_SUCCESS "publish" result
    (tr2 ++ [Event.Client_publish client Thingstream_PredefinedSelfTopic ThingstreamQOSM1 false
      msg (sizeofMinus1 msg) result])
    (shutdown env client result) (shutdown env client result)

/-- The function `run_example`: the calls it makes, in order, and the value it
returns. -/
def run_example (env : Env) (transport : Option Nat) : List Event × Int :=
  createModemStack env.toStackEnv transport [] (error ThingstreamResult.TRANSPORT_ERROR.toInt)
    fun modem_transport tr =>
  createProtocolStack env.toStackEnv modem_transport tr
    (error ThingstreamResult.TRANSPORT_ERROR.toInt) fun transport1 tr1 =>
  run_client env transport1 tr1

/-- The callback `Thingstream_Application_modemCallback` of this example: the
calls it makes. -/
def Thingstream_Application_modemCallback (_response : String) (_len : Nat) : List Event := []

/-- The callback `Thingstream_Application_registerCallback` of this example. -/
def Thingstream_Application_registerCallback (_topicName : String) (_topic : ThingstreamTopic) :
    List Event := []

/-- The callback `Thingstream_Application_subscribeCallback` of this example. -/
def Thingstream_Application_subscribeCallback (_topic : ThingstreamTopic) (_qos : Int)
    (_payload : String) (_payloadlen : Nat) : List Event := []

end basic_publish

end Thingstream

namespace Thingstream

/-! ## Properties of call sequences -/

/-- Every event satisfying `q` comes after some event satisfying `p`. -/
def eachAfter (p q : Event → Bool) : List Event → Bool
  | [] => true
  | e :: es => if p e then true else (!q e && eachAfter p q es)

/-- The event is a stack constructor call or a progress report. -/
def Event.isSetup : Event → Bool
  | .create _ _ _ => true
  | .Util_printf _ _ => true
  | _ => false

end Thingstream

namespace Thingstream

/-! ## echo_test.c -/

namespace echo_test

/-- The macro `EXAMPLE_TOPIC`. -/
def EXAMPLE_TOPIC : String := "test/thingstream/echo"

/-- The string `msg` published by the example. -/
def msg : String := "Hello from Echo test"

/-- The file-scope variables `exampleTopicId` and `msg_received`. -/
structure Globals where
  exampleTopicId : Nat
  msg_received : Bool
  deriving DecidableEq, Repr

/-- The initial values of the file-scope variables. -/
def Globals.initial : Globals := { exampleTopicId := 0, msg_received := false }

/-- The arguments of one invocation of the subscribe callback by the SDK. -/
structure Delivery where
  topic : ThingstreamTopic
  qos : Int
  msg : String
  msgLen : Nat
  deriving DecidableEq, Repr

/-- The callback `Thingstream_Application_subscribeCallback` of this example:
the new values of the file-scope variables and the calls it makes. -/
def Thingstream_Application_subscribeCallback (g : Globals) (topic : ThingstreamTopic)
    (_qos : Int) (msg : String) (msgLen : Nat) : Globals × List Event :=
  if topic.topicId = g.exampleTopicId ∧ msgLen > 0 then
    ({ g with msg_received := true }, [Event.Util_printf "Received message: %s\n" msg])
  else (g, [])

/-- The callback `Thingstream_Application_modemCallback` of this example. -/
def Thingstream_Application_modemCallback (_response : String) (_len : Nat) : List Event := []

/-- The callback `Thingstream_Application_registerCallback` of this example. -/
def Thingstream_Application_registerCallback (_topicName : String) (_topic : ThingstreamTopic) :
    List Event := []

/-- The effect on the file-scope variables of the subscribe callbacks the SDK
invokes during one client call. -/
def deliver (g : Globals) (ds : List Delivery) : Globals :=
  ds.foldl (fun g d => (Thingstream_Application_subscribeCallback g d.topic d.qos d.msg
    d.msgLen).1) g

/-- The results of the calls `run_example` makes.  `clock n` is the `n`-th
reading of the millisecond clock, `inbound_run n` the messages delivered
during the `n`-th call of `Thingstream_Client_run`. -/
structure Env extends StackEnv where
  client : Option Nat
  init : Int
  connect : Int
  subscribe : Int
  topic : ThingstreamTopic
  publish : Int
  disconnect : Int
  shutdown : Int
  clock : Nat → Nat
  inbound_connect : List Delivery
  inbound_subscribe : List Delivery
  inbound_publish : List Delivery
  inbound_run : Nat → List Delivery

/-- The label `error:` of `run_example`. -/
def error (result : Int) (tr : List Event) : List Event × Option Int := (tr, some result)

/-- The label `destroy:` of `run_example`. -/
def destroy (client : Option Nat) (result : Int) (tr : List Event) : List Event × Option Int :=
  let cr := Thingstream_Client_destroy client
  CHECK_CLIENT_SUCCESS "destroy" cr tr (error result) (error result)

/-- The label `shutdown:` of `run_example`. -/
def shutdown (env : Env) (client : Option Nat) (result : Int) (tr : List Event) :
    List Event × Option Int :=
  let cr := env.shutdown
  CHECK_CLIENT_SUCCESS "shutdown" cr (tr ++ [Event.Client_shutdown client cr])
    (destroy client result) (destroy client result)

/-- The label `disconnect:` of `run_example`. -/
def disconnect (env : Env) (client : Option Nat) (result : Int) (tr : List Event) :
    List Event × Option Int :=
  let cr := env.disconnect
  CHECK_CLIENT_SUCCESS "disconnect" cr (tr ++ [Event.Client_disconnect client 0 cr])
    (shutdown env client result) (shutdown env client result)

/-- The `do ... while` loop of `run_example` that waits for the echoed message:
iteration `i` calls `Thingstream_Client_run(client, 1000)` and reads the clock.
The third component tells whether the loop ended within `fuel` iterations. -/
def waitLoop (env : Env) (client : Option Nat) (limit : Nat) :
    Nat → Nat → Globals → List Event → Globals × List Event × Bool
  | 0, _, g, tr => (g, tr, false)
  | fuel + 1, i, g, tr =>
    let g1 := deliver g (env.inbound_run i)
    let now := Thingstream_Platform_getTimeMillis (env.clock (i + 1))
    let tr1 := tr ++ [Event.Client_run client 1000, Event.Platform_getTimeMillis now]
    if TIME_COMPARE now Cmp.lt limit && !g1.msg_received then
      waitLoop env client limit fuel (i + 1) g1 tr1
    else (g1, tr1, true)

/-- The part of `run_example` that follows the creation of the transport
stack, from `Thingstream_createClient` on.  The result is `none` when the wait
loop did not end within `fuel` iterations. -/
def run_client (env : Env) (fuel : Nat) (g : Globals) (transport : Option Nat)
    (tr : List Event) : List Event × Option Int :=
  let client := env.client
  CHECK "client" client.isSome (tr ++ [Event.createClient transport client])
    (error ThingstreamResult.TRANSPORT_ERROR.toInt) fun tr1 =>
  let result := env.init
  CHECK_CLIENT_SUCCESS "client init" result (tr1 ++ [Event.Client_init client result])
    (destroy client result) fun tr2 =>
  let result := env.connect
  let g1 := deliver g env.inbound_connect
  CHECK_CLIENT_SUCCESS "connect" result
    (tr2 ++ [Event.Client_connect client true 0 none result])
    (shutdown env client result) fun tr3 =>
  let result := env.subscribe
  let g2 := deliver g1 env.inbound_subscribe
  let topic := env.topic
  CHECK_CLIENT_SUCCESS "subscribe" result
    (tr3 ++ [Event.Client_subscribeName client EXAMPLE_TOPIC ThingstreamQOS1 result])
    (disconnect env client result) fun tr4 =>
  let g3 := { g2 with exampleTopicId := topic.topicId }
  let result := env.publish
  let g4 := deliver g3 env.inbound_publish
  CHECK_CLIENT_SUCCESS "publish" result
    (tr4 ++ [Event.Client_publish client topic ThingstreamQOS1 false msg (sizeofMinus1 msg)
      result])
    (disconnect env client result) fun tr5 =>
  let now := Thingstream_Platform_getTimeMillis (env.clock 0)
  let limit := add32 now 60000
  let r := waitLoop env client limit fuel 0 g4 (tr5 ++ [Event.Platform_getTimeMillis now])
  if r.2.2 then disconnect env client result r.2.1 else (r.2.1, none)

/-- The function `run_example`: the calls it makes, in order, and the value it
returns (`none` when the wait loop did not end within `fuel` iterations). -/
def run_example (env : Env) (fuel : Nat) (g : Globals) (transport : Option Nat) :
    List Event × Option Int :=
  createModemStack env.toStackEnv transport []
    (error ThingstreamResult.TRANSPORT_ERROR.toInt) fun modem_transport tr =>
  createProtocolStack env.toStackEnv modem_transport tr
    (error ThingstreamResult.TRANSPORT_ERROR.toInt) fun transport1 tr1 =>
  run_client env fuel g transport1 tr1

end echo_test

end Thingstream

namespace Thingstream

/-! ## connected_sendAndReceive.c -/

namespace connected_sendAndReceive

/-- The constant `publish_topic_name`. -/
def publish_topic_name : String := "publish_test"
/-- The constant `subscribe_topic_name`. -/
def subscribe_topic_name : String := "test_receive"
/-- The variable `publish_interval` (seconds); the example never writes it. -/
def publish_interval : Nat := 60 * 60
/-- The variable `msg_check_interval` (seconds); the example never writes it. -/
def msg_check_interval : Nat := 5
/-- The string `msg` published by the example. -/
def msg : String := "Hello, connect, send and receive"

/-- The file-scope variables `client`, `publish_topic`, `receive_topic` and
`disconnectOrPubackError`, and the function-scope static `last_publish`. -/
structure Globals where
  client : Option Nat
  publish_topic : ThingstreamTopic
  receive_topic : ThingstreamTopic
  disconnectOrPubackError : Nat
  last_publish : Nat
  deriving DecidableEq, Repr

/-- The initial (zero) values of the static variables. -/
def Globals.initial : Globals :=
  { client := none, publish_topic := ⟨0, 0⟩, receive_topic := ⟨0, 0⟩,
    disconnectOrPubackError := 0, last_publish := 0 }

/-- The callback `Thingstream_Application_subscribeCallback` of this example:
the new values of the static variables and the calls it makes. -/
def Thingstream_Application_subscribeCallback (g : Globals) (_topic : ThingstreamTopic)
    (_qos : Int) (msg : String) (msgLen : Nat) : Globals × List Event :=
  if msgLen > 0 then (g, [Event.Util_printf "Received message: %s\n" msg]) else (g, [])

/-- The callback `Thingstream_Application_disconnectCallback`; `reading` is
what the platform clock shows when the callback reads it. -/
def Thingstream_Application_disconnectCallback (g : Globals) (reading : Nat) :
    Globals × List Event :=
  let now := Thingstream_Platform_getTimeMillis reading
  ({ g with disconnectOrPubackError := 1 ||| now }, [Event.Platform_getTimeMillis now])

/-- The callback `Thingstream_Application_pubackErrorCallback`; `reading` is
what the platform clock shows when the callback reads it. -/
def Thingstream_Application_pubackErrorCallback (g : Globals) (_resultCode : Int)
    (reading : Nat) : Globals × List Event :=
  let now := Thingstream_Platform_getTimeMillis reading
  ({ g with disconnectOrPubackError := 1 ||| add32 now (60 * 1000) },
    [Event.Platform_getTimeMillis now])

/-- The callback `Thingstream_Application_modemCallback` of this example. -/
def Thingstream_Application_modemCallback (_response : String) (_len : Nat) : List Event := []

/-- The callback `Thingstream_Application_registerCallback` of this example. -/
def Thingstream_Application_registerCallback (_topicName : String) (_topic : ThingstreamTopic) :
    List Event := []

/-- One invocation of an application callback by the SDK, with its arguments
and, where the callback reads the clock, the clock reading. -/
inductive Callback
  | subscribe (topic : ThingstreamTopic) (qos : Int) (msg : String) (msgLen : Nat)
  | disconnect (reading : Nat)
  | pubackError (resultCode : Int) (reading : Nat)
  deriving DecidableEq, Repr

/-- The effect of one callback invocation on the static variables. -/
def Callback.apply (g : Globals) : Callback → Globals
  | .subscribe topic qos msg msgLen =>
      (Thingstream_Application_subscribeCallback g topic qos msg msgLen).1
  | .disconnect reading => (Thingstream_Application_disconnectCallback g reading).1
  | .pubackError resultCode reading =>
      (Thingstream_Application_pubackErrorCallback g resultCode reading).1

/-- The effect on the static variables of the callbacks the SDK invokes during
one client call. -/
def callbacks (g : Globals) (cbs : List Callback) : Globals :=
  cbs.foldl Callback.apply g

/-- The results of the calls one execution of `publish_and_get_messages`
makes: return values, the topics stored through the out-parameters, the clock
reading, and the callbacks the SDK invokes during each client call. -/
structure Env where
  createClient : Option Nat
  init : Int
  connect : Int
  register : Int
  publish_topic : ThingstreamTopic
  subscribe : Int
  receive_topic : ThingstreamTopic
  publish : Int
  disconnect : Int
  shutdown : Int
  clock : Nat
  cb_init : List Callback
  cb_connect : List Callback
  cb_register : List Callback
  cb_subscribe : List Callback
  cb_publish : List Callback
  cb_run : List Callback
  cb_disconnect : List Callback
  cb_shutdown : List Callback

/-- The label `error:` of `publish_and_get_messages`. -/
def error (g : Globals) (tr : List Event) : Globals × List Event := (g, tr)

/-- The label `destroy:` of `publish_and_get_messages`. -/
def destroy (g : Globals) (tr : List Event) : Globals × List Event :=
  let cr := Thingstream_Client_destroy g.client
  CHECK_CLIENT_SUCCESS "destroy" cr tr (error g) fun tr1 =>
  error { g with disconnectOrPubackError := 0, client := none } tr1

/-- The label `shutdown:` of `publish_and_get_messages`. -/
def shutdown (env : Env) (g : Globals) (tr : List Event) : Globals × List Event :=
  let cr := env.shutdown
  let g1 := callbacks g env.cb_shutdown
  CHECK_CLIENT_SUCCESS "shutdown" cr (tr ++ [Event.Client_shutdown g.client cr])
    (destroy g1) (destroy g1)

/-- The label `disconnect:` of `publish_and_get_messages`. -/
def disconnect (env : Env) (g : Globals) (tr : List Event) : Globals × List Event :=
  let cr := env.disconnect
  let g1 := callbacks g env.cb_disconnect
  CHECK_CLIENT_SUCCESS "disconnect" cr (tr ++ [Event.Client_disconnect g.client 0 cr])
    (shutdown env g1) (shutdown env g1)

/-- The part of `publish_and_get_messages` after the `if ... else if`: publish
when the interval has passed, then `Thingstream_Client_run(client, 0)`. -/
def publish_section (env : Env) (g : Globals) (tr : List Event) : Globals × List Event :=
  let now := Thingstream_Platform_getTimeMillis env.clock
  let diff := sub32 now g.last_publish
  let tr1 := tr ++ [Event.Platform_getTimeMillis now]
  let finish := fun (g2 : Globals) (tr2 : List Event) =>
    (callbacks g2 env.cb_run, tr2 ++ [Event.Client_run g2.client 0])
  if diff > (publish_interval * 1000) % U32 then
    let g1 := { g with last_publish := now }
    let result := env.publish
    let g2 := callbacks g1 env.cb_publish
    CHECK_CLIENT_SUCCESS "publish" result
      (tr1 ++ [Event.Client_publish g1.client g1.publish_topic ThingstreamQOS1 false msg
        (sizeofMinus1 msg) result])
      (disconnect env g2) (finish g2)
  else finish g tr1

/-- The function `publish_and_get_messages`: the new values of the static
variables and the calls it makes, in order. -/
def publish_and_get_messages (env : Env) (transport : Option Nat) (g : Globals) :
    Globals × List Event :=
  if g.client = none then
    let g0 := { g with client := env.createClient }
    CHECK "client" g0.client.isSome [Event.createClient transport g0.client] (error g0)
      fun tr1 =>
    let result := env.init
    let g1 := callbacks g0 env.cb_init
    CHECK_CLIENT_SUCCESS "client init" result (tr1 ++ [Event.Client_init g0.client result])
      (destroy g1) fun tr2 =>
    let result := env.connect
    let g2 := callbacks g1 env.cb_connect
    CHECK_CLIENT_SUCCESS "connect" result
      (tr2 ++ [Event.Client_connect g1.client true 0 none result])
      (shutdown env g2) fun tr3 =>
    let result := env.register
    let g3 := callbacks { g2 with publish_topic := env.publish_topic } env.cb_register
    CHECK_CLIENT_SUCCESS "register" result
      (tr3 ++ [Event.Client_register g2.client publish_topic_name result])
      (disconnect env g3) fun tr4 =>
    let result := env.subscribe
    let g4 := callbacks { g3 with receive_topic := env.receive_topic } env.cb_subscribe
    CHECK_CLIENT_SUCCESS "subscribe" result
      (tr4 ++ [Event.Client_subscribeName g3.client subscribe_topic_name ThingstreamQOS1 result])
      (disconnect env g4) fun tr5 =>
    publish_section env g4 tr5
  else if g.disconnectOrPubackError ≠ 0 then
    let now := Thingstream_Platform_getTimeMillis env.clock
    let tr1 := [Event.Platform_getTimeMillis now]
    if TIME_COMPARE now Cmp.lt g.disconnectOrPubackError then
      (callbacks g env.cb_run, tr1 ++ [Event.Client_run g.client 10])
    else disconnect env g tr1
  else publish_section env g []

/-- The `for (;;)` loop of `run_example`: one element of `envs` per iteration.
The loop has no exit, so only the static variables and the calls are returned. -/
def loop (transport : Option Nat) : List Env → Globals → Globals × List Event
  | [], g => (g, [])
  | env :: envs, g =>
    let r := publish_and_get_messages env transport g
    let r2 := loop transport envs r.1
    (r2.1, r.2 ++ Event.Platform_delayMillis (msg_check_interval * 1000) :: r2.2)

/-- The function `run_example`: the calls made during the first
`envs.length` iterations of its loop, and the value returned (`none` while the
loop is still running). -/
def run_example (senv : StackEnv) (envs : List Env) (g : Globals) (transport : Option Nat) :
    List Event × Option Int :=
  createModemStack senv transport []
    (fun tr => (tr, some ThingstreamResult.TRANSPORT_ERROR.toInt)) fun modem_transport tr =>
  createProtocolStack senv modem_transport tr
    (fun tr => (tr, some ThingstreamResult.TRANSPORT_ERROR.toInt)) fun transport1 tr1 =>
  (tr1 ++ (loop transport1 envs g).2, none)

end connected_sendAndReceive

end Thingstream

namespace Thingstream

/-! ## sensor_predefined_topic.c -/

namespace sensor_predefined_topic

/-- The struct `Sensor`. -/
structure Sensor where
  temperature : Int
  pressure : Nat
  voltage : Nat
  charge : Nat
  deriving DecidableEq, Repr

/-- The constant `PredefinedTemperatureTopic`. -/
def PredefinedTemperatureTopic : ThingstreamTopic := MAKE_PREDEFINED_TOPIC 300
/-- The constant `PredefinedPressureTopic`. -/
def PredefinedPressureTopic : ThingstreamTopic := MAKE_PREDEFINED_TOPIC 301
/-- The constant `PredefinedBatteryVoltageTopic`. -/
def PredefinedBatteryVoltageTopic : ThingstreamTopic := MAKE_PREDEFINED_TOPIC 302
/-- The constant `PredefinedBatteryChargeTopic`. -/
def PredefinedBatteryChargeTopic : ThingstreamTopic := MAKE_PREDEFINED_TOPIC 303

/-- The macro `PUBLISH_COUNT_LIMIT`. -/
def PUBLISH_COUNT_LIMIT : Int := 10

/-- The file-scope variables `previous` and `count`. -/
structure Globals where
  previous : Sensor
  count : Int
  deriving DecidableEq, Repr

/-- The initial (zero) values of the file-scope variables. -/
def Globals.initial : Globals := { previous := ⟨0, 0, 0, 0⟩, count := 0 }

/-- The results of the calls one execution of `publish_sensor_changes` makes.
The sensor functions `Platform_getTemperature`, `Platform_getPressure` and
`Platform_getBatteryState` are weak symbols the platform may replace: each
reading is `some` value when the function returned true. -/
structure Env where
  temperature : Option Int
  pressure : Option Nat
  battery : Option (Nat × Nat)
  createClient : Option Nat
  init : Int
  connect : Int
  publish_temperature : Int
  publish_pressure : Int
  publish_voltage : Int
  publish_charge : Int
  disconnect : Int
  shutdown : Int

/-- The function `reportInvalidTopic`: the calls it makes. -/
def reportInvalidTopic (topic : ThingstreamTopic) (topicName : String) : List Event :=
  if topic.topicType = topicTypePredefined then
    [Event.Util_printf
      ("\n\n" ++ String.mk (List.replicate 72 '=') ++ "\n"
        ++ "The predefined topic '%s' with alias %d\n"
        ++ "has not been defined in the Thingstream portal.\n"
        ++ String.mk (List.replicate 72 '=') ++ "\n\n\n") topicName]
  else []

/-- The label `error:` of `publish_sensor_changes`. -/
def error (g : Globals) (tr : List Event) : Globals × List Event := (g, tr)

/-- The label `destroy:` of `publish_sensor_changes`. -/
def destroy (client : Option Nat) (g : Globals) (tr : List Event) : Globals × List Event :=
  let cr := Thingstream_Client_destroy client
  CHECK_CLIENT_SUCCESS "destroy" cr tr (error g) (error g)

/-- The label `shutdown:` of `publish_sensor_changes`. -/
def shutdown (env : Env) (client : Option Nat) (g : Globals) (tr : List Event) :
    Globals × List Event :=
  let cr := env.shutdown
  CHECK_CLIENT_SUCCESS "shutdown" cr (tr ++ [Event.Client_shutdown client cr])
    (destroy client g) (destroy client g)

/-- The label `disconnect:` of `publish_sensor_changes`. -/
def disconnect (env : Env) (client : Option Nat) (g : Globals) (tr : List Event) :
    Globals × List Event :=
  let cr := env.disconnect
  CHECK_CLIENT_SUCCESS "disconnect" cr (tr ++ [Event.Client_disconnect client 0 cr])
    (shutdown env client g) (shutdown env client g)

/-- One of the four `if (current.x != previous.x)` blocks of
`publish_sensor_changes`: publish the value as decimal text at QoS 1, report an
invalid topic or check the result, then store the value and count. -/
def publish_block {α : Type} (changed : Bool) (client : Option Nat) (topic : ThingstreamTopic)
    (topicName : String) (checkName : String) (text : String) (result : Int)
    (g : Globals) (store : Globals → Globals) (tr : List Event)
    (disconnect : Globals → List Event → α) (next : Globals → List Event → α) : α :=
  if changed then
    let tr1 := tr ++ [Event.Client_publish client topic ThingstreamQOS1 false text text.length
      result]
    let after := fun (tr2 : List Event) =>
      next { store g with count := g.count + 1 } tr2
    if result = ThingstreamResult.CLIENT_TOPIC_INVALID.toInt then
      after (tr1 ++ reportInvalidTopic topic topicName)
    else
      CHECK_CLIENT_SUCCESS checkName result tr1 (disconnect g) after
  else next g tr

/-- The function `publish_sensor_changes`: the new values of the file-scope
variables and the calls it makes, in order. -/
def publish_sensor_changes (env : Env) (transport : Option Nat) (g : Globals) :
    Globals × List Event :=
  let previous := g.previous
  let current : Sensor :=
    { temperature := env.temperature.getD previous.temperature
      pressure := env.pressure.getD previous.pressure
      voltage := (env.battery.map Prod.fst).getD previous.voltage
      charge := (env.battery.map Prod.snd).getD previous.charge }
  if current.temperature = previous.temperature ∧ current.pressure = previous.pressure
      ∧ current.voltage = previous.voltage ∧ current.charge = previous.charge then
    (g, [])
  else
    let client := env.createClient
    CHECK "client" client.isSome [Event.createClient transport client] (error g) fun tr1 =>
    let result := env.init
    CHECK_CLIENT_SUCCESS "client init" result (tr1 ++ [Event.Client_init client result])
      (destroy client g) fun tr2 =>
    let result := env.connect
    CHECK_CLIENT_SUCCESS "connect" result
      (tr2 ++ [Event.Client_connect client true 0 none result])
      (shutdown env client g) fun tr3 =>
    publish_block (decide (current.temperature ≠ g.previous.temperature)) client
      PredefinedTemperatureTopic "sensor/temperature" "publish temperature"
      (toString current.temperature) env.publish_temperature g
      (fun g => { g with previous := { g.previous with temperature := current.temperature } })
      tr3 (disconnect env client) fun g1 tr4 =>
    publish_block (decide (current.pressure ≠ g1.previous.pressure)) client
      PredefinedPressureTopic "sensor/pressure" "publish pressure"
      (toString current.pressure) env.publish_pressure g1
      (fun g => { g with previous := { g.previous with pressure := current.pressure } })
      tr4 (disconnect env client) fun g2 tr5 =>
    publish_block (decide (current.voltage ≠ g2.previous.voltage)) client
      PredefinedBatteryVoltageTopic "sensor/battery/voltage" "publish voltage"
      (toString current.voltage) env.publish_voltage g2
      (fun g => { g with previous := { g.previous with voltage := current.voltage } })
      tr5 (disconnect env client) fun g3 tr6 =>
    publish_block (decide (current.charge ≠ g3.previous.charge)) client
      PredefinedBatteryChargeTopic "sensor/battery/charge" "publish charge"
      (toString current.charge) env.publish_charge g3
      (fun g => { g with previous := { g.previous with charge := current.charge } })
      tr6 (disconnect env client) fun g4 tr7 =>
    disconnect env client g4 tr7

/-- The `for (;;)` loop of `run_example`: one element of `envs` per iteration.
The result is `none` when the publish count limit was not reached within
`envs.length` iterations. -/
def loop (transport : Option Nat) : List Env → Globals → List Event × Option Int
  | [], g =>
    if g.count ≥ PUBLISH_COUNT_LIMIT then
      ([Event.Util_printf "sensor_predefined_topic completed\n" ""],
        some ThingstreamResult.TRANSPORT_SUCCESS.toInt)
    else ([], none)
  | env :: envs, g =>
    if g.count ≥ PUBLISH_COUNT_LIMIT then
      ([Event.Util_printf "sensor_predefined_topic completed\n" ""],
        some ThingstreamResult.TRANSPORT_SUCCESS.toInt)
    else
      let r := publish_sensor_changes env transport g
      let r2 := loop transport envs r.1
      (r.2 ++ Event.Platform_delayMillis 30000 :: r2.1, r2.2)

/-- The function `run_example`: the calls it makes, in order, and the value it
returns (`none` while the loop is still running after `envs.length`
iterations). -/
def run_example (senv : StackEnv) (envs : List Env) (g : Globals) (transport : Option Nat) :
    List Event × Option Int :=
  createModemStack senv transport []
    (fun tr => (tr, some ThingstreamResult.TRANSPORT_ERROR.toInt)) fun modem_transport tr =>
  createProtocolStack senv modem_transport tr
    (fun tr => (tr, some ThingstreamResult.TRANSPORT_ERROR.toInt)) fun transport1 tr1 =>
  (tr1 ++ (loop transport1 envs g).1, (loop transport1 envs g).2)

/-- The callback `Thingstream_Application_modemCallback` of this example. -/
def Thingstream_Application_modemCallback (_response : String) (_len : Nat) : List Event := []

/-- The callback `Thingstream_Application_registerCallback` of this example. -/
def Thingstream_Application_registerCallback (_topicName : String) (_topic : ThingstreamTopic) :
    List Event := []

/-- The callback `Thingstream_Application_subscribeCallback` of this example. -/
def Thingstream_Application_subscribeCallback (_topic : ThingstreamTopic) (_qos : Int)
    (_payload : String) (_payloadlen : Nat) : List Event := []

end sensor_predefined_topic

end Thingstream

namespace Thingstream

/-! ## early_setup.c -/

namespace early_setup

/-- The test `strncmp(s1, s2, n) == 0` for strings without embedded NUL. -/
def strncmp_eq0 (s1 s2 : String) (n : Nat) : Bool := s1.data.take n == s2.data.take n

/-- The file-scope variable `device_ready`. -/
structure Globals where
  device_ready : Bool
  deriving DecidableEq, Repr

/-- The callback `Thingstream_Application_modemCallback` of this example: the
new value of `device_ready` and the calls it makes. -/
def Thingstream_Application_modemCallback (g : Globals) (response : String) (_len : Nat) :
    Globals × List Event :=
  let r1 : Globals × List Event :=
    if strncmp_eq0 "+CPIN: READY" response 12 then
      ({ g with device_ready := true }, [Event.Util_printf "CPIN? response: %s\n" response])
    else (g, [])
  if strncmp_eq0 "2345" response 4 then
    (r1.1, r1.2 ++ [Event.Util_printf "IMSI is %s\n" response])
  else r1

/-- The callback `Thingstream_Application_registerCallback` of this example. -/
def Thingstream_Application_registerCallback (_topicName : String) (_topic : ThingstreamTopic) :
    List Event := []

/-- The callback `Thingstream_Application_subscribeCallback` of this example. -/
def Thingstream_Application_subscribeCallback (_topic : ThingstreamTopic) (_qos : Int)
    (_payload : String) (_payloadlen : Nat) : List Event := []

end early_setup

/-! ## long_message.c -/

namespace long_message

/-- The callback `Thingstream_Application_modemCallback` of this example. -/
def Thingstream_Application_modemCallback (_response : String) (_len : Nat) : List Event := []

/-- The callback `Thingstream_Application_registerCallback` of this example. -/
def Thingstream_Application_registerCallback (_topicName : String) (_topic : ThingstreamTopic) :
    List Event := []

/-- The callback `Thingstream_Application_subscribeCallback` of this example. -/
def Thingstream_Application_subscribeCallback (_topic : ThingstreamTopic) (_qos : Int)
    (_payload : String) (_payloadlen : Nat) : List Event := []

end long_message

/-! ## lowPower_sendAndReceive.c -/

namespace lowPower_sendAndReceive

/-- The file-scope variable `msg_received`. -/
structure Globals where
  msg_received : Bool
  deriving DecidableEq, Repr

/-- The callback `Thingstream_Application_subscribeCallback` of this example:
the new value of `msg_received` and the calls it makes. -/
def Thingstream_Application_subscribeCallback (g : Globals) (_topic : ThingstreamTopic)
    (_qos : Int) (msg : String) (msgLen : Nat) : Globals × List Event :=
  if msgLen > 0 then
    ({ g with msg_received := true }, [Event.Util_printf "Received message: %s\n" msg])
  else (g, [])

/-- The callback `Thingstream_Application_modemCallback` of this example. -/
def Thingstream_Application_modemCallback (_response : String) (_len : Nat) : List Event := []

/-- The callback `Thingstream_Application_registerCallback` of this example. -/
def Thingstream_Application_registerCallback (_topicName : String) (_topic : ThingstreamTopic) :
    List Event := []

end lowPower_sendAndReceive

/-! ## Properties of call sequences: connection state of a client -/

/-- What the calls made so far on a client establish: nothing, a successful
`Thingstream_Client_init`, or a successful init followed by a successful
`Thingstream_Client_connect` with no disconnect or shutdown since. -/
inductive ClientPhase
  | fresh
  | inited
  | connected
  deriving DecidableEq, Repr

/-- The phase of every client pointer after one more call. -/
def phaseStep (ph : Option Nat → ClientPhase) : Event → Option Nat → ClientPhase
  | .createClient _ ret => Function.update ph ret ClientPhase.fresh
  | .Client_init client ret =>
      Function.update ph client
        (if ret = ThingstreamResult.CLIENT_SUCCESS.toInt then ClientPhase.inited
         else ClientPhase.fresh)
  | .Client_connect client _ _ _ ret =>
      Function.update ph client
        (match ph client with
         | ClientPhase.fresh => ClientPhase.fresh
         | _ => if ret = ThingstreamResult.CLIENT_SUCCESS.toInt then ClientPhase.connected
                else ClientPhase.inited)
  | .Client_disconnect client _ _ =>
      Function.update ph client
        (match ph client with
         | ClientPhase.fresh => ClientPhase.fresh
         | _ => ClientPhase.inited)
  | .Client_shutdown client _ => Function.update ph client ClientPhase.fresh
  | _ => ph

/-- The phase of every client pointer after a sequence of calls. -/
def phaseRun (ph : Option Nat → ClientPhase) (tr : List Event) : Option Nat → ClientPhase :=
  tr.foldl phaseStep ph

/-- Every `Thingstream_Client_publish` at QoS 1 in the sequence is made on a
client that is connected at that point. -/
def qos1Connected (ph : Option Nat → ClientPhase) : List Event → Bool
  | [] => true
  | e :: es =>
    (match e with
     | .Client_publish client _ qos _ _ _ _ =>
        if qos = ThingstreamQOS1 then decide (ph client = ClientPhase.connected) else true
     | _ => true) && qos1Connected (phaseStep ph e) es

/-- No client has been initialised. -/
def noClient : Option Nat → ClientPhase := fun _ => ClientPhase.fresh

/-- The event is a clock read or a print. -/
def Event.isClockOrPrint : Event → Bool
  | .Platform_getTimeMillis _ => true
  | .Util_printf _ _ => true
  | _ => false

end Thingstream

namespace Thingstream

/-! ## client_api.h: short topics -/

/-- The macro `MAKE_SHORT_TOPIC(first, second)`: the `uint16_t` field `topicId`
receives `((first) << 8) | (second)`. -/
def MAKE_SHORT_TOPIC (first second : Nat) : ThingstreamTopic :=
  { topicType := topicTypeShort, topicId := ((first <<< 8) ||| second) % 65536 }

/-! ## thingstream_result.h: aliases -/

/-- The enumerator an alias stands for: the header defines `TRANSPORT_SUCCESS`
with the value of `CLIENT_SUCCESS`, `CLIENT_CLIENT_ID_INVALID` as
`CLIENT_DOMAIN_KEY_INVALID` and `TRANSPORT_LAST_MODEM_ERROR` as
`TRANSPORT_MODEM_CUSD5_ERROR`; every other enumerator stands for itself. -/
def ThingstreamResult.canonical : ThingstreamResult → ThingstreamResult
  | .TRANSPORT_SUCCESS => .CLIENT_SUCCESS
  | .CLIENT_CLIENT_ID_INVALID => .CLIENT_DOMAIN_KEY_INVALID
  | .TRANSPORT_LAST_MODEM_ERROR => .TRANSPORT_MODEM_CUSD5_ERROR
  | e => e

/-! ## modem_transport.h and long_message.c: buffer sizes -/

/-- The macro `THINGSTREAM_USSD_BUFFER_LEN` of transport_api.h. -/
def THINGSTREAM_USSD_BUFFER_LEN : Nat := 145
/-- The macro `MODEM__RESERVED_BUFFER`. -/
def MODEM__RESERVED_BUFFER : Nat := 64
/-- The macro `MODEM_USSD_BUFFER_LEN`. -/
def MODEM_USSD_BUFFER_LEN : Nat := THINGSTREAM_USSD_BUFFER_LEN + MODEM__RESERVED_BUFFER
/-- The macro `MODEM_UDP_BUFFER_LEN`. -/
def MODEM_UDP_BUFFER_LEN : Nat := 1000 + MODEM__RESERVED_BUFFER

namespace long_message

/-- The size `sizeof(protocolBuf)` of `protocolBuf[MODEM_BUFFER_LEN*2]`. -/
def sizeof_protocolBuf (MODEM_BUFFER_LEN : Nat) : Nat := MODEM_BUFFER_LEN * 2

/-- The size `sizeof(message)` of `message[MODEM_BUFFER_LEN*3/2]`. -/
def sizeof_message (MODEM_BUFFER_LEN : Nat) : Nat := MODEM_BUFFER_LEN * 3 / 2

/-- The value received by the `uint16_t len` parameter of
`Thingstream_createProtocolTransport` when `sizeof(protocolBuf)` is passed. -/
def protocolTransport_len (MODEM_BUFFER_LEN : Nat) : Nat :=
  sizeof_protocolBuf MODEM_BUFFER_LEN % 65536

end long_message

/-! ## sdk_data.h and client_api.h: the inbound queue size -/

end Thingstream
namespace Thingstream

/-! ## modem_init_string.c, modem_info_string.c, modem_reset_string.c, modem_fplmn_string.c -/

/-- The constant `Thingstream_Modem_initString`. -/
def Thingstream_Modem_initString : String :=
  "?ATZ\n" ++ "~100\n" ++ "ATE0\n" ++ "AT+CMEE=2\n" ++ "?AT+CREG=2\n" ++ "?AT&W\n"
    ++ "AT+CREG?\n"

/-- The constant `Thingstream_Modem_informationString`. -/
def Thingstream_Modem_informationString : String :=
  "AT+CREG?\n" ++ "?AT+CSQ\n" ++ "?AT+COPS?\n" ++ "?AT+CIMI\n" ++ "?AT+GMI\n" ++ "?AT+GMM\n"
    ++ "?AT+GMR\n"

/-- The constant `Thingstream_Modem_forceResetString`. -/
def Thingstream_Modem_forceResetString : String :=
  "AT+CFUN=1,1\n" ++ "~5000\n"

/-- The constant `Thingstream_Modem_readFplmnString`. -/
def Thingstream_Modem_readFplmnString : String :=
  "?AT+CRSM=176,28539,0,0,12\n"

/-- The constant `Thingstream_Modem_clearFplmnString`. -/
def Thingstream_Modem_clearFplmnString : String :=
  "?AT+CRSM=214,28539,0,0,12,\"FFFFFFFFFFFFFFFFFFFFFFFF\"\n"

/-- The five shipped scripts. -/
def shippedScripts : List String :=
  [Thingstream_Modem_initString, Thingstream_Modem_informationString,
   Thingstream_Modem_forceResetString, Thingstream_Modem_readFplmnString,
   Thingstream_Modem_clearFplmnString]

/-- Cut a script at its newlines: `cur` holds the characters of the current
entry, latest first.  Text after the last newline, if any, is a final entry. -/
def splitEntries : List Char → List Char → List (List Char)
  | [], cur => if cur = [] then [] else [cur.reverse]
  | c :: cs, cur =>
    if c = '\n' then cur.reverse :: splitEntries cs [] else splitEntries cs (c :: cur)

/-- The entries of a script, each without its terminating newline. -/
def scriptEntries (script : String) : List String :=
  (splitEntries script.data []).map String.mk

/-- The entry consists of decimal digits and nothing else (at least one). -/
def numericOnly (entry : String) : Bool :=
  !entry.data.isEmpty && entry.data.all Char.isDigit

/-- The meaning of a script entry as the comments on the scripts give it: an
entry starting with `?` is a command whose `ERROR` is ignored (the `?` is not
passed to the modem), an entry of the form `~n` is a delay of `n` ms, any other
entry is a command that must succeed. -/
inductive ScriptEntry
  | command (text : String)
  | errorsIgnored (text : String)
  | delay (digits : String)
  deriving DecidableEq, Repr

/-- Reading of one entry according to the comments on the scripts. -/
def readEntry (entry : String) : ScriptEntry :=
  match entry.data with
  | '?' :: rest => ScriptEntry.errorsIgnored (String.mk rest)
  | '~' :: rest => ScriptEntry.delay (String.mk rest)
  | _ => ScriptEntry.command entry

/-- The entry is a pure delay. -/
def ScriptEntry.isDelay : ScriptEntry → Bool
  | .delay _ => true
  | _ => false

/-- The entry is a command whose errors are tolerated. -/
def ScriptEntry.isErrorsIgnored : ScriptEntry → Bool
  | .errorsIgnored _ => true
  | _ => false

/-- The number written by a string of decimal digits. -/
def decimalValue (digits : String) : Nat :=
  digits.data.foldl (fun n c => 10 * n + (c.toNat - '0'.toNat)) 0

/-- The entry is a mandatory command: it starts with `AT`. -/
def isMandatoryAT (entry : String) : Bool := "AT".data.isPrefixOf entry.data

/-- The entry is `?` followed by a command starting with `AT`. -/
def isIgnoredAT (entry : String) : Bool := "?AT".data.isPrefixOf entry.data

/-- The entry is `~` followed by one or more decimal digits. -/
def isDelayEntry (entry : String) : Bool :=
  match entry.data with
  | '~' :: rest => !rest.isEmpty && rest.all Char.isDigit
  | _ => false

/-- The number of the three entry forms the entry has. -/
def entryForms (entry : String) : Nat :=
  (if isMandatoryAT entry then 1 else 0) + (if isIgnoredAT entry then 1 else 0)
    + (if isDelayEntry entry then 1 else 0)

/-- The script ends with a newline. -/
def endsWithNewline (script : String) : Bool := script.data.getLast? == some '\n'

end Thingstream

namespace Thingstream

/-! ## Protocol framing transport (declared in thingstream_transport.h) -/

namespace ProtocolTransport

/-- Modelled from the spec: the implementation behind
`Thingstream_createProtocolTransport` is not among the sources.  One fragment of
a payload, carrying a sequence marker; `last` marks the fragment that completes
the logical message. -/
structure Fragment where
  seq : Nat
  last : Bool
  bytes : List Nat
  deriving DecidableEq, Repr

/-- Modelled from the spec: the failures the framing transport surfaces, namely
"publish too long" on send and a decode or buffer-too-small error on receive. -/
inductive Failure
  | publishTooLong
  | decode
  | bufferTooSmall
  deriving DecidableEq, Repr

/-- Modelled from the spec: an oversized payload is split into a sequence of
fragments of at most `mtu` bytes, numbered upward from `seq`; `fuel` bounds the
number of fragments. -/
def split (mtu : Nat) : Nat → Nat → List Nat → List Fragment
  | 0, seq, payload => [⟨seq, true, payload⟩]
  | fuel + 1, seq, payload =>
    if payload.length ≤ mtu then [⟨seq, true, payload⟩]
    else ⟨seq, false, payload.take mtu⟩ :: split mtu fuel (seq + 1) (payload.drop mtu)

/-- Modelled from the spec: `send` on a transport created with a reassembly
buffer of `buffer` bytes (0 when none was supplied) over an inner transport
with single-frame capacity `mtu`.  Without a buffer an oversized payload fails
with "publish too long" before anything is transmitted; with a buffer it is
fragmented.  The buffer "must be large enough to hold the entire message to be
published" (long_message.c): a payload that exceeds it is refused in the same
way, before anything is transmitted. -/
def send (mtu buffer : Nat) (payload : List Nat) : Except Failure (List Fragment) :=
  if payload.length ≤ mtu then Except.ok [⟨0, true, payload⟩]
  else if buffer = 0 then Except.error Failure.publishTooLong
  else if payload.length > buffer then Except.error Failure.publishTooLong
  else Except.ok (split mtu payload.length 0 payload)

end ProtocolTransport

end Thingstream
namespace Thingstream

/-! ## Client state machine: the pending exchange (implementation not among the sources) -/

namespace ClientStateMachine

/-- Modelled from the spec: the client implementation behind the
`Thingstream_Client_xxx` functions is not among the sources.  The operations
that open a request/response exchange with the server. -/
inductive Operation
  | connect
  | disconnect
  | register
  | publish
  | subscribe
  | unsubscribe
  | ping
  deriving DecidableEq, Repr

/-- Modelled from the spec: the in-flight request state, with its operation
kind, sent timestamp, expected acknowledgement and deadline. -/
structure PendingExchange where
  kind : Operation
  sent : Nat
  expectedAck : Operation
  deadline : Nat
  deriving DecidableEq, Repr

/-- Modelled from the spec: the part of the client state that holds the
exchanges in flight. -/
structure Client where
  pending : List PendingExchange
  deriving DecidableEq, Repr

/-- Modelled from the spec: a client with no exchange outstanding. -/
def Client.initial : Client := { pending := [] }

/-- Modelled from the spec: what can happen to the client: an operation is
called (by the application, possibly from inside a callback), a response
arrives, or the run loop compares the clock with the deadline. -/
inductive Input
  | call (op : Operation) (now : Nat) (timeout : Nat)
  | response (ack : Operation) (now : Nat)
  | expiry (now : Nat)
  deriving DecidableEq, Repr

/-- Modelled from the spec: the operation-specific "bad ack" result; operations
without an enumerator of their own report `CLIENT_WRONG_STATE`. -/
def badAck : Operation → Int
  | .connect => ThingstreamResult.CLIENT_CONNECT_BAD_ACK.toInt
  | .register => ThingstreamResult.CLIENT_REGISTER_BAD_ACK.toInt
  | .publish => ThingstreamResult.CLIENT_PUBLISH_BAD_ACK.toInt
  | .subscribe => ThingstreamResult.CLIENT_SUBSCRIBE_BAD_ACK.toInt
  | .unsubscribe => ThingstreamResult.CLIENT_UNSUBSCRIBE_BAD_ACK.toInt
  | _ => ThingstreamResult.CLIENT_WRONG_STATE.toInt

/-- Modelled from the spec: one step of the client.  A call while an exchange
is outstanding fails at once with `CLIENT_RECURSIVE_CALL`; otherwise it opens
an exchange whose deadline is `now + timeout` on the 32-bit millisecond clock.
A response after the deadline gives a timeout, a matching one success, any
other the bad-ack result; each of these ends the exchange, as does the expiry
of the deadline.  The second component is the result reported, if any. -/
def step (c : Client) : Input → Client × Option Int
  | .call op now timeout =>
    match c.pending with
    | [] =>
      ({ pending := [{ kind := op, sent := now % U32, expectedAck := op,
                       deadline := add32 now timeout }] }, none)
    | _ :: _ => (c, some ThingstreamResult.CLIENT_RECURSIVE_CALL.toInt)
  | .response ack now =>
    match c.pending with
    | [] => (c, none)
    | p :: rest =>
      if TIME_COMPARE now Cmp.gt p.deadline then
        ({ pending := rest }, some ThingstreamResult.CLIENT_OPERATION_TIMED_OUT.toInt)
      else if ack = p.expectedAck then
        ({ pending := rest }, some ThingstreamResult.CLIENT_SUCCESS.toInt)
      else ({ pending := rest }, some (badAck p.kind))
  | .expiry now =>
    match c.pending with
    | [] => (c, none)
    | p :: rest =>
      if TIME_COMPARE now Cmp.gt p.deadline then
        ({ pending := rest }, some ThingstreamResult.CLIENT_OPERATION_TIMED_OUT.toInt)
      else (c, none)

/-- Modelled from the spec: the client after a sequence of inputs. -/
def run (c : Client) (inputs : List Input) : Client :=
  inputs.foldl (fun c i => (step c i).1) c

end ClientStateMachine

end Thingstream

namespace Thingstream

/-! ## serial_transport.c: send and the UART event handler -/

/-- The `type` field of `nrf_drv_uart_event_t`; `other` stands for any value
besides the three the handler tests for. -/
inductive UartEvtType
  | RX_DONE
  | TX_DONE
  | ERROR
  | other (code : Nat)
  deriving DecidableEq, Repr

/-- The struct `nrf_drv_uart_event_t`: the event type and the fields
`data.rxtx.p_data` (a pointer) and `data.rxtx.bytes`. -/
structure UartEvent where
  type : UartEvtType
  p_data : Nat
  bytes : Nat
  deriving DecidableEq, Repr

/-- One invocation of the registered transport callback:
`callback(cookie, data, len)`. -/
structure CallbackCall where
  callback : Nat
  cookie : Option Nat
  data : Nat
  len : Nat
  deriving DecidableEq, Repr

/-- The function `uart_event_handler`: the new transport state and the callback
invocations it makes. -/
def uart_event_handler (p_event : UartEvent) (state : SerialTransportState) :
    SerialTransportState × List CallbackCall :=
  match p_event.type with
  | UartEvtType.RX_DONE =>
    let calls : List CallbackCall :=
      if p_event.bytes ≠ 0 then
        match state.callback with
        | some callback => [⟨callback, state.callback_cookie, p_event.p_data, p_event.bytes⟩]
        | none => []
      else []
    ({ state with uart := state.uart ++ [UartOp.rx state.rx_buffer.length] }, calls)
  | UartEvtType.TX_DONE => ({ state with tx_busy := false }, [])
  | UartEvtType.ERROR =>
    ({ state with uart := state.uart ++ [UartOp.rx state.rx_buffer.length] }, [])
  | UartEvtType.other _ => (state, [])

/-- The argument `data` of `serial_send`: whether `nrfx_is_in_ram(data)` holds
and the bytes the pointer addresses. -/
structure SendData where
  in_ram : Bool
  bytes : List Nat
  deriving DecidableEq, Repr

/-- What `serial_send` observes of its surroundings: the clock reading at
entry, whether the driver's transmit call returned `NRF_SUCCESS`, and for the
`i`-th iteration of the wait loop the value of the volatile `tx_busy` read by the
`while` test (`busyA i`), the value read after `__WFI()` (`busyB i`) and what the
clock shows then (`clock i`). -/
structure SendEnv where
  start : Nat
  tx_ok : Bool
  busyA : Nat → Bool
  busyB : Nat → Bool
  clock : Nat → Nat

/-- The test `TIME_COMPARE(Thingstream_Platform_getTimeMillis(), >, limit)` in
iteration `i` of the wait loop. -/
def SendEnv.pastLimit (env : SendEnv) (limit : Nat) (i : Nat) : Bool :=
  TIME_COMPARE (Thingstream_Platform_getTimeMillis (env.clock i)) Cmp.gt limit

/-- The wait loop of `serial_send`, from iteration `i` on: the result returned,
with the value of `tx_busy` last read, or `none` when the loop is still running
after `fuel` iterations. -/
def serial_send_wait (env : SendEnv) (limit : Nat) : Nat → Nat → Option (Int × Bool)
  | 0, _ => none
  | fuel + 1, i =>
    if env.busyA i then
      if env.busyB i && env.pastLimit limit i then
        some (ThingstreamResult.TRANSPORT_SEND_TIMEOUT.toInt, true)
      else serial_send_wait env limit fuel (i + 1)
    else some (ThingstreamResult.TRANSPORT_SUCCESS.toInt, false)

/-- The part of `serial_send` from `state->tx_busy = 1` on: `data` holds the
bytes at the pointer passed to the driver. -/
def serial_send_transmit (env : SendEnv) (fuel : Nat) (state : SerialTransportState)
    (data : List Nat) (len : Nat) (limit : Nat) : SerialTransportState × Option Int :=
  let state1 : SerialTransportState :=
    { state with tx_busy := true, uart := state.uart ++ [UartOp.tx data len] }
  if !env.tx_ok then (state1, some ThingstreamResult.TRANSPORT_ERROR.toInt)
  else
    match serial_send_wait env limit fuel 0 with
    | none => (state1, none)
    | some (result, busy) =>
      if result = ThingstreamResult.TRANSPORT_SEND_TIMEOUT.toInt then
        ({ state1 with tx_busy := busy, uart := state1.uart ++ [UartOp.tx_abort] },
          some result)
      else ({ state1 with tx_busy := busy }, some result)

/-- The function `serial_send`: the new transport state and the value returned
(`none` when the wait loop is still running after `fuel` iterations). -/
def serial_send (env : SendEnv) (fuel : Nat) (state : SerialTransportState) (_flags : Nat)
    (data : SendData) (len : Nat) (millis : Nat) : SerialTransportState × Option Int :=
  let now := Thingstream_Platform_getTimeMillis env.start
  let limit := add32 now millis
  if !data.in_ram then
    if len > MAX_TX_BUFFER then
      (state, some ThingstreamResult.TRANSPORT_ILLEGAL_ARGUMENT.toInt)
    else
      let state1 : SerialTransportState :=
        { state with tx_buffer := data.bytes.take len ++ state.tx_buffer.drop len }
      serial_send_transmit env fuel state1 state1.tx_buffer len limit
  else serial_send_transmit env fuel state data.bytes len limit

/-- The bytes a transmit request hands to the UART: the first `len` bytes at
the pointer. -/
def UartOp.handed : UartOp → List Nat
  | .tx data len => data.take len
  | _ => []

/-- The request starts a transmission. -/
def UartOp.isTx : UartOp → Bool
  | .tx _ _ => true
  | _ => false

end Thingstream

namespace Thingstream

/-! ## Properties of call sequences: creation and teardown -/

/-- Every stack constructor that the build configuration calls returns a
transport (not `NULL`). -/
def StackEnv.created (env : StackEnv) : Bool :=
  env.ringBuffer.isSome && (!env.DEBUG_LOG_MODEM || env.modemLogger.isSome) && env.modem.isSome
    && env.base64.isSome && env.protocol.isSome
    && (!env.DEBUG_LOG_CLIENT || env.clientLogger.isSome)

/-- The event is a `Thingstream_createXxx` call that returned `NULL`. -/
def Event.isCreateNull : Event → Bool
  | .create _ _ ret => ret.isNone
  | .createClient _ ret => ret.isNone
  | _ => false

/-- The event is a call of `Thingstream_Client_shutdown`. -/
def Event.isShutdown : Event → Bool
  | .Client_shutdown _ _ => true
  | _ => false

/-- The event is a call of `Thingstream_Client_disconnect`. -/
def Event.isDisconnect : Event → Bool
  | .Client_disconnect _ _ _ => true
  | _ => false

/-- The event is a call of `Thingstream_Client_connect` that returned
`CLIENT_SUCCESS`. -/
def Event.isConnectSuccess : Event → Bool
  | .Client_connect _ _ _ _ ret => ret == ThingstreamResult.CLIENT_SUCCESS.toInt
  | _ => false

/-- The event neither creates, initialises, connects, disconnects nor shuts
down anything: a report, a clock read, a delay, or a register, subscribe,
publish or run call. -/
def Event.isQuiet : Event → Bool
  | .Util_printf _ _ => true
  | .Client_getErrorText _ => true
  | .Client_run _ _ => true
  | .Platform_getTimeMillis _ => true
  | .Platform_delayMillis _ => true
  | .Client_register _ _ _ => true
  | .Client_subscribeName _ _ _ _ => true
  | .Client_publish _ _ _ _ _ _ _ => true
  | _ => false

end Thingstream

namespace Thingstream

/-! ## Properties of call sequences: the steps of a client's life -/

/-- The event is a report, a clock read, a delay or a call of
`Thingstream_Client_run`. -/
def Event.isReport : Event → Bool
  | .Util_printf _ _ => true
  | .Client_getErrorText _ => true
  | .Client_run _ _ => true
  | .Platform_getTimeMillis _ => true
  | .Platform_delayMillis _ => true
  | _ => false

/-- The event is a call of `Thingstream_Client_init`, `_connect`,
`_subscribeName`, `_publish`, `_disconnect` or `_shutdown`. -/
def Event.isStep : Event → Bool
  | .Client_init _ _ => true
  | .Client_connect _ _ _ _ _ => true
  | .Client_subscribeName _ _ _ _ => true
  | .Client_publish _ _ _ _ _ _ _ => true
  | .Client_disconnect _ _ _ => true
  | .Client_shutdown _ _ => true
  | _ => false

/-- The value returned by a call of `Thingstream_Client_init`, `_connect`,
`_subscribeName` or `_publish` that did not return `CLIENT_SUCCESS`. -/
def Event.stepFailure : Event → Option Int
  | .Client_init _ ret => if ret = ThingstreamResult.CLIENT_SUCCESS.toInt then none else some ret
  | .Client_connect _ _ _ _ ret =>
    if ret = ThingstreamResult.CLIENT_SUCCESS.toInt then none else some ret
  | .Client_subscribeName _ _ _ ret =>
    if ret = ThingstreamResult.CLIENT_SUCCESS.toInt then none else some ret
  | .Client_publish _ _ _ _ _ _ ret =>
    if ret = ThingstreamResult.CLIENT_SUCCESS.toInt then none else some ret
  | _ => none

/-! ## client_api.h: the stored inbound queue size -/

namespace ProtocolTransport

end ProtocolTransport

end Thingstream

namespace Thingstream

/-! ## Lemmas on the stack creation sequence -/

theorem createModemStack_cases {α : Type} (env : StackEnv) (transport : Option Nat)
    (tr : List Event) (error : List Event → α) (next : Option Nat → List Event → α) :
    ∃ l : List Event, (∀ e ∈ l, e.isSetup = true)
      ∧ (createModemStack env transport tr error next = error (tr ++ l)
          ∨ createModemStack env transport tr error next = next env.modem (tr ++ l)) := by
  simp only [createModemStack, CHECK]
  split_ifs
  all_goals simp only [List.append_assoc]
  all_goals first
    | exact ⟨_, by simp [Event.isSetup], Or.inl rfl⟩
    | exact ⟨_, by simp [Event.isSetup], Or.inr rfl⟩

theorem createProtocolStack_cases {α : Type} (env : StackEnv) (transport : Option Nat)
    (tr : List Event) (error : List Event → α) (next : Option Nat → List Event → α) :
    ∃ l : List Event, (∀ e ∈ l, e.isSetup = true)
      ∧ (createProtocolStack env transport tr error next = error (tr ++ l)
          ∨ ∃ t, createProtocolStack env transport tr error next = next t (tr ++ l)) := by
  simp only [createProtocolStack, CHECK]
  split_ifs
  all_goals simp only [List.append_assoc]
  all_goals first
    | exact ⟨_, by simp [Event.isSetup], Or.inl rfl⟩
    | exact ⟨_, by simp [Event.isSetup], Or.inr ⟨_, rfl⟩⟩

theorem filter_setup_append (q : Event → Bool) (hq : ∀ e, e.isSetup = true → q e = false)
    (l r : List Event) (hl : ∀ e ∈ l, e.isSetup = true) :
    (l ++ r).filter q = r.filter q := by
  induction l with
  | nil => rfl
  | cons a l ih =>
    have ha : q a = false := hq a (hl a (List.mem_cons_self _ _))
    simp [List.filter_cons, ha, ih (fun e he => hl e (List.mem_cons_of_mem _ he))]

theorem eachAfter_setup_append (p q : Event → Bool)
    (hp : ∀ e, e.isSetup = true → p e = false) (hq : ∀ e, e.isSetup = true → q e = false)
    (l r : List Event) (hl : ∀ e ∈ l, e.isSetup = true) :
    eachAfter p q (l ++ r) = eachAfter p q r := by
  induction l with
  | nil => rfl
  | cons a l ih =>
    have ha := hl a (List.mem_cons_self _ _)
    simp [eachAfter, hp a ha, hq a ha, ih (fun e he => hl e (List.mem_cons_of_mem _ he))]

theorem createStack_cases {α : Type} (env : StackEnv) (transport : Option Nat)
    (error : List Event → α) (next : Option Nat → List Event → α) :
    ∃ l : List Event, (∀ e ∈ l, e.isSetup = true)
      ∧ (createModemStack env transport [] error
            (fun modem_transport tr => createProtocolStack env modem_transport tr error next)
            = error l
          ∨ ∃ t, createModemStack env transport [] error
            (fun modem_transport tr => createProtocolStack env modem_transport tr error next)
            = next t l) := by
  obtain ⟨l1, hl1, h1 | h1⟩ := createModemStack_cases env transport [] error
    (fun modem_transport tr => createProtocolStack env modem_transport tr error next)
  · exact ⟨l1, hl1, Or.inl (by rw [h1]; simp)⟩
  · rw [h1]
    obtain ⟨l2, hl2, h2 | ⟨t, h2⟩⟩ := createProtocolStack_cases env env.modem ([] ++ l1) error next
    · refine ⟨l1 ++ l2, ?_, Or.inl ?_⟩
      · intro e he; rcases List.mem_append.1 he with h | h
        · exact hl1 e h
        · exact hl2 e h
      · rw [h2]; simp
    · refine ⟨l1 ++ l2, ?_, Or.inr ⟨t, ?_⟩⟩
      · intro e he; rcases List.mem_append.1 he with h | h
        · exact hl1 e h
        · exact hl2 e h
      · rw [h2]; simp

theorem basic_publish_run_client_append (env : basic_publish.Env) (t : Option Nat)
    (tr : List Event) :
    basic_publish.run_client env t tr
      = (tr ++ (basic_publish.run_client env t []).1, (basic_publish.run_client env t []).2) := by
  simp only [basic_publish.run_client, basic_publish.shutdown, basic_publish.destroy,
    basic_publish.error, CHECK, CHECK_CLIENT_SUCCESS, Thingstream_Client_destroy]
  split_ifs <;> simp

theorem basic_publish_run_example_cases (env : basic_publish.Env) (transport : Option Nat) :
    ∃ l : List Event, (∀ e ∈ l, e.isSetup = true)
      ∧ (basic_publish.run_example env transport
            = (l, ThingstreamResult.TRANSPORT_ERROR.toInt)
          ∨ ∃ t, basic_publish.run_example env transport
            = (l ++ (basic_publish.run_client env t []).1,
                (basic_publish.run_client env t []).2)) := by
  unfold basic_publish.run_example
  obtain ⟨l, hl, h | ⟨t, h⟩⟩ := createStack_cases env.toStackEnv transport
    (basic_publish.error ThingstreamResult.TRANSPORT_ERROR.toInt)
    (fun transport1 tr1 => basic_publish.run_client env transport1 tr1)
  · exact ⟨l, hl, Or.inl (by rw [h]; rfl)⟩
  · exact ⟨l, hl, Or.inr ⟨t, by rw [h]; exact basic_publish_run_client_append env t l⟩⟩

end Thingstream

namespace Thingstream

/-! ## Lemmas on the connection state along a call sequence -/

theorem phaseRun_nil (ph : Option Nat → ClientPhase) : phaseRun ph [] = ph := rfl

theorem phaseRun_cons (ph : Option Nat → ClientPhase) (e : Event) (es : List Event) :
    phaseRun ph (e :: es) = phaseRun (phaseStep ph e) es := rfl

theorem phaseRun_append (ph : Option Nat → ClientPhase) (a b : List Event) :
    phaseRun ph (a ++ b) = phaseRun (phaseRun ph a) b := by
  simp [phaseRun, List.foldl_append]

theorem qos1Connected_nil (ph : Option Nat → ClientPhase) : qos1Connected ph [] = true := rfl

theorem qos1Connected_append (ph : Option Nat → ClientPhase) (a b : List Event) :
    qos1Connected ph (a ++ b) = (qos1Connected ph a && qos1Connected (phaseRun ph a) b) := by
  induction a generalizing ph with
  | nil => simp [qos1Connected, phaseRun]
  | cons e es ih =>
    rw [List.cons_append]
    simp only [qos1Connected]
    rw [ih, phaseRun_cons, Bool.and_assoc]

theorem qos1Connected_cons_other (ph : Option Nat → ClientPhase) (e : Event) (es : List Event)
    (he : e.isPublish = false) :
    qos1Connected ph (e :: es) = qos1Connected (phaseStep ph e) es := by
  cases e
  case Client_publish => simp [Event.isPublish] at he
  all_goals simp only [qos1Connected, Bool.true_and]

theorem phaseStep_other (ph : Option Nat → ClientPhase) (e : Event)
    (he : e.isSetup = true ∨ e.isPublish = true ∨ e.isClockOrPrint = true) :
    phaseStep ph e = ph := by
  cases e
  case create => rfl
  case Client_publish => rfl
  case Platform_getTimeMillis => rfl
  case Util_printf => rfl
  all_goals simp [Event.isSetup, Event.isPublish, Event.isClockOrPrint] at he

theorem qos1Connected_noPublish (ph : Option Nat → ClientPhase) (b : List Event)
    (hb : ∀ e ∈ b, e.isPublish = false) : qos1Connected ph b = true := by
  induction b generalizing ph with
  | nil => rfl
  | cons e es ih =>
    rw [qos1Connected_cons_other ph e es (hb e (List.mem_cons_self _ _))]
    exact ih _ (fun x hx => hb x (List.mem_cons_of_mem _ hx))

theorem setup_not_publish (e : Event) (he : e.isSetup = true) : e.isPublish = false := by
  cases e
  case Client_publish => simp [Event.isSetup] at he
  all_goals rfl

theorem phaseRun_setup (ph : Option Nat → ClientPhase) (l : List Event)
    (hl : ∀ e ∈ l, e.isSetup = true) : phaseRun ph l = ph := by
  induction l generalizing ph with
  | nil => rfl
  | cons e es ih =>
    rw [phaseRun_cons, phaseStep_other ph e (Or.inl (hl e (List.mem_cons_self _ _)))]
    exact ih _ (fun x hx => hl x (List.mem_cons_of_mem _ hx))

theorem qos1Connected_setup_append (ph : Option Nat → ClientPhase) (l r : List Event)
    (hl : ∀ e ∈ l, e.isSetup = true) :
    qos1Connected ph (l ++ r) = qos1Connected ph r := by
  rw [qos1Connected_append, phaseRun_setup ph l hl,
    qos1Connected_noPublish ph l (fun e he => setup_not_publish e (hl e he))]
  simp

/-! ## sensor_predefined_topic.c: every QoS 1 publish is made while connected -/

theorem sensor_disconnect_ok (env : sensor_predefined_topic.Env) (client : Option Nat)
    (g : sensor_predefined_topic.Globals) (ph : Option Nat → ClientPhase) (tr : List Event)
    (h : qos1Connected ph tr = true) :
    qos1Connected ph (sensor_predefined_topic.disconnect env client g tr).2 = true := by
  simp only [sensor_predefined_topic.disconnect, sensor_predefined_topic.shutdown,
    sensor_predefined_topic.destroy, sensor_predefined_topic.error, CHECK_CLIENT_SUCCESS,
    Thingstream_Client_destroy]
  split_ifs <;>
    simp [qos1Connected_append, h, qos1Connected]

theorem sensor_publish_block_ok (changed : Bool) (client : Option Nat) (topic : ThingstreamTopic)
    (topicName checkName text : String) (result : Int)
    (g : sensor_predefined_topic.Globals)
    (store : sensor_predefined_topic.Globals → sensor_predefined_topic.Globals)
    (tr : List Event)
    (disc next : sensor_predefined_topic.Globals → List Event →
      sensor_predefined_topic.Globals × List Event)
    (ph : Option Nat → ClientPhase)
    (h : qos1Connected ph tr = true ∧ phaseRun ph tr client = ClientPhase.connected)
    (hdisc : ∀ g1 tr1, qos1Connected ph tr1 = true → qos1Connected ph (disc g1 tr1).2 = true)
    (hnext : ∀ g1 tr1,
      qos1Connected ph tr1 = true ∧ phaseRun ph tr1 client = ClientPhase.connected →
      qos1Connected ph (next g1 tr1).2 = true) :
    qos1Connected ph (sensor_predefined_topic.publish_block changed client topic topicName
      checkName text result g store tr disc next).2 = true := by
  simp only [sensor_predefined_topic.publish_block, CHECK_CLIENT_SUCCESS,
    sensor_predefined_topic.reportInvalidTopic]
  split_ifs
  · apply hnext
    simp [qos1Connected_append, phaseRun_append, h, qos1Connected, phaseRun_cons, phaseRun_nil, phaseStep]
  · apply hnext
    simp [qos1Connected_append, phaseRun_append, h, qos1Connected, phaseRun_cons, phaseRun_nil, phaseStep]
  · apply hnext
    simp [qos1Connected_append, phaseRun_append, h, qos1Connected, phaseRun_cons, phaseRun_nil, phaseStep]
  · apply hdisc
    simp [qos1Connected_append, phaseRun_append, h, qos1Connected, phaseRun_cons, phaseRun_nil, phaseStep]
  · exact hnext _ _ h

theorem sensor_step_ok (env : sensor_predefined_topic.Env) (transport : Option Nat)
    (g : sensor_predefined_topic.Globals) (ph : Option Nat → ClientPhase) :
    qos1Connected ph (sensor_predefined_topic.publish_sensor_changes env transport g).2
      = true := by
  simp only [sensor_predefined_topic.publish_sensor_changes, CHECK, CHECK_CLIENT_SUCCESS]
  split_ifs
  · rfl
  · refine sensor_publish_block_ok _ _ _ _ _ _ _ _ _ _ _ _ ph ?_
      (fun g1 tr1 h1 => sensor_disconnect_ok env _ g1 ph tr1 h1) ?_
    · simp_all [qos1Connected, phaseRun_cons, phaseRun_nil, phaseStep, ThingstreamResult.toInt]
    intro g1 tr1 h1
    refine sensor_publish_block_ok _ _ _ _ _ _ _ _ _ _ _ _ ph h1
      (fun g1 tr1 h1 => sensor_disconnect_ok env _ g1 ph tr1 h1) ?_
    intro g2 tr2 h2
    refine sensor_publish_block_ok _ _ _ _ _ _ _ _ _ _ _ _ ph h2
      (fun g1 tr1 h1 => sensor_disconnect_ok env _ g1 ph tr1 h1) ?_
    intro g3 tr3 h3
    refine sensor_publish_block_ok _ _ _ _ _ _ _ _ _ _ _ _ ph h3
      (fun g1 tr1 h1 => sensor_disconnect_ok env _ g1 ph tr1 h1) ?_
    intro g4 tr4 h4
    exact sensor_disconnect_ok env _ g4 ph tr4 h4.1
  · simp only [sensor_predefined_topic.shutdown, sensor_predefined_topic.destroy,
      sensor_predefined_topic.error, CHECK_CLIENT_SUCCESS, Thingstream_Client_destroy]
    split_ifs <;> simp [qos1Connected]
  · simp only [sensor_predefined_topic.destroy,
      sensor_predefined_topic.error, CHECK_CLIENT_SUCCESS, Thingstream_Client_destroy]
    split_ifs <;> simp [qos1Connected]
  · simp [sensor_predefined_topic.error, qos1Connected]

theorem sensor_loop_ok (transport : Option Nat) (envs : List sensor_predefined_topic.Env)
    (g : sensor_predefined_topic.Globals) (ph : Option Nat → ClientPhase) :
    qos1Connected ph (sensor_predefined_topic.loop transport envs g).1 = true := by
  induction envs generalizing g ph with
  | nil =>
    simp only [sensor_predefined_topic.loop]
    split_ifs <;> simp [qos1Connected]
  | cons env envs ih =>
    simp only [sensor_predefined_topic.loop]
    split_ifs
    · simp [qos1Connected]
    · simp only [qos1Connected_append, sensor_step_ok, Bool.true_and]
      simp only [qos1Connected, Bool.true_and]
      exact ih _ _

end Thingstream

namespace Thingstream

theorem sensor_run_example_ok (senv : StackEnv) (envs : List sensor_predefined_topic.Env)
    (g : sensor_predefined_topic.Globals) (transport : Option Nat) :
    qos1Connected noClient (sensor_predefined_topic.run_example senv envs g transport).1
      = true := by
  unfold sensor_predefined_topic.run_example
  obtain ⟨l, hl, h | ⟨t, h⟩⟩ := createStack_cases senv transport
    (fun tr => (tr, some ThingstreamResult.TRANSPORT_ERROR.toInt))
    (fun transport1 tr1 => (tr1 ++ (sensor_predefined_topic.loop transport1 envs g).1,
      (sensor_predefined_topic.loop transport1 envs g).2))
  · rw [h]
    exact qos1Connected_noPublish _ l (fun e he => setup_not_publish e (hl e he))
  · rw [h]
    show qos1Connected noClient (l ++ _) = true
    rw [qos1Connected_setup_append _ l _ hl]
    exact sensor_loop_ok _ _ _ _

/-! ## echo_test.c: the QoS 1 publish is made while connected -/

theorem echo_disconnect_ok (env : echo_test.Env) (client : Option Nat) (result : Int)
    (ph : Option Nat → ClientPhase) (tr : List Event) (h : qos1Connected ph tr = true) :
    qos1Connected ph (echo_test.disconnect env client result tr).1 = true := by
  simp only [echo_test.disconnect, echo_test.shutdown, echo_test.destroy, echo_test.error,
    CHECK_CLIENT_SUCCESS, Thingstream_Client_destroy]
  split_ifs <;> simp [qos1Connected_append, h, qos1Connected]

theorem echo_waitLoop_ok (env : echo_test.Env) (client : Option Nat) (limit : Nat)
    (ph : Option Nat → ClientPhase) (fuel i : Nat) (g : echo_test.Globals) (tr : List Event)
    (h : qos1Connected ph tr = true) :
    qos1Connected ph (echo_test.waitLoop env client limit fuel i g tr).2.1 = true := by
  induction fuel generalizing i g tr with
  | zero => simpa [echo_test.waitLoop] using h
  | succ n ih =>
    simp only [echo_test.waitLoop]
    split_ifs
    · apply ih
      simp [qos1Connected_append, h, qos1Connected]
    · simp [qos1Connected_append, h, qos1Connected]

theorem echo_run_client_ok (env : echo_test.Env) (fuel : Nat) (g : echo_test.Globals)
    (transport : Option Nat) (ph : Option Nat → ClientPhase) (tr : List Event)
    (h : qos1Connected ph tr = true) :
    qos1Connected ph (echo_test.run_client env fuel g transport tr).1 = true := by
  simp only [echo_test.run_client, CHECK, CHECK_CLIENT_SUCCESS]
  split_ifs
  · apply echo_disconnect_ok
    apply echo_waitLoop_ok
    simp_all [qos1Connected_append, qos1Connected, phaseRun_cons, phaseRun_nil, phaseStep,
      ThingstreamResult.toInt]
  · apply echo_waitLoop_ok
    simp_all [qos1Connected_append, qos1Connected, phaseRun_cons, phaseRun_nil, phaseStep,
      ThingstreamResult.toInt]
  · apply echo_disconnect_ok
    simp_all [qos1Connected_append, qos1Connected, phaseRun_cons, phaseRun_nil, phaseStep,
      ThingstreamResult.toInt]
  · apply echo_disconnect_ok
    simp_all [qos1Connected_append, qos1Connected, phaseRun_cons, phaseRun_nil, phaseStep,
      ThingstreamResult.toInt]
  · simp only [echo_test.shutdown, echo_test.destroy, echo_test.error,
      CHECK_CLIENT_SUCCESS, Thingstream_Client_destroy]
    split_ifs <;> simp [qos1Connected_append, h, qos1Connected]
  · simp only [echo_test.destroy, echo_test.error, CHECK_CLIENT_SUCCESS,
      Thingstream_Client_destroy]
    split_ifs <;> simp [qos1Connected_append, h, qos1Connected]
  · simp [echo_test.error, qos1Connected_append, h, qos1Connected]

theorem echo_run_example_ok (env : echo_test.Env) (fuel : Nat) (g : echo_test.Globals)
    (transport : Option Nat) :
    qos1Connected noClient (echo_test.run_example env fuel g transport).1 = true := by
  unfold echo_test.run_example
  obtain ⟨l, hl, h | ⟨t, h⟩⟩ := createStack_cases env.toStackEnv transport
    (echo_test.error ThingstreamResult.TRANSPORT_ERROR.toInt)
    (fun transport1 tr1 => echo_test.run_client env fuel g transport1 tr1)
  · rw [h]
    exact qos1Connected_noPublish _ l (fun e he => setup_not_publish e (hl e he))
  · rw [h]
    exact echo_run_client_ok env fuel g t _ l
      (qos1Connected_noPublish _ l (fun e he => setup_not_publish e (hl e he)))

end Thingstream

namespace Thingstream

/-! ## connected_sendAndReceive.c: the static client is connected whenever it is set -/

theorem connected_callback_client (g : connected_sendAndReceive.Globals)
    (cb : connected_sendAndReceive.Callback) :
    (connected_sendAndReceive.Callback.apply g cb).client = g.client := by
  cases cb
  · simp only [connected_sendAndReceive.Callback.apply,
      connected_sendAndReceive.Thingstream_Application_subscribeCallback]
    split_ifs <;> rfl
  · rfl
  · rfl

theorem connected_callbacks_client (g : connected_sendAndReceive.Globals)
    (cbs : List connected_sendAndReceive.Callback) :
    (connected_sendAndReceive.callbacks g cbs).client = g.client := by
  induction cbs generalizing g with
  | nil => rfl
  | cons cb cbs ih =>
    simp only [connected_sendAndReceive.callbacks, List.foldl_cons] at ih ⊢
    rw [ih, connected_callback_client]

theorem connected_disconnect_ok (env : connected_sendAndReceive.Env)
    (g : connected_sendAndReceive.Globals) (ph : Option Nat → ClientPhase) (tr : List Event)
    (h : qos1Connected ph tr = true) :
    qos1Connected ph (connected_sendAndReceive.disconnect env g tr).2 = true
    ∧ (connected_sendAndReceive.disconnect env g tr).1.client = none := by
  simp only [connected_sendAndReceive.disconnect, connected_sendAndReceive.shutdown,
    connected_sendAndReceive.destroy, connected_sendAndReceive.error, CHECK_CLIENT_SUCCESS,
    Thingstream_Client_destroy]
  split_ifs <;> simp [qos1Connected_append, h, qos1Connected]

theorem connected_shutdown_ok (env : connected_sendAndReceive.Env)
    (g : connected_sendAndReceive.Globals) (ph : Option Nat → ClientPhase) (tr : List Event)
    (h : qos1Connected ph tr = true) :
    qos1Connected ph (connected_sendAndReceive.shutdown env g tr).2 = true
    ∧ (connected_sendAndReceive.shutdown env g tr).1.client = none := by
  simp only [connected_sendAndReceive.shutdown,
    connected_sendAndReceive.destroy, connected_sendAndReceive.error, CHECK_CLIENT_SUCCESS,
    Thingstream_Client_destroy]
  split_ifs <;> simp [qos1Connected_append, h, qos1Connected]

theorem connected_destroy_ok (g : connected_sendAndReceive.Globals)
    (ph : Option Nat → ClientPhase) (tr : List Event) (h : qos1Connected ph tr = true) :
    qos1Connected ph (connected_sendAndReceive.destroy g tr).2 = true
    ∧ (connected_sendAndReceive.destroy g tr).1.client = none := by
  simp only [connected_sendAndReceive.destroy, connected_sendAndReceive.error,
    CHECK_CLIENT_SUCCESS, Thingstream_Client_destroy]
  split_ifs <;> simp [qos1Connected_append, h, qos1Connected]

theorem connected_teardown_ok (ph : Option Nat → ClientPhase)
    (r : connected_sendAndReceive.Globals × List Event)
    (h : qos1Connected ph r.2 = true ∧ r.1.client = none) :
    qos1Connected ph r.2 = true
    ∧ (r.1.client ≠ none → phaseRun ph r.2 r.1.client = ClientPhase.connected) :=
  ⟨h.1, fun hne => absurd h.2 hne⟩

theorem connected_publish_section_ok (env : connected_sendAndReceive.Env)
    (g : connected_sendAndReceive.Globals) (ph : Option Nat → ClientPhase) (tr : List Event)
    (h : qos1Connected ph tr = true ∧ phaseRun ph tr g.client = ClientPhase.connected) :
    qos1Connected ph (connected_sendAndReceive.publish_section env g tr).2 = true
    ∧ ((connected_sendAndReceive.publish_section env g tr).1.client ≠ none →
        phaseRun ph (connected_sendAndReceive.publish_section env g tr).2
          (connected_sendAndReceive.publish_section env g tr).1.client
          = ClientPhase.connected) := by
  simp only [connected_sendAndReceive.publish_section, CHECK_CLIENT_SUCCESS]
  split_ifs
  · simp [qos1Connected_append, phaseRun_append, h, qos1Connected, phaseRun_cons, phaseRun_nil,
      phaseStep, connected_callbacks_client]
  · apply connected_teardown_ok
    apply connected_disconnect_ok
    simp [qos1Connected_append, phaseRun_append, h, qos1Connected, phaseRun_cons,
      phaseRun_nil, phaseStep]
  · simp [qos1Connected_append, phaseRun_append, h, qos1Connected, phaseRun_cons, phaseRun_nil,
      phaseStep, connected_callbacks_client]

theorem connected_step_ok (env : connected_sendAndReceive.Env) (transport : Option Nat)
    (g : connected_sendAndReceive.Globals) (ph : Option Nat → ClientPhase)
    (h : g.client ≠ none → ph g.client = ClientPhase.connected) :
    qos1Connected ph (connected_sendAndReceive.publish_and_get_messages env transport g).2 = true
    ∧ ((connected_sendAndReceive.publish_and_get_messages env transport g).1.client ≠ none →
        phaseRun ph (connected_sendAndReceive.publish_and_get_messages env transport g).2
          (connected_sendAndReceive.publish_and_get_messages env transport g).1.client
          = ClientPhase.connected) := by
  simp only [connected_sendAndReceive.publish_and_get_messages, CHECK, CHECK_CLIENT_SUCCESS]
  split_ifs with h1 h2 h3 h4 h5 h6 h7 h8
  · apply connected_publish_section_ok
    simp_all [qos1Connected_append, qos1Connected, phaseRun_append, phaseRun_cons, phaseRun_nil,
      phaseStep, ThingstreamResult.toInt, connected_callbacks_client]
  · apply connected_teardown_ok
    apply connected_disconnect_ok
    simp [qos1Connected_append, qos1Connected]
  · apply connected_teardown_ok
    apply connected_disconnect_ok
    simp [qos1Connected_append, qos1Connected]
  · apply connected_teardown_ok
    apply connected_shutdown_ok
    simp [qos1Connected_append, qos1Connected]
  · apply connected_teardown_ok
    apply connected_destroy_ok
    simp [qos1Connected_append, qos1Connected]
  · apply connected_teardown_ok
    simp_all [connected_sendAndReceive.error, qos1Connected]
  · have hc := h h1
    simp [qos1Connected_append, qos1Connected, phaseRun_append, phaseRun_cons, phaseRun_nil,
      phaseStep, connected_callbacks_client, hc]
  · apply connected_teardown_ok
    apply connected_disconnect_ok
    simp [qos1Connected_append, qos1Connected]
  · apply connected_publish_section_ok
    exact ⟨rfl, h h1⟩

theorem connected_loop_ok (transport : Option Nat) (envs : List connected_sendAndReceive.Env)
    (g : connected_sendAndReceive.Globals) (ph : Option Nat → ClientPhase)
    (h : g.client ≠ none → ph g.client = ClientPhase.connected) :
    qos1Connected ph (connected_sendAndReceive.loop transport envs g).2 = true := by
  induction envs generalizing g ph with
  | nil => rfl
  | cons env envs ih =>
    simp only [connected_sendAndReceive.loop]
    have hs := connected_step_ok env transport g ph h
    have hstep : ∀ (ph1 : Option Nat → ClientPhase) (m : Nat),
        phaseStep ph1 (Event.Platform_delayMillis m) = ph1 := fun _ _ => rfl
    rw [qos1Connected_append, hs.1, Bool.true_and,
      qos1Connected_cons_other _ _ _ (by rfl), hstep]
    exact ih _ _ hs.2

theorem connected_loop_client (transport : Option Nat)
    (envs : List connected_sendAndReceive.Env) (g : connected_sendAndReceive.Globals)
    (ph : Option Nat → ClientPhase)
    (h : g.client ≠ none → ph g.client = ClientPhase.connected) :
    (connected_sendAndReceive.loop transport envs g).1.client ≠ none →
      phaseRun ph (connected_sendAndReceive.loop transport envs g).2
        (connected_sendAndReceive.loop transport envs g).1.client = ClientPhase.connected := by
  induction envs generalizing g ph with
  | nil => exact h
  | cons env envs ih =>
    simp only [connected_sendAndReceive.loop]
    have hs := connected_step_ok env transport g ph h
    have hstep : ∀ (ph1 : Option Nat → ClientPhase) (m : Nat),
        phaseStep ph1 (Event.Platform_delayMillis m) = ph1 := fun _ _ => rfl
    rw [phaseRun_append, phaseRun_cons, hstep]
    exact ih _ _ hs.2

theorem connected_teardown_resets (env : connected_sendAndReceive.Env)
    (g : connected_sendAndReceive.Globals) (tr : List Event) :
    ((connected_sendAndReceive.disconnect env g tr).1.client = none
      ∧ (connected_sendAndReceive.disconnect env g tr).1.disconnectOrPubackError = 0)
    ∧ ((connected_sendAndReceive.shutdown env g tr).1.client = none
      ∧ (connected_sendAndReceive.shutdown env g tr).1.disconnectOrPubackError = 0)
    ∧ ((connected_sendAndReceive.destroy g tr).1.client = none
      ∧ (connected_sendAndReceive.destroy g tr).1.disconnectOrPubackError = 0) := by
  simp only [connected_sendAndReceive.disconnect, connected_sendAndReceive.shutdown,
    connected_sendAndReceive.destroy, connected_sendAndReceive.error, CHECK_CLIENT_SUCCESS,
    Thingstream_Client_destroy]
  split_ifs <;> simp

theorem echo_test_sample_run :
    (echo_test.run_example
      { DEBUG_LOG_MODEM := false, DEBUG_LOG_CLIENT := false, ringBuffer := some 1,
        modemLogger := none, modem := some 2, base64 := some 3, protocol := some 4,
        clientLogger := none, client := some 6, init := 0, connect := 0, subscribe := 0,
        topic := ⟨0, 77⟩, publish := 0, disconnect := 0, shutdown := 0,
        clock := fun n => 4294967000 + 30000 * n, inbound_connect := [],
        inbound_subscribe := [], inbound_publish := [],
        inbound_run := fun n => if n = 1 then [⟨⟨0, 77⟩, 1, "Hello from Echo test", 20⟩] else [] }
      10 echo_test.Globals.initial (some 0)).1.filter Event.isPublish
      = [Event.Client_publish (some 6) ⟨0, 77⟩ 1 false "Hello from Echo test" 20 0] := by
  decide

theorem connected_run_example_ok (senv : StackEnv) (envs : List connected_sendAndReceive.Env)
    (transport : Option Nat) :
    qos1Connected noClient (connected_sendAndReceive.run_example senv envs
      connected_sendAndReceive.Globals.initial transport).1 = true := by
  unfold connected_sendAndReceive.run_example
  obtain ⟨l, hl, h | ⟨t, h⟩⟩ := createStack_cases senv transport
    (fun tr => (tr, some ThingstreamResult.TRANSPORT_ERROR.toInt))
    (fun transport1 tr1 => (tr1 ++ (connected_sendAndReceive.loop transport1 envs
      connected_sendAndReceive.Globals.initial).2, (none : Option Int)))
  · rw [h]
    exact qos1Connected_noPublish _ l (fun e he => setup_not_publish e (hl e he))
  · rw [h]
    show qos1Connected noClient (l ++ _) = true
    rw [qos1Connected_setup_append _ l _ hl]
    exact connected_loop_ok _ _ _ _ (fun hne => absurd rfl hne)

end Thingstream

namespace Thingstream

/-! ## The claims -/

/-- Claim C1. `TIME_COMPARE` orders millisecond counts correctly across counter
wraparound: for every 32-bit time `t` and offset `0 < d < 2^31`, with
`u = (t + d) mod 2^32`, `t < u` and `u > t` hold, `u < t`, `t > u` and `t == u`
do not, and `t == t` holds; 24 days are 2073600000 ms, below `2^31`. -/
theorem TIME_COMPARE_wraparound (t d : Nat) (ht : t < U32) (hd0 : 0 < d) (hd : d < 2 ^ 31) :
    TIME_COMPARE t Cmp.lt (add32 t d) = true
    ∧ TIME_COMPARE (add32 t d) Cmp.gt t = true
    ∧ TIME_COMPARE (add32 t d) Cmp.lt t = false
    ∧ TIME_COMPARE t Cmp.gt (add32 t d) = false
    ∧ TIME_COMPARE t Cmp.eq (add32 t d) = false
    ∧ TIME_COMPARE t Cmp.eq t = true
    ∧ 24 * 24 * 60 * 60 * 1000 = 2073600000 ∧ 2073600000 < 2 ^ 31 := by
  have hd2 : d < 2147483648 := by simpa using hd
  simp only [TIME_COMPARE, Cmp.holds0, toInt32, sub32, add32, U32] at *
  refine ⟨?_, ?_, ?_, ?_, ?_, ?_, by norm_num, by norm_num⟩
  all_goals simp only [decide_eq_true_eq, decide_eq_false_iff_not]
  all_goals split_ifs <;> omega

/-- Claim C1 at `t = 4294967000`, `d = 1000`, where `t + d` wraps to 704. -/
theorem TIME_COMPARE_wraparound_witness :
    add32 4294967000 1000 = 704
    ∧ TIME_COMPARE 4294967000 Cmp.lt (add32 4294967000 1000) = true
    ∧ TIME_COMPARE (add32 4294967000 1000) Cmp.gt 4294967000 = true
    ∧ TIME_COMPARE (add32 4294967000 1000) Cmp.lt 4294967000 = false
    ∧ TIME_COMPARE 4294967000 Cmp.gt (add32 4294967000 1000) = false
    ∧ TIME_COMPARE 4294967000 Cmp.eq (add32 4294967000 1000) = false
    ∧ TIME_COMPARE 4294967000 Cmp.eq 4294967000 = true
    ∧ 24 * 24 * 60 * 60 * 1000 = 2073600000 ∧ 2073600000 < 2 ^ 31 :=
  ⟨by decide, TIME_COMPARE_wraparound 4294967000 1000 (by decide) (by decide) (by norm_num)⟩

/-- Claim C2. In `ThingstreamResult` both success codes are 0 and every other
enumerator is negative; every `CLIENT_` error other than `CLIENT_MAX_ERROR` lies
in -39..-1 and every `TRANSPORT_` error in -75..-40, so every transport error is
below every client error, and every error value lies strictly between
`CLIENT_MAX_ERROR` (-127) and `CLIENT_SUCCESS`. -/
theorem result_ranges :
    ThingstreamResult.CLIENT_SUCCESS.toInt = 0
    ∧ ThingstreamResult.TRANSPORT_SUCCESS.toInt = 0
    ∧ ThingstreamResult.CLIENT_MAX_ERROR.toInt = -127
    ∧ (∀ e : ThingstreamResult, e.isClient = true ∨ e.isTransport = true)
    ∧ (∀ e : ThingstreamResult, e ≠ .CLIENT_SUCCESS → e ≠ .TRANSPORT_SUCCESS → e.toInt < 0)
    ∧ (∀ e : ThingstreamResult, e.isClient = true → e ≠ .CLIENT_SUCCESS → e ≠ .CLIENT_MAX_ERROR →
        -39 ≤ e.toInt ∧ e.toInt ≤ -1)
    ∧ (∀ e : ThingstreamResult, e.isTransport = true → e ≠ .TRANSPORT_SUCCESS →
        -75 ≤ e.toInt ∧ e.toInt ≤ -40)
    ∧ (∀ c t : ThingstreamResult, c.isClient = true → c ≠ .CLIENT_SUCCESS → c ≠ .CLIENT_MAX_ERROR →
        t.isTransport = true → t ≠ .TRANSPORT_SUCCESS → t.toInt < c.toInt)
    ∧ (∀ e : ThingstreamResult, e ≠ .CLIENT_SUCCESS → e ≠ .TRANSPORT_SUCCESS → e ≠ .CLIENT_MAX_ERROR →
        ThingstreamResult.CLIENT_MAX_ERROR.toInt < e.toInt
          ∧ e.toInt < ThingstreamResult.CLIENT_SUCCESS.toInt) := by
  refine ⟨rfl, rfl, rfl, ?_, ?_, ?_, ?_, ?_, ?_⟩
  · intro e; cases e <;> decide
  · intro e; cases e <;> decide
  · intro e; cases e <;> decide
  · intro e; cases e <;> decide
  · intro c t hc h1 h2 ht h3
    have hC : -39 ≤ c.toInt := by revert hc h1 h2; cases c <;> decide
    have hT : t.toInt ≤ -40 := by revert ht h3; cases t <;> decide
    omega
  · intro e; cases e <;> decide

/-- Claim C3. `TRANSPORT_CHECK_VERSION_1(v)` holds exactly when `v & 0x3f` equals
`1 + 16 * (s - 1)` for enum size `s`; for `s` in 1, 2, 4 that value (1, 17, 49)
fits the 6-bit mask, and OR-ing any combination of the four flag bits into
`TRANSPORT_VERSION_1` leaves the check true. -/
theorem check_version_ignores_flags :
    (∀ s v : Nat, TRANSPORT_CHECK_VERSION_1 s v = true ↔ v &&& 0x3f = 1 + 16 * (s - 1))
    ∧ TRANSPORT_VERSION_1 1 = 1 ∧ TRANSPORT_VERSION_1 2 = 17 ∧ TRANSPORT_VERSION_1 4 = 49
    ∧ TRANSPORT_VERSION_1 1 &&& TRANSPORT_VERSION_MASK = TRANSPORT_VERSION_1 1
    ∧ TRANSPORT_VERSION_1 2 &&& TRANSPORT_VERSION_MASK = TRANSPORT_VERSION_1 2
    ∧ TRANSPORT_VERSION_1 4 &&& TRANSPORT_VERSION_MASK = TRANSPORT_VERSION_1 4
    ∧ (∀ a b c d : Bool,
        TRANSPORT_CHECK_VERSION_1 1 (TRANSPORT_VERSION_1 1 ||| versionFlags a b c d) = true
        ∧ TRANSPORT_CHECK_VERSION_1 2 (TRANSPORT_VERSION_1 2 ||| versionFlags a b c d) = true
        ∧ TRANSPORT_CHECK_VERSION_1 4 (TRANSPORT_VERSION_1 4 ||| versionFlags a b c d) = true) := by
  refine ⟨?_, by decide, by decide, by decide, by decide, by decide, by decide, ?_⟩
  · intro s v
    simp only [TRANSPORT_CHECK_VERSION_1, TRANSPORT_VERSION_1, TRANSPORT_API_VERSION,
      TRANSPORT_VERSION_MASK, beq_iff_eq, Nat.shiftLeft_eq]
    constructor <;> intro h <;> omega
  · intro a b c d
    cases a <;> cases b <;> cases c <;> cases d <;> decide

/-- Claim C4. `custom_modem_init` and `serial_init` return
`TRANSPORT_VERSION_MISMATCH` exactly when `TRANSPORT_CHECK_VERSION_1(version)` is
false, and then change nothing: the custom modem state (callback, cookie) is as
before and the serial state is as before, with no request issued to the UART. -/
theorem init_version_mismatch (s : Nat) (version : Nat) (rx_ok : Bool)
    (cm : CustomModemState) (ser : SerialTransportState) :
    ((custom_modem_init s cm version).2 = ThingstreamResult.TRANSPORT_VERSION_MISMATCH.toInt
        ↔ TRANSPORT_CHECK_VERSION_1 s version = false)
    ∧ ((serial_init s rx_ok ser version).2 = ThingstreamResult.TRANSPORT_VERSION_MISMATCH.toInt
        ↔ TRANSPORT_CHECK_VERSION_1 s version = false)
    ∧ (TRANSPORT_CHECK_VERSION_1 s version = false →
        (custom_modem_init s cm version).1 = cm
        ∧ (serial_init s rx_ok ser version).1 = ser
        ∧ (serial_init s rx_ok ser version).1.uart = ser.uart) := by
  cases h : TRANSPORT_CHECK_VERSION_1 s version <;> cases rx_ok <;>
    simp [custom_modem_init, serial_init, h, ThingstreamResult.toInt]

/-- Claim C4 at enum size 4 and version 17 (the version of a 2-byte enum). -/
theorem init_version_mismatch_witness :
    TRANSPORT_CHECK_VERSION_1 4 17 = false
    ∧ (custom_modem_init 4 ⟨some 5, some 7, [0, 0]⟩ 17).1 = ⟨some 5, some 7, [0, 0]⟩
    ∧ (serial_init 4 true ⟨some 5, some 7, [], [0], [], false⟩ 17).1
        = ⟨some 5, some 7, [], [0], [], false⟩
    ∧ (serial_init 4 true ⟨some 5, some 7, [], [0], [], false⟩ 17).1.uart = [] :=
  ⟨by decide,
    (init_version_mismatch 4 17 true ⟨some 5, some 7, [0, 0]⟩
      ⟨some 5, some 7, [], [0], [], false⟩).2.2 (by decide)⟩

/-- Claim C5. `THINGSTREAM_IS_MODEM_OPERATION_ERROR(r)` is true exactly for
`-70 <= r <= -64`: among the enumerators, for the seven modem codes from
`TRANSPORT_MODEM_ERROR` to `TRANSPORT_MODEM_CUSD5_ERROR` (and the alias
`TRANSPORT_LAST_MODEM_ERROR`) and for nothing else. -/
theorem modem_operation_error_range :
    (∀ r : Int, THINGSTREAM_IS_MODEM_OPERATION_ERROR r = true ↔ (-70 ≤ r ∧ r ≤ -64))
    ∧ ThingstreamResult.all.filter (fun e => THINGSTREAM_IS_MODEM_OPERATION_ERROR e.toInt)
        = [.TRANSPORT_MODEM_ERROR, .TRANSPORT_MODEM_CME_ERROR, .TRANSPORT_MODEM_FORCED_RESET,
           .TRANSPORT_MODEM_CUSD2_ERROR, .TRANSPORT_MODEM_CUSD3_ERROR,
           .TRANSPORT_MODEM_CUSD4_ERROR, .TRANSPORT_MODEM_CUSD5_ERROR,
           .TRANSPORT_LAST_MODEM_ERROR]
    ∧ ThingstreamResult.TRANSPORT_LAST_MODEM_ERROR.toInt
        = ThingstreamResult.TRANSPORT_MODEM_CUSD5_ERROR.toInt
    ∧ (∀ e : ThingstreamResult, e ∈ ThingstreamResult.all)
    ∧ THINGSTREAM_IS_MODEM_OPERATION_ERROR ThingstreamResult.CLIENT_SUCCESS.toInt = false
    ∧ THINGSTREAM_IS_MODEM_OPERATION_ERROR ThingstreamResult.TRANSPORT_SUCCESS.toInt = false
    ∧ (∀ e : ThingstreamResult, e.isClient = true →
        THINGSTREAM_IS_MODEM_OPERATION_ERROR e.toInt = false)
    ∧ THINGSTREAM_IS_MODEM_OPERATION_ERROR
        ThingstreamResult.TRANSPORT_MODEM_WITH_LINE_BUFFER_ERROR.toInt = false
    ∧ THINGSTREAM_IS_MODEM_OPERATION_ERROR
        ThingstreamResult.TRANSPORT_MODEM_USSD_BASE64_ERROR.toInt = false
    ∧ THINGSTREAM_IS_MODEM_OPERATION_ERROR
        ThingstreamResult.TRANSPORT_MODEM_SEND_RETRY_REQUEST.toInt = false := by
  refine ⟨?_, by decide, rfl, ?_, by decide, by decide, ?_, by decide, by decide, by decide⟩
  · intro r
    simp only [THINGSTREAM_IS_MODEM_OPERATION_ERROR, ThingstreamResult.toInt, Bool.and_eq_true,
      decide_eq_true_eq]
    omega
  · intro e; cases e <;> decide
  · intro e; cases e <;> decide

end Thingstream

namespace Thingstream

/-- Claim C6. On every execution path of the basic_publish `run_example`,
`Thingstream_Client_connect` is never called and `Thingstream_Client_publish` is
called at most once, only after `Thingstream_Client_init` returned
`CLIENT_SUCCESS`, with the predefined self topic (kind Predefined, id 1),
QoS -1, retained false and the 19 bytes of "Hello basic publish". -/
theorem basic_publish_no_connect (env : basic_publish.Env) (transport : Option Nat) :
    (basic_publish.run_example env transport).1.filter Event.isConnect = []
    ∧ ((basic_publish.run_example env transport).1.filter Event.isPublish = []
        ∨ (basic_publish.run_example env transport).1.filter Event.isPublish
            = [Event.Client_publish env.client Thingstream_PredefinedSelfTopic ThingstreamQOSM1
                false basic_publish.msg (sizeofMinus1 basic_publish.msg) env.publish])
    ∧ eachAfter Event.isInitSuccess Event.isPublish (basic_publish.run_example env transport).1
        = true
    ∧ Thingstream_PredefinedSelfTopic = { topicType := topicTypePredefined, topicId := 1 }
    ∧ topicTypePredefined = 1
    ∧ ThingstreamQOSM1 = -1
    ∧ basic_publish.msg = "Hello basic publish"
    ∧ sizeofMinus1 basic_publish.msg = 19 := by
  have hc : ∀ e : Event, e.isSetup = true → e.isConnect = false := by
    intro e; cases e <;> simp [Event.isSetup, Event.isConnect]
  have hq : ∀ e : Event, e.isSetup = true → e.isPublish = false := by
    intro e; cases e <;> simp [Event.isSetup, Event.isPublish]
  have hp : ∀ e : Event, e.isSetup = true → e.isInitSuccess = false := by
    intro e; cases e <;> simp [Event.isSetup, Event.isInitSuccess]
  refine ⟨?_, ?_, ?_, rfl, rfl, rfl, rfl, by decide⟩
  · obtain ⟨l, hl, h | ⟨t, h⟩⟩ := basic_publish_run_example_cases env transport
    · rw [h]
      simpa using filter_setup_append Event.isConnect hc l [] hl
    · rw [h]; simp only [filter_setup_append Event.isConnect hc l _ hl]
      simp only [basic_publish.run_client, basic_publish.shutdown, basic_publish.destroy,
        basic_publish.error, CHECK, CHECK_CLIENT_SUCCESS, Thingstream_Client_destroy]
      split_ifs <;> simp [Event.isConnect, List.filter_cons]
  · obtain ⟨l, hl, h | ⟨t, h⟩⟩ := basic_publish_run_example_cases env transport
    · left; rw [h]
      simpa using filter_setup_append Event.isPublish hq l [] hl
    · rw [h]; simp only [filter_setup_append Event.isPublish hq l _ hl]
      simp only [basic_publish.run_client, basic_publish.shutdown, basic_publish.destroy,
        basic_publish.error, CHECK, CHECK_CLIENT_SUCCESS, Thingstream_Client_destroy]
      split_ifs <;> simp [Event.isPublish, List.filter_cons]
  · obtain ⟨l, hl, h | ⟨t, h⟩⟩ := basic_publish_run_example_cases env transport
    · rw [h]
      simpa [eachAfter] using
        eachAfter_setup_append Event.isInitSuccess Event.isPublish hp hq l [] hl
    · rw [h]; simp only [eachAfter_setup_append Event.isInitSuccess Event.isPublish hp hq l _ hl]
      simp only [basic_publish.run_client, basic_publish.shutdown, basic_publish.destroy,
        basic_publish.error, CHECK, CHECK_CLIENT_SUCCESS, Thingstream_Client_destroy]
      split_ifs <;>
        simp_all [Event.isPublish, Event.isInitSuccess, eachAfter, ThingstreamResult.toInt]

/-- Claim C7. In the echo_test, connected_sendAndReceive and
sensor_predefined_topic examples every `Thingstream_Client_publish` at QoS 1 is
made on a client for which `Thingstream_Client_init` and then
`Thingstream_Client_connect` returned `CLIENT_SUCCESS`, with no disconnect or
shutdown in between; in connected_sendAndReceive the static client is non-NULL
after any number of iterations only if it is in that connected state, and every
teardown label leaves it NULL.  The last two conjuncts show the check rejecting
a QoS 1 publish made before connect or after disconnect. -/
theorem qos1_publish_on_connected_client :
    (∀ (env : echo_test.Env) (fuel : Nat) (g : echo_test.Globals) (transport : Option Nat),
        qos1Connected noClient (echo_test.run_example env fuel g transport).1 = true)
    ∧ (∀ (senv : StackEnv) (envs : List connected_sendAndReceive.Env) (transport : Option Nat),
        qos1Connected noClient (connected_sendAndReceive.run_example senv envs
          connected_sendAndReceive.Globals.initial transport).1 = true)
    ∧ (∀ (envs : List connected_sendAndReceive.Env) (transport : Option Nat),
        (connected_sendAndReceive.loop transport envs
          connected_sendAndReceive.Globals.initial).1.client ≠ none →
        phaseRun noClient (connected_sendAndReceive.loop transport envs
            connected_sendAndReceive.Globals.initial).2
          (connected_sendAndReceive.loop transport envs
            connected_sendAndReceive.Globals.initial).1.client = ClientPhase.connected)
    ∧ (∀ (env : connected_sendAndReceive.Env) (g : connected_sendAndReceive.Globals)
        (tr : List Event),
        (connected_sendAndReceive.disconnect env g tr).1.client = none
        ∧ (connected_sendAndReceive.shutdown env g tr).1.client = none
        ∧ (connected_sendAndReceive.destroy g tr).1.client = none)
    ∧ (∀ (senv : StackEnv) (envs : List sensor_predefined_topic.Env)
        (g : sensor_predefined_topic.Globals) (transport : Option Nat),
        qos1Connected noClient (sensor_predefined_topic.run_example senv envs g transport).1
          = true)
    ∧ qos1Connected noClient
        [Event.createClient none (some 1), Event.Client_init (some 1) 0,
          Event.Client_publish (some 1) ⟨0, 5⟩ ThingstreamQOS1 false "x" 1 0] = false
    ∧ qos1Connected noClient
        [Event.createClient none (some 1), Event.Client_init (some 1) 0,
          Event.Client_connect (some 1) true 0 none 0, Event.Client_disconnect (some 1) 0 0,
          Event.Client_publish (some 1) ⟨0, 5⟩ ThingstreamQOS1 false "x" 1 0] = false := by
  refine ⟨echo_run_example_ok, connected_run_example_ok, ?_, ?_, sensor_run_example_ok, ?_, ?_⟩
  · intro envs transport
    exact connected_loop_client transport envs _ noClient (fun hne => absurd rfl hne)
  · intro env g tr
    have h := connected_teardown_resets env g tr
    exact ⟨h.1.1, h.2.1.1, h.2.2.1⟩
  · simp [qos1Connected, phaseStep, noClient, ThingstreamQOS1, ThingstreamResult.toInt]
  · simp [qos1Connected, phaseStep, noClient, ThingstreamQOS1, ThingstreamResult.toInt]

/-- Claim C8. In every example the callbacks
`Thingstream_Application_subscribeCallback`, `_registerCallback`,
`_disconnectCallback` and `_pubackErrorCallback` make no
`Thingstream_Client_xxx` call: each one only reads the clock, writes a flag
variable (`msg_received`, `disconnectOrPubackError`), prints, or does nothing. -/
theorem callbacks_make_no_client_call :
    (∀ (e : Event), e.isClockOrPrint = true → e.isClientApi = false)
    ∧ (∀ topic qos payload len,
        basic_publish.Thingstream_Application_subscribeCallback topic qos payload len = [])
    ∧ (∀ name topic, basic_publish.Thingstream_Application_registerCallback name topic = [])
    ∧ (∀ topic qos payload len,
        early_setup.Thingstream_Application_subscribeCallback topic qos payload len = [])
    ∧ (∀ name topic, early_setup.Thingstream_Application_registerCallback name topic = [])
    ∧ (∀ topic qos payload len,
        long_message.Thingstream_Application_subscribeCallback topic qos payload len = [])
    ∧ (∀ name topic, long_message.Thingstream_Application_registerCallback name topic = [])
    ∧ (∀ topic qos payload len,
        sensor_predefined_topic.Thingstream_Application_subscribeCallback topic qos payload len
          = [])
    ∧ (∀ name topic,
        sensor_predefined_topic.Thingstream_Application_registerCallback name topic = [])
    ∧ (∀ name topic, echo_test.Thingstream_Application_registerCallback name topic = [])
    ∧ (∀ name topic,
        lowPower_sendAndReceive.Thingstream_Application_registerCallback name topic = [])
    ∧ (∀ name topic,
        connected_sendAndReceive.Thingstream_Application_registerCallback name topic = [])
    ∧ (∀ g topic qos msg len,
        ((echo_test.Thingstream_Application_subscribeCallback g topic qos msg len).2.all
            fun e => e.isClockOrPrint && !e.isClientApi) = true
        ∧ (echo_test.Thingstream_Application_subscribeCallback g topic qos msg len).1.exampleTopicId
            = g.exampleTopicId)
    ∧ (∀ g topic qos msg len,
        ((lowPower_sendAndReceive.Thingstream_Application_subscribeCallback g topic qos msg
            len).2.all fun e => e.isClockOrPrint && !e.isClientApi) = true)
    ∧ (∀ g topic qos msg len,
        ((connected_sendAndReceive.Thingstream_Application_subscribeCallback g topic qos msg
            len).2.all fun e => e.isClockOrPrint && !e.isClientApi) = true
        ∧ (connected_sendAndReceive.Thingstream_Application_subscribeCallback g topic qos msg
            len).1 = g)
    ∧ (∀ g reading,
        ((connected_sendAndReceive.Thingstream_Application_disconnectCallback g reading).2.all
            fun e => e.isClockOrPrint && !e.isClientApi) = true
        ∧ (connected_sendAndReceive.Thingstream_Application_disconnectCallback g reading).1
            = { g with disconnectOrPubackError :=
                  (connected_sendAndReceive.Thingstream_Application_disconnectCallback g
                    reading).1.disconnectOrPubackError })
    ∧ (∀ g code reading,
        ((connected_sendAndReceive.Thingstream_Application_pubackErrorCallback g code
            reading).2.all fun e => e.isClockOrPrint && !e.isClientApi) = true
        ∧ (connected_sendAndReceive.Thingstream_Application_pubackErrorCallback g code reading).1
            = { g with disconnectOrPubackError :=
                  (connected_sendAndReceive.Thingstream_Application_pubackErrorCallback g code
                    reading).1.disconnectOrPubackError }) := by
  have hprint : ∀ fmt arg, (Event.Util_printf fmt arg).isClientApi = false := by
    intro fmt arg; simp only [Event.isClientApi, Event.name]; decide
  have hclock : ∀ n, (Event.Platform_getTimeMillis n).isClientApi = false := by
    intro n; simp only [Event.isClientApi, Event.name]; decide
  refine ⟨?_, fun _ _ _ _ => rfl, fun _ _ => rfl, fun _ _ _ _ => rfl, fun _ _ => rfl,
    fun _ _ _ _ => rfl, fun _ _ => rfl, fun _ _ _ _ => rfl, fun _ _ => rfl, fun _ _ => rfl,
    fun _ _ => rfl, fun _ _ => rfl, ?_, ?_, ?_, ?_, ?_⟩
  · intro e he
    cases e
    case Platform_getTimeMillis n => exact hclock n
    case Util_printf fmt arg => exact hprint fmt arg
    all_goals simp [Event.isClockOrPrint] at he
  · intro g topic qos msg len
    simp only [echo_test.Thingstream_Application_subscribeCallback]
    split_ifs <;> simp [Event.isClockOrPrint, hprint]
  · intro g topic qos msg len
    simp only [lowPower_sendAndReceive.Thingstream_Application_subscribeCallback]
    split_ifs <;> simp [Event.isClockOrPrint, hprint]
  · intro g topic qos msg len
    simp only [connected_sendAndReceive.Thingstream_Application_subscribeCallback]
    split_ifs <;> simp [Event.isClockOrPrint, hprint]
  · intro g reading
    simp [connected_sendAndReceive.Thingstream_Application_disconnectCallback,
      Event.isClockOrPrint, hclock]
  · intro g code reading
    simp [connected_sendAndReceive.Thingstream_Application_pubackErrorCallback,
      Event.isClockOrPrint, hclock]

/-- Claim C9, evaluated at the failing input: the early_setup implementation of
`Thingstream_Application_modemCallback`, given the response "+CPIN: READY",
calls `Thingstream_Util_printf`, a `Thingstream_xxx()` function; the same holds
for every response starting with "2345".  The modem callbacks of the other
examples make no call. -/
theorem early_setup_modemCallback_calls_printf :
    (early_setup.Thingstream_Application_modemCallback ⟨false⟩ "+CPIN: READY" 12)
      = (⟨true⟩, [Event.Util_printf "CPIN? response: %s\n" "+CPIN: READY"])
    ∧ (Event.Util_printf "CPIN? response: %s\n" "+CPIN: READY").isThingstreamApi = true
    ∧ (Event.Util_printf "CPIN? response: %s\n" "+CPIN: READY").name
        = "Thingstream_Util_printf"
    ∧ (early_setup.Thingstream_Application_modemCallback ⟨false⟩ "234500000000000" 15).2
        = [Event.Util_printf "IMSI is %s\n" "234500000000000"]
    ∧ (∀ response len,
        basic_publish.Thingstream_Application_modemCallback response len = []
        ∧ echo_test.Thingstream_Application_modemCallback response len = []
        ∧ connected_sendAndReceive.Thingstream_Application_modemCallback response len = []
        ∧ long_message.Thingstream_Application_modemCallback response len = []
        ∧ lowPower_sendAndReceive.Thingstream_Application_modemCallback response len = []
        ∧ sensor_predefined_topic.Thingstream_Application_modemCallback response len = []) := by
  refine ⟨by decide, by decide, rfl, by decide, fun _ _ => ⟨rfl, rfl, rfl, rfl, rfl, rfl⟩⟩

end Thingstream

namespace Thingstream

/-- Claim C10 as stated fails: after `register_callback(5, 7)` a single `init`
with the accepted version 49 (enum size 4) leaves the stored callback `NULL`,
not the registered one. -/
theorem custom_modem_callback_cleared :
    ¬ (∀ (s : Nat) (st : CustomModemState) (cb cookie : Option Nat) (ops : List TransportOp),
        (∀ op ∈ ops, op.isRegister = false) →
        (∀ v, TransportOp.init v ∈ ops → TRANSPORT_CHECK_VERSION_1 s v = true) →
        (custom_modem_calls s (custom_modem_register_transport_callback st cb cookie).1
            ops).callback = cb
        ∧ (custom_modem_calls s (custom_modem_register_transport_callback st cb cookie).1
            ops).cookie = cookie) := by
  intro h
  have h1 := h 4 ⟨none, none, []⟩ (some 5) (some 7) [TransportOp.init 49]
    (by decide) (by intro v hv; simp at hv; subst hv; decide)
  exact absurd h1.1 (by decide)

/-- Claim C10, amended.  After `register_callback(cb, cookie)` returns
`TRANSPORT_SUCCESS`, any later sequence of `init`, `get_buffer`, `send`, `run` and
`shutdown` calls leaves the stored cookie equal to `cookie`; the stored callback
is `cb` unless the sequence contains a `shutdown` or an `init` with an accepted
version, which reset it to `NULL`.  Another `register_callback` replaces both,
and the pair stored afterwards is the latest one, subject to the same rule. -/
theorem custom_modem_callback_lifetime (s : Nat) (st : CustomModemState)
    (cb cookie : Option Nat) (ops : List TransportOp)
    (hops : ∀ op ∈ ops, op.isRegister = false) :
    (custom_modem_register_transport_callback st cb cookie).2
        = ThingstreamResult.TRANSPORT_SUCCESS.toInt
    ∧ (custom_modem_calls s (custom_modem_register_transport_callback st cb cookie).1
        ops).cookie = cookie
    ∧ (custom_modem_calls s (custom_modem_register_transport_callback st cb cookie).1
        ops).callback = (if ops.any (custom_modem_clears s) then none else cb)
    ∧ (∀ (before : List TransportOp) (cb2 cookie2 : Option Nat),
        (custom_modem_calls s st
            (before ++ TransportOp.register_callback cb2 cookie2 :: ops)).cookie = cookie2
        ∧ (custom_modem_calls s st
            (before ++ TransportOp.register_callback cb2 cookie2 :: ops)).callback
            = (if ops.any (custom_modem_clears s) then none else cb2)) := by
  have key : ∀ (ops : List TransportOp), (∀ op ∈ ops, op.isRegister = false) →
      ∀ (st : CustomModemState),
      (custom_modem_calls s st ops).cookie = st.cookie
      ∧ (custom_modem_calls s st ops).callback
          = (if ops.any (custom_modem_clears s) then none else st.callback) := by
    intro ops
    induction ops with
    | nil => intro _ st; simp [custom_modem_calls]
    | cons op rest ih =>
      intro h st
      have hrest : ∀ o ∈ rest, o.isRegister = false := fun o ho => h o (List.mem_cons_of_mem _ ho)
      have hop : op.isRegister = false := h op (List.mem_cons_self _ _)
      have ih2 := ih hrest (custom_modem_call s st op).1
      simp only [custom_modem_calls, List.foldl_cons] at ih2 ⊢
      rw [ih2.1, ih2.2]
      cases op with
      | init v =>
        cases hv : TRANSPORT_CHECK_VERSION_1 s v <;>
          simp [custom_modem_call, custom_modem_init, custom_modem_clears, hv]
      | shutdown => simp [custom_modem_call, custom_modem_shutdown, custom_modem_clears]
      | get_buffer => simp [custom_modem_call, custom_modem_get_buffer, custom_modem_clears]
      | send f d l m => simp [custom_modem_call, custom_modem_send, custom_modem_clears]
      | register_callback c k => simp [TransportOp.isRegister] at hop
      | run m => simp [custom_modem_call, custom_modem_run, custom_modem_clears]
  refine ⟨rfl, ?_, ?_, ?_⟩
  · simpa [custom_modem_register_transport_callback] using (key ops hops _).1
  · simpa [custom_modem_register_transport_callback] using (key ops hops _).2
  · intro before cb2 cookie2
    have hsplit : custom_modem_calls s st
        (before ++ TransportOp.register_callback cb2 cookie2 :: ops)
        = custom_modem_calls s (custom_modem_register_transport_callback
            (custom_modem_calls s st before) cb2 cookie2).1 ops := by
      simp [custom_modem_calls, List.foldl_append, custom_modem_call]
    rw [hsplit]
    constructor
    · simpa [custom_modem_register_transport_callback] using (key ops hops _).1
    · simpa [custom_modem_register_transport_callback] using (key ops hops _).2

/-- Claim C10, amended, at enum size 4: the callback survives `get_buffer`,
`send`, `run` and a rejected `init`; `shutdown` clears it and keeps the cookie. -/
theorem custom_modem_callback_lifetime_witness :
    (custom_modem_calls 4 (custom_modem_register_transport_callback ⟨none, none, []⟩
        (some 5) (some 7)).1
        [TransportOp.get_buffer, TransportOp.send 0 [1] 1 100, TransportOp.run 10,
          TransportOp.init 17]).callback = some 5
    ∧ (custom_modem_calls 4 (custom_modem_register_transport_callback ⟨none, none, []⟩
        (some 5) (some 7)).1 [TransportOp.run 10, TransportOp.shutdown]).callback = none
    ∧ (custom_modem_calls 4 (custom_modem_register_transport_callback ⟨none, none, []⟩
        (some 5) (some 7)).1 [TransportOp.run 10, TransportOp.shutdown]).cookie = some 7 :=
  ⟨(custom_modem_callback_lifetime 4 ⟨none, none, []⟩ (some 5) (some 7)
      [TransportOp.get_buffer, TransportOp.send 0 [1] 1 100, TransportOp.run 10,
        TransportOp.init 17] (by decide)).2.2.1,
   (custom_modem_callback_lifetime 4 ⟨none, none, []⟩ (some 5) (some 7)
      [TransportOp.run 10, TransportOp.shutdown] (by decide)).2.2.1,
   (custom_modem_callback_lifetime 4 ⟨none, none, []⟩ (some 5) (some 7)
      [TransportOp.run 10, TransportOp.shutdown] (by decide)).2.1⟩


end Thingstream

namespace Thingstream

/-! ## Claims C11 to C20 -/

theorem short_topic_id (a b : Nat) (hb : b < 256) : (a <<< 8) ||| b = 256 * a + b := by
  rw [Nat.shiftLeft_eq, Nat.mul_comm]
  exact (Nat.mul_add_lt_is_or (i := 8) (by simpa using hb) a).symm

/-- Claim C11. `MAKE_SHORT_TOPIC` encodes the two-character name reversibly: for
characters `a`, `b` in 0..255 the topic has type `topicTypeShort` and id
`256 * a + b`, so `topicId >> 8` is `a` and `topicId & 0xff` is `b`, and two
character pairs with the same topic are the same pair. -/
theorem short_topic_reversible (a b : Nat) (ha : a < 256) (hb : b < 256) :
    (MAKE_SHORT_TOPIC a b).topicType = topicTypeShort
    ∧ (MAKE_SHORT_TOPIC a b).topicId = 256 * a + b
    ∧ (MAKE_SHORT_TOPIC a b).topicId >>> 8 = a
    ∧ (MAKE_SHORT_TOPIC a b).topicId &&& 0xff = b
    ∧ (∀ c d : Nat, c < 256 → d < 256 → MAKE_SHORT_TOPIC a b = MAKE_SHORT_TOPIC c d →
        a = c ∧ b = d) := by
  have hid : ∀ x y : Nat, x < 256 → y < 256 → (MAKE_SHORT_TOPIC x y).topicId = 256 * x + y := by
    intro x y hx hy
    simp only [MAKE_SHORT_TOPIC, short_topic_id x y hy]
    omega
  refine ⟨rfl, hid a b ha hb, ?_, ?_, ?_⟩
  · rw [hid a b ha hb, Nat.shiftRight_eq_div_pow]
    omega
  · rw [hid a b ha hb]
    have h := Nat.and_pow_two_sub_one_eq_mod (256 * a + b) 8
    simp only [Nat.reducePow, Nat.add_one_sub_one] at h
    have h2 : (256 * a + b) &&& 255 = (256 * a + b) % 256 := by simpa using h
    rw [h2]
    omega
  · intro c d hc hd h
    have h1 : (MAKE_SHORT_TOPIC a b).topicId = (MAKE_SHORT_TOPIC c d).topicId := by rw [h]
    rw [hid a b ha hb, hid c d hc hd] at h1
    omega

/-- Claim C11 at the pair `x`, `y` (120, 121): the id is 30841. -/
theorem short_topic_reversible_witness :
    (MAKE_SHORT_TOPIC 120 121).topicType = topicTypeShort
    ∧ (MAKE_SHORT_TOPIC 120 121).topicId = 256 * 120 + 121
    ∧ (MAKE_SHORT_TOPIC 120 121).topicId >>> 8 = 120
    ∧ (MAKE_SHORT_TOPIC 120 121).topicId &&& 0xff = 121
    ∧ (∀ c d : Nat, c < 256 → d < 256 →
        MAKE_SHORT_TOPIC 120 121 = MAKE_SHORT_TOPIC c d → 120 = c ∧ 121 = d) :=
  short_topic_reversible 120 121 (by decide) (by decide)

/-- Claim C12. Apart from the three documented aliases no two enumerators of
`ThingstreamResult` share a value; in particular the four send-phase timeouts,
the ten modem-init failures and the five bad-ack codes are pairwise distinct. -/
theorem result_values_distinct :
    (∀ e1 e2 : ThingstreamResult, e1.toInt = e2.toInt → e1.canonical = e2.canonical)
    ∧ (∀ e : ThingstreamResult, e.canonical ≠ e →
        e = .TRANSPORT_SUCCESS ∨ e = .CLIENT_CLIENT_ID_INVALID
          ∨ e = .TRANSPORT_LAST_MODEM_ERROR)
    ∧ (∀ e : ThingstreamResult, e.canonical.toInt = e.toInt)
    ∧ ([ThingstreamResult.TRANSPORT_ACK_TIMEOUT, .TRANSPORT_INTERPACKET_ACK_TIMEOUT,
        .TRANSPORT_DEFERRED_END_TIMEOUT, .TRANSPORT_END_TIMEOUT].map
          ThingstreamResult.toInt).Nodup
    ∧ ([ThingstreamResult.TRANSPORT_INIT_AT_FAILURE, .TRANSPORT_INIT_CREG5_TIMEOUT,
        .TRANSPORT_INIT_CREG_REFUSED, .TRANSPORT_INIT_APN_SETUP_FAILED,
        .TRANSPORT_INIT_UDP_NETWORK_RESET_FAILED, .TRANSPORT_INIT_UDP_NETWORK_OPEN_FAILED,
        .TRANSPORT_INIT_UDP_NETWORK_ATTACH_FAILED, .TRANSPORT_INIT_UDP_IP_ADDR_FAILED,
        .TRANSPORT_INIT_UDP_CONNECT_FAILED, .TRANSPORT_INIT_UDP_SOCKET_CREATE_FAILED].map
          ThingstreamResult.toInt).Nodup
    ∧ ([ThingstreamResult.CLIENT_CONNECT_BAD_ACK, .CLIENT_REGISTER_BAD_ACK,
        .CLIENT_PUBLISH_BAD_ACK, .CLIENT_SUBSCRIBE_BAD_ACK,
        .CLIENT_UNSUBSCRIBE_BAD_ACK].map ThingstreamResult.toInt).Nodup := by
  refine ⟨?_, ?_, ?_, by decide, by decide, by decide⟩
  · intro e1 e2 h
    cases e1 <;> cases e2 <;> first | rfl | (exfalso; revert h; decide)
  · intro e; cases e <;> decide
  · intro e; cases e <;> rfl

/-- Claim C13. The version number detects inconsistent toolchains: for two
different enum sizes among 1, 2 and 4, `TRANSPORT_API_VERSION(1)` computed with
one size, with any flag bits added, fails `TRANSPORT_CHECK_VERSION_1` evaluated
with the other size. -/
theorem version_detects_enum_size :
    ∀ s1 ∈ [1, 2, 4], ∀ s2 ∈ [1, 2, 4], s1 ≠ s2 → ∀ a b c d : Bool,
      TRANSPORT_CHECK_VERSION_1 s2 (TRANSPORT_API_VERSION s1 1 + versionFlags a b c d) = false
      ∧ TRANSPORT_CHECK_VERSION_1 s2 (TRANSPORT_API_VERSION s1 1 ||| versionFlags a b c d)
          = false := by
  decide

/-- Claim C13 for a version built with a 1-byte enum and checked with a 4-byte
enum, the client and DTLS flags set. -/
theorem version_detects_enum_size_witness :
    TRANSPORT_CHECK_VERSION_1 4 (TRANSPORT_API_VERSION 1 1 + versionFlags true false false true)
      = false
    ∧ TRANSPORT_CHECK_VERSION_1 4
        (TRANSPORT_API_VERSION 1 1 ||| versionFlags true false false true) = false :=
  version_detects_enum_size 1 (by decide) 4 (by decide) (by decide) true false false true

/-- Claim C17. In long_message.c, for `MODEM_BUFFER_LEN = L` with
`2 <= L <= 32767` the payload length `floor(3L/2)` is above `L` and below the
protocol buffer length `2L`, which fits the `uint16_t` length parameter; the two
suggested values of `L` are 1064 and 209, and for 1064 the lengths are 1596 and
2128. -/
theorem long_message_buffer_sizes (L : Nat) (h2 : 2 ≤ L) (hL : L ≤ 32767) :
    L < long_message.sizeof_message L
    ∧ long_message.sizeof_message L < long_message.sizeof_protocolBuf L
    ∧ long_message.sizeof_protocolBuf L ≤ 65535
    ∧ long_message.protocolTransport_len L = long_message.sizeof_protocolBuf L
    ∧ MODEM_UDP_BUFFER_LEN = 1064 ∧ MODEM_USSD_BUFFER_LEN = 209
    ∧ long_message.sizeof_message 1064 = 1596 ∧ long_message.sizeof_protocolBuf 1064 = 2128 := by
  simp only [long_message.sizeof_message, long_message.sizeof_protocolBuf,
    long_message.protocolTransport_len]
  refine ⟨by omega, by omega, by omega, by omega, by decide, by decide, by decide, by decide⟩

/-- Claim C17 at `L = MODEM_USSD_BUFFER_LEN = 209`: lengths 313 and 418. -/
theorem long_message_buffer_sizes_witness :
    long_message.sizeof_message 209 = 313 ∧ long_message.sizeof_protocolBuf 209 = 418
    ∧ 209 < long_message.sizeof_message 209
    ∧ long_message.sizeof_message 209 < long_message.sizeof_protocolBuf 209
    ∧ long_message.protocolTransport_len 209 = long_message.sizeof_protocolBuf 209 :=
  ⟨by decide, by decide,
    (long_message_buffer_sizes 209 (by decide) (by decide)).1,
    (long_message_buffer_sizes 209 (by decide) (by decide)).2.1,
    (long_message_buffer_sizes 209 (by decide) (by decide)).2.2.2.1⟩

end Thingstream

namespace Thingstream

/-- Claim C14 as stated fails: the entry `~100` of
`Thingstream_Modem_initString` is a pure delay and is not numeric-only. -/
theorem script_delay_not_numeric :
    ¬ (∀ s ∈ shippedScripts, ∀ e ∈ scriptEntries s,
        (readEntry e).isDelay = true → numericOnly e = true) := by
  decide

/-- Claim C14, amended.  In the five shipped scripts, split at newlines, every
pure-delay entry is the marker `~` followed by one or more decimal digits (no
entry is numeric-only), and every entry that begins with the marker `?` is a
command whose errors are tolerated. -/
theorem script_entry_markers :
    ∀ s ∈ shippedScripts, ∀ e ∈ scriptEntries s,
      ((readEntry e).isDelay = true → isDelayEntry e = true)
      ∧ numericOnly e = false
      ∧ ("?".data.isPrefixOf e.data = true →
          (readEntry e).isErrorsIgnored = true ∧ isIgnoredAT e = true)
      ∧ ((readEntry e).isErrorsIgnored = true → "?".data.isPrefixOf e.data = true) := by
  decide

/-- Claim C14, amended, at the entry `~100` of the init script and the entry
`?ATZ` before it. -/
theorem script_entry_markers_witness :
    (readEntry "~100").isDelay = true ∧ isDelayEntry "~100" = true
    ∧ numericOnly "~100" = false
    ∧ (readEntry "?ATZ").isErrorsIgnored = true :=
  ⟨by decide,
    (script_entry_markers Thingstream_Modem_initString (by decide) "~100" (by decide)).1
      (by decide),
    (script_entry_markers Thingstream_Modem_initString (by decide) "~100" (by decide)).2.1,
    ((script_entry_markers Thingstream_Modem_initString (by decide) "?ATZ" (by decide)).2.2.1
      (by decide)).1⟩

/-- Claim C15. Each of the five shipped scripts is a non-empty sequence of
entries each terminated by a newline (it ends with a newline, has no empty
entry, and is the concatenation of its entries with their newlines), and every
entry has exactly one of the three forms: a command starting with `AT`, `?`
followed by a command starting with `AT`, or `~` followed by decimal digits.
The init script has exactly one delay, of 100 ms; the forced-reset script is
the mandatory command `AT+CFUN=1,1` followed by a delay of 5000 ms. -/
theorem script_structure :
    (∀ s ∈ shippedScripts,
      scriptEntries s ≠ []
      ∧ endsWithNewline s = true
      ∧ (scriptEntries s).foldr (fun e rest => e ++ "\n" ++ rest) "" = s
      ∧ (∀ e ∈ scriptEntries s, e ≠ "" ∧ entryForms e = 1))
    ∧ ((scriptEntries Thingstream_Modem_initString).map readEntry).filter ScriptEntry.isDelay
        = [ScriptEntry.delay "100"]
    ∧ decimalValue "100" = 100
    ∧ (scriptEntries Thingstream_Modem_forceResetString).map readEntry
        = [ScriptEntry.command "AT+CFUN=1,1", ScriptEntry.delay "5000"]
    ∧ decimalValue "5000" = 5000 := by
  decide

/-- Claim C16. In `Thingstream_Modem_initString` the mandatory entry `AT+CREG?`
occurs exactly once, is the last entry and comes after `?AT+CREG=2`; the reset
entry `?ATZ` and the 100 ms delay are the first two entries, before every other
command. -/
theorem init_script_order :
    scriptEntries Thingstream_Modem_initString
      = ["?ATZ", "~100", "ATE0", "AT+CMEE=2", "?AT+CREG=2", "?AT&W", "AT+CREG?"]
    ∧ (scriptEntries Thingstream_Modem_initString).count "AT+CREG?" = 1
    ∧ (scriptEntries Thingstream_Modem_initString).getLast? = some "AT+CREG?"
    ∧ (scriptEntries Thingstream_Modem_initString).indexOf "?AT+CREG=2"
        < (scriptEntries Thingstream_Modem_initString).indexOf "AT+CREG?"
    ∧ (scriptEntries Thingstream_Modem_initString).indexOf "AT+CREG?"
        < (scriptEntries Thingstream_Modem_initString).length
    ∧ (scriptEntries Thingstream_Modem_initString).take 2 = ["?ATZ", "~100"]
    ∧ readEntry "?ATZ" = ScriptEntry.errorsIgnored "ATZ"
    ∧ readEntry "~100" = ScriptEntry.delay "100"
    ∧ readEntry "AT+CREG?" = ScriptEntry.command "AT+CREG?"
    ∧ readEntry "?AT+CREG=2" = ScriptEntry.errorsIgnored "AT+CREG=2"
    ∧ (((scriptEntries Thingstream_Modem_initString).drop 2).map readEntry).all
        (fun e => !e.isDelay) = true := by
  decide

end Thingstream

namespace Thingstream

open ClientStateMachine in
theorem pending_step_le_one (c : Client) (i : Input) (h : c.pending.length ≤ 1) :
    (step c i).1.pending.length ≤ 1 := by
  cases i with
  | call op now timeout =>
    cases hp : c.pending with
    | nil => simp [step, hp]
    | cons p rest =>
      rw [hp] at h
      simpa [step, hp] using h
  | response ack now =>
    cases hp : c.pending with
    | nil => simp [step, hp]
    | cons p rest =>
      have hr : rest.length ≤ 1 := by
        have h1 := h
        rw [hp] at h1
        simp only [List.length_cons] at h1
        omega
      simp only [step, hp]
      split_ifs <;> simpa using hr
  | expiry now =>
    cases hp : c.pending with
    | nil => simp [step, hp]
    | cons p rest =>
      have hr : rest.length ≤ 1 := by
        have h1 := h
        rw [hp] at h1
        simp only [List.length_cons] at h1
        omega
      simp only [step, hp]
      split_ifs
      · simpa using hr
      · exact h

open ClientStateMachine in
theorem pending_run_le_one (inputs : List Input) (c : Client) (h : c.pending.length ≤ 1) :
    (run c inputs).pending.length ≤ 1 := by
  induction inputs generalizing c with
  | nil => simpa [run] using h
  | cons i rest ih =>
    simp only [run, List.foldl_cons] at ih ⊢
    exact ih _ (pending_step_le_one c i h)

/-- Claim C20 (stated on the model of the client state machine).  At most one
pending exchange exists at any time, and a client operation issued while
another is outstanding fails at once with `CLIENT_RECURSIVE_CALL` (-24) and
leaves the outstanding exchange, its deadline included, unchanged; an operation
issued when none is outstanding is accepted and opens the exchange. -/
theorem one_pending_exchange :
    (∀ inputs : List ClientStateMachine.Input,
      (ClientStateMachine.run ClientStateMachine.Client.initial inputs).pending.length ≤ 1)
    ∧ (∀ (p : ClientStateMachine.PendingExchange) (rest : List ClientStateMachine.PendingExchange)
        (op : ClientStateMachine.Operation) (now timeout : Nat),
        ClientStateMachine.step { pending := p :: rest } (ClientStateMachine.Input.call op now timeout)
          = ({ pending := p :: rest }, some ThingstreamResult.CLIENT_RECURSIVE_CALL.toInt))
    ∧ ThingstreamResult.CLIENT_RECURSIVE_CALL.toInt = -24
    ∧ (∀ (inputs : List ClientStateMachine.Input) (op op2 : ClientStateMachine.Operation)
        (now timeout now2 timeout2 : Nat),
        ClientStateMachine.step
          (ClientStateMachine.step (ClientStateMachine.run ClientStateMachine.Client.initial inputs)
            (ClientStateMachine.Input.call op now timeout)).1
          (ClientStateMachine.Input.call op2 now2 timeout2)
        = ((ClientStateMachine.step
              (ClientStateMachine.run ClientStateMachine.Client.initial inputs)
              (ClientStateMachine.Input.call op now timeout)).1,
            some ThingstreamResult.CLIENT_RECURSIVE_CALL.toInt))
    ∧ (∀ (op : ClientStateMachine.Operation) (now timeout : Nat),
        ClientStateMachine.step ClientStateMachine.Client.initial
          (ClientStateMachine.Input.call op now timeout)
        = ({ pending := [{ kind := op, sent := now % U32, expectedAck := op,
                           deadline := add32 now timeout }] }, none)) := by
  refine ⟨fun inputs => pending_run_le_one inputs _ (by simp [ClientStateMachine.Client.initial]),
    fun _ _ _ _ _ => rfl, rfl, ?_, fun _ _ _ => rfl⟩
  intro inputs op op2 now timeout now2 timeout2
  cases hp : (ClientStateMachine.run ClientStateMachine.Client.initial inputs).pending with
  | nil => simp [ClientStateMachine.step, hp]
  | cons p rest => simp [ClientStateMachine.step, hp]

end Thingstream

namespace Thingstream

/-! ## Claims C21 to C26 -/

theorem serial_send_transmit_uart (env : SendEnv) (fuel : Nat) (state : SerialTransportState)
    (data : List Nat) (len limit : Nat) :
    ((serial_send_transmit env fuel state data len limit).1.uart
        = state.uart ++ [UartOp.tx data len]
      ∨ (serial_send_transmit env fuel state data len limit).1.uart
        = state.uart ++ [UartOp.tx data len] ++ [UartOp.tx_abort])
    ∧ (serial_send_transmit env fuel state data len limit).1.tx_buffer = state.tx_buffer := by
  simp only [serial_send_transmit]
  split_ifs
  · simp
  · cases h : serial_send_wait env limit fuel 0 with
    | none => simp
    | some r =>
      obtain ⟨result, busy⟩ := r
      simp only
      split_ifs <;> simp

/-- Claim C21. `serial_send` with data not in RAM and `len` above 64 returns
`TRANSPORT_ILLEGAL_ARGUMENT` and leaves the whole state as it was (no UART
request, `tx_buffer` and `tx_busy` untouched); with data not in RAM and `len` up
to 64 the one transmit request hands over exactly the first `len` bytes of the
data, which are also the first `len` bytes of `tx_buffer`; data in RAM is handed
over as it is, at any length, and `tx_buffer` is not written. -/
theorem serial_send_flash_copy (env : SendEnv) (fuel : Nat) (state : SerialTransportState)
    (flags : Nat) (bytes : List Nat) (len millis : Nat) (hlen : len ≤ bytes.length) :
    (MAX_TX_BUFFER < len →
      serial_send env fuel state flags ⟨false, bytes⟩ len millis
        = (state, some ThingstreamResult.TRANSPORT_ILLEGAL_ARGUMENT.toInt))
    ∧ (len ≤ MAX_TX_BUFFER →
        ((serial_send env fuel state flags ⟨false, bytes⟩ len millis).1.uart.drop
            state.uart.length).filter UartOp.isTx
          = [UartOp.tx (bytes.take len ++ state.tx_buffer.drop len) len]
        ∧ (UartOp.tx (bytes.take len ++ state.tx_buffer.drop len) len).handed = bytes.take len
        ∧ (serial_send env fuel state flags ⟨false, bytes⟩ len millis).1.tx_buffer.take len
          = bytes.take len)
    ∧ ((serial_send env fuel state flags ⟨true, bytes⟩ len millis).1.uart.drop
          state.uart.length).filter UartOp.isTx = [UartOp.tx bytes len]
    ∧ (UartOp.tx bytes len).handed = bytes.take len
    ∧ (serial_send env fuel state flags ⟨true, bytes⟩ len millis).1.tx_buffer = state.tx_buffer
    ∧ MAX_TX_BUFFER = 64 := by
  have htake : (bytes.take len ++ state.tx_buffer.drop len).take len = bytes.take len := by
    have h1 : (bytes.take len).length = len := by simp [List.length_take, hlen]
    rw [List.take_append_of_le_length (by omega)]
    rw [List.take_of_length_le (by omega)]
  refine ⟨?_, ?_, ?_, rfl, ?_, rfl⟩
  · intro h
    simp [serial_send, h]
  · intro h
    have hn : ¬ len > MAX_TX_BUFFER := by omega
    simp only [serial_send, Bool.not_false, if_true, hn, if_false]
    have hu := serial_send_transmit_uart env fuel
      { state with tx_buffer := bytes.take len ++ state.tx_buffer.drop len }
      (bytes.take len ++ state.tx_buffer.drop len) len
      (add32 (Thingstream_Platform_getTimeMillis env.start) millis)
    refine ⟨?_, htake, ?_⟩
    · rcases hu.1 with h1 | h1 <;> rw [h1] <;> simp [UartOp.isTx]
    · rw [hu.2]; exact htake
  · simp only [serial_send, Bool.not_true, Bool.false_eq_true, if_false]
    have hu := serial_send_transmit_uart env fuel state bytes len
      (add32 (Thingstream_Platform_getTimeMillis env.start) millis)
    rcases hu.1 with h1 | h1 <;> rw [h1] <;> simp [UartOp.isTx]
  · simp only [serial_send, Bool.not_true, Bool.false_eq_true, if_false]
    exact (serial_send_transmit_uart env fuel state bytes len _).2

end Thingstream

namespace Thingstream

theorem serial_send_wait_success (env : SendEnv) (limit fuel i : Nat) :
    serial_send_wait env limit fuel i = some (ThingstreamResult.TRANSPORT_SUCCESS.toInt, false)
      ↔ ∃ n, i ≤ n ∧ n < i + fuel ∧ env.busyA n = false
          ∧ ∀ j, i ≤ j → j < n →
              env.busyA j = true ∧ (env.busyB j && env.pastLimit limit j) = false := by
  induction fuel generalizing i with
  | zero =>
    simp only [serial_send_wait]
    constructor
    · intro h; cases h
    · rintro ⟨n, h1, h2, _⟩; omega
  | succ k ih =>
    simp only [serial_send_wait]
    cases hA : env.busyA i with
    | false =>
      simp only [Bool.false_eq_true, if_false, true_iff]
      exact ⟨i, le_refl _, by omega, hA, fun j h1 h2 => by omega⟩
    | true =>
      simp only [if_true]
      cases hB : (env.busyB i && env.pastLimit limit i) with
      | true =>
        simp only [if_true]
        constructor
        · intro h
          have h1 := congrArg (fun r => r.map Prod.snd) h
          simp at h1
        · rintro ⟨n, h1, h2, h3, h4⟩
          exfalso
          rcases Nat.eq_or_lt_of_le h1 with h5 | h5
          · subst h5; rw [hA] at h3; cases h3
          · have := (h4 i (le_refl _) h5).2; rw [hB] at this; cases this
      | false =>
        simp only [Bool.false_eq_true, if_false]
        rw [ih (i + 1)]
        constructor
        · rintro ⟨n, h1, h2, h3, h4⟩
          refine ⟨n, by omega, by omega, h3, ?_⟩
          intro j hj1 hj2
          rcases Nat.eq_or_lt_of_le hj1 with h5 | h5
          · subst h5; exact ⟨hA, hB⟩
          · exact h4 j (by omega) hj2
        · rintro ⟨n, h1, h2, h3, h4⟩
          have hne : i ≠ n := by
            intro h5; subst h5; rw [hA] at h3; cases h3
          exact ⟨n, by omega, by omega, h3, fun j hj1 hj2 => h4 j (by omega) hj2⟩

theorem serial_send_wait_timeout (env : SendEnv) (limit fuel i : Nat) :
    serial_send_wait env limit fuel i
        = some (ThingstreamResult.TRANSPORT_SEND_TIMEOUT.toInt, true)
      ↔ ∃ n, i ≤ n ∧ n < i + fuel ∧ env.busyA n = true
          ∧ (env.busyB n && env.pastLimit limit n) = true
          ∧ ∀ j, i ≤ j → j < n →
              env.busyA j = true ∧ (env.busyB j && env.pastLimit limit j) = false := by
  induction fuel generalizing i with
  | zero =>
    simp only [serial_send_wait]
    constructor
    · intro h; cases h
    · rintro ⟨n, h1, h2, _⟩; omega
  | succ k ih =>
    simp only [serial_send_wait]
    cases hA : env.busyA i with
    | false =>
      simp only [Bool.false_eq_true, if_false]
      constructor
      · intro h
        have h1 := congrArg (fun r => r.map Prod.snd) h
        simp at h1
      · rintro ⟨n, h1, h2, h3, h4, h5⟩
        exfalso
        rcases Nat.eq_or_lt_of_le h1 with h6 | h6
        · subst h6; rw [hA] at h3; cases h3
        · have := (h5 i (le_refl _) h6).1; rw [hA] at this; cases this
    | true =>
      simp only [if_true]
      cases hB : (env.busyB i && env.pastLimit limit i) with
      | true =>
        simp only [if_true, true_iff]
        exact ⟨i, le_refl _, by omega, hA, hB, fun j h1 h2 => by omega⟩
      | false =>
        simp only [Bool.false_eq_true, if_false]
        rw [ih (i + 1)]
        constructor
        · rintro ⟨n, h1, h2, h3, h4, h5⟩
          refine ⟨n, by omega, by omega, h3, h4, ?_⟩
          intro j hj1 hj2
          rcases Nat.eq_or_lt_of_le hj1 with h6 | h6
          · subst h6; exact ⟨hA, hB⟩
          · exact h5 j (by omega) hj2
        · rintro ⟨n, h1, h2, h3, h4, h5⟩
          have hne : i ≠ n := by
            intro h6; subst h6; rw [hB] at h4; cases h4
          exact ⟨n, by omega, by omega, h3, h4, fun j hj1 hj2 => h5 j (by omega) hj2⟩

theorem serial_send_wait_cases (env : SendEnv) (limit fuel i : Nat) :
    serial_send_wait env limit fuel i = none
    ∨ serial_send_wait env limit fuel i
        = some (ThingstreamResult.TRANSPORT_SUCCESS.toInt, false)
    ∨ serial_send_wait env limit fuel i
        = some (ThingstreamResult.TRANSPORT_SEND_TIMEOUT.toInt, true) := by
  induction fuel generalizing i with
  | zero => exact Or.inl rfl
  | succ k ih =>
    simp only [serial_send_wait]
    split_ifs
    · exact Or.inr (Or.inr rfl)
    · exact ih (i + 1)
    · exact Or.inr (Or.inl rfl)

theorem time_not_past_limit (start e millis : Nat) (he : e ≤ millis)
    (hm : millis < 2 ^ 31) :
    TIME_COMPARE (add32 start e) Cmp.gt (add32 start millis) = false := by
  have hm2 : millis < 2147483648 := by simpa using hm
  simp only [TIME_COMPARE, Cmp.holds0, toInt32, sub32, add32, U32, decide_eq_false_iff_not] at *
  split_ifs <;> omega

theorem serial_send_transmit_result (env : SendEnv) (fuel : Nat) (state : SerialTransportState)
    (data : List Nat) (len limit : Nat) (hok : env.tx_ok = true) :
    ((serial_send_transmit env fuel state data len limit).2
        = some ThingstreamResult.TRANSPORT_SUCCESS.toInt
      ↔ serial_send_wait env limit fuel 0
          = some (ThingstreamResult.TRANSPORT_SUCCESS.toInt, false))
    ∧ ((serial_send_transmit env fuel state data len limit).2
        = some ThingstreamResult.TRANSPORT_SEND_TIMEOUT.toInt
      ↔ serial_send_wait env limit fuel 0
          = some (ThingstreamResult.TRANSPORT_SEND_TIMEOUT.toInt, true))
    ∧ ((serial_send_transmit env fuel state data len limit).2
        = some ThingstreamResult.TRANSPORT_SEND_TIMEOUT.toInt →
        (serial_send_transmit env fuel state data len limit).1.uart
          = state.uart ++ [UartOp.tx data len, UartOp.tx_abort])
    ∧ ((serial_send_transmit env fuel state data len limit).2
        = some ThingstreamResult.TRANSPORT_SUCCESS.toInt →
        (serial_send_transmit env fuel state data len limit).1.uart
          = state.uart ++ [UartOp.tx data len]
        ∧ (serial_send_transmit env fuel state data len limit).1.tx_busy = false) := by
  simp only [serial_send_transmit, hok, Bool.not_true, Bool.false_eq_true, if_false]
  rcases serial_send_wait_cases env limit fuel 0 with h | h | h <;> rw [h] <;>
    simp [ThingstreamResult.toInt]

theorem serial_send_transmit_rejected (env : SendEnv) (fuel : Nat)
    (state : SerialTransportState) (data : List Nat) (len limit : Nat)
    (hok : env.tx_ok = false) :
    serial_send_transmit env fuel state data len limit
      = ({ state with tx_busy := true, uart := state.uart ++ [UartOp.tx data len] },
          some ThingstreamResult.TRANSPORT_ERROR.toInt) := by
  simp [serial_send_transmit, hok]

theorem serial_send_accepted (env : SendEnv) (state : SerialTransportState)
    (flags : Nat) (data : SendData) (len millis : Nat)
    (hacc : data.in_ram = true ∨ len ≤ MAX_TX_BUFFER) :
    ∃ st d, st.uart = state.uart
      ∧ ∀ f, serial_send env f state flags data len millis
          = serial_send_transmit env f st d len
              (add32 (Thingstream_Platform_getTimeMillis env.start) millis) := by
  cases hr : data.in_ram with
  | true =>
    exact ⟨state, data.bytes, rfl, fun f => by simp [serial_send, hr]⟩
  | false =>
    have hl : len ≤ MAX_TX_BUFFER := by
      rcases hacc with h | h
      · rw [hr] at h; cases h
      · exact h
    have hn : ¬ len > MAX_TX_BUFFER := by omega
    exact ⟨{ state with tx_buffer := data.bytes.take len ++ state.tx_buffer.drop len },
      data.bytes.take len ++ state.tx_buffer.drop len, rfl,
      fun f => by simp only [serial_send, hr, Bool.not_false, if_true, hn, if_false]⟩

/-- Claim C22. Once the transmission was accepted by the UART, `serial_send`
returns `TRANSPORT_SUCCESS` exactly when some pass of the wait loop (within the
fuel) sees `tx_busy` cleared and no earlier pass saw it still busy with the clock
past `limit = start + millis`; it returns `TRANSPORT_SEND_TIMEOUT` exactly when
some pass sees it still busy with the clock past the limit and no earlier pass
ended the loop, and then the last UART request is the abort; a clock reading
whose elapsed time is at most `millis` (below `2 ^ 31`) is never past the limit,
also when `start + millis` wraps; a rejected transmission gives
`TRANSPORT_ERROR` for every fuel, with no pass of the wait loop and no abort. -/
theorem serial_send_outcome (env : SendEnv) (fuel : Nat) (state : SerialTransportState)
    (flags : Nat) (data : SendData) (len millis : Nat)
    (hacc : data.in_ram = true ∨ len ≤ MAX_TX_BUFFER) :
    (env.tx_ok = true →
      ((serial_send env fuel state flags data len millis).2
          = some ThingstreamResult.TRANSPORT_SUCCESS.toInt
        ↔ ∃ n, n < fuel ∧ env.busyA n = false
            ∧ ∀ j, j < n → env.busyA j = true
                ∧ (env.busyB j && env.pastLimit
                    (add32 (Thingstream_Platform_getTimeMillis env.start) millis) j) = false)
      ∧ ((serial_send env fuel state flags data len millis).2
          = some ThingstreamResult.TRANSPORT_SEND_TIMEOUT.toInt
        ↔ ∃ n, n < fuel ∧ env.busyA n = true
            ∧ (env.busyB n && env.pastLimit
                (add32 (Thingstream_Platform_getTimeMillis env.start) millis) n) = true
            ∧ ∀ j, j < n → env.busyA j = true
                ∧ (env.busyB j && env.pastLimit
                    (add32 (Thingstream_Platform_getTimeMillis env.start) millis) j) = false)
      ∧ ((serial_send env fuel state flags data len millis).2
          = some ThingstreamResult.TRANSPORT_SEND_TIMEOUT.toInt →
          (serial_send env fuel state flags data len millis).1.uart.getLast?
            = some UartOp.tx_abort)
      ∧ ((serial_send env fuel state flags data len millis).2
          = some ThingstreamResult.TRANSPORT_SUCCESS.toInt →
          UartOp.tx_abort ∉ (serial_send env fuel state flags data len millis).1.uart.drop
              state.uart.length
          ∧ (serial_send env fuel state flags data len millis).1.tx_busy = false))
    ∧ (∀ n e, millis < 2 ^ 31 → e ≤ millis →
        Thingstream_Platform_getTimeMillis (env.clock n)
          = add32 (Thingstream_Platform_getTimeMillis env.start) e →
        env.pastLimit (add32 (Thingstream_Platform_getTimeMillis env.start) millis) n = false)
    ∧ (env.tx_ok = false →
        (serial_send env fuel state flags data len millis).2
          = some ThingstreamResult.TRANSPORT_ERROR.toInt
        ∧ serial_send env fuel state flags data len millis
          = serial_send env 0 state flags data len millis
        ∧ UartOp.tx_abort ∉ (serial_send env fuel state flags data len millis).1.uart.drop
            state.uart.length) := by
  obtain ⟨st, d, hst, hs⟩ := serial_send_accepted env state flags data len millis hacc
  refine ⟨?_, ?_, ?_⟩
  · intro hok
    have hr := serial_send_transmit_result env fuel st d len
      (add32 (Thingstream_Platform_getTimeMillis env.start) millis) hok
    rw [hs fuel]
    refine ⟨?_, ?_, ?_, ?_⟩
    · rw [hr.1, serial_send_wait_success]
      constructor
      · rintro ⟨n, _, h2, h3, h4⟩
        exact ⟨n, by omega, h3, fun j hj => h4 j (Nat.zero_le _) hj⟩
      · rintro ⟨n, h2, h3, h4⟩
        exact ⟨n, Nat.zero_le _, by omega, h3, fun j _ hj => h4 j hj⟩
    · rw [hr.2.1, serial_send_wait_timeout]
      constructor
      · rintro ⟨n, _, h2, h3, h4, h5⟩
        exact ⟨n, by omega, h3, h4, fun j hj => h5 j (Nat.zero_le _) hj⟩
      · rintro ⟨n, h2, h3, h4, h5⟩
        exact ⟨n, Nat.zero_le _, by omega, h3, h4, fun j _ hj => h5 j hj⟩
    · intro h
      rw [hr.2.2.1 h]
      simp
    · intro h
      rw [(hr.2.2.2 h).1, hst]
      exact ⟨by simp, (hr.2.2.2 h).2⟩
  · intro n e hm he hclock
    simp only [SendEnv.pastLimit, hclock]
    exact time_not_past_limit _ e millis he hm
  · intro hok
    rw [hs fuel, hs 0, serial_send_transmit_rejected env fuel st d len _ hok,
      serial_send_transmit_rejected env 0 st d len _ hok, hst]
    exact ⟨rfl, rfl, by simp⟩

/-- A transmitter that stays busy for two passes of the wait loop. -/
theorem serial_send_outcome_witness :
    (serial_send ⟨4294967000, true, fun n => decide (n < 2), fun _ => true, fun n => 4294967100 + n⟩
        3 ⟨none, none, [], [], [], false⟩ 0 ⟨true, [1, 2, 3]⟩ 3 1000).2
      = some ThingstreamResult.TRANSPORT_SUCCESS.toInt :=
  ((serial_send_outcome
      ⟨4294967000, true, fun n => decide (n < 2), fun _ => true, fun n => 4294967100 + n⟩
      3 ⟨none, none, [], [], [], false⟩ 0 ⟨true, [1, 2, 3]⟩ 3 1000 (Or.inl rfl)).1 rfl).1.mpr
    ⟨2, by decide, by decide, by decide⟩

/-- Claim C23. `uart_event_handler` calls the registered callback exactly when the
event is `RX_DONE` with a non-zero byte count and a callback is registered, with
the registered cookie and the event's data pointer and byte count; every
`RX_DONE` and every `ERROR` event adds one receive request; a `TX_DONE` event
only clears `tx_busy`; no event changes the registered callback or cookie. -/
theorem uart_event_handler_behaviour (p_event : UartEvent) (state : SerialTransportState) :
    ((uart_event_handler p_event state).2
        = match state.callback with
          | some callback =>
            if p_event.type = UartEvtType.RX_DONE ∧ p_event.bytes ≠ 0 then
              [⟨callback, state.callback_cookie, p_event.p_data, p_event.bytes⟩]
            else []
          | none => [])
    ∧ ((p_event.type = UartEvtType.RX_DONE ∨ p_event.type = UartEvtType.ERROR) →
        (uart_event_handler p_event state).1
          = { state with uart := state.uart ++ [UartOp.rx state.rx_buffer.length] })
    ∧ (p_event.type = UartEvtType.TX_DONE →
        uart_event_handler p_event state = ({ state with tx_busy := false }, []))
    ∧ (uart_event_handler p_event state).1.callback = state.callback
    ∧ (uart_event_handler p_event state).1.callback_cookie = state.callback_cookie := by
  obtain ⟨type, p_data, bytes⟩ := p_event
  cases type <;> cases hc : state.callback <;> by_cases hb : bytes = 0 <;>
    simp [uart_event_handler, hc, hb]

theorem uart_event_handler_behaviour_witness :
    (uart_event_handler ⟨UartEvtType.RX_DONE, 536870912, 5⟩
        ⟨some 7, some 9, [], List.replicate 4 0, [], true⟩).1
      = ⟨some 7, some 9, [UartOp.rx 4], List.replicate 4 0, [], true⟩ :=
  (uart_event_handler_behaviour ⟨UartEvtType.RX_DONE, 536870912, 5⟩
    ⟨some 7, some 9, [], List.replicate 4 0, [], true⟩).2.1 (Or.inl rfl)

theorem serial_send_flash_copy_witness :
    (2 ≤ [1, 2, 3].length)
    ∧ (serial_send ⟨0, true, fun _ => false, fun _ => false, fun _ => 0⟩ 1
        ⟨none, none, [], [], List.replicate 64 0, false⟩ 0 ⟨false, [1, 2, 3]⟩ 2 100).1.tx_buffer.take 2
      = [1, 2] :=
  ⟨by decide,
    ((serial_send_flash_copy ⟨0, true, fun _ => false, fun _ => false, fun _ => 0⟩ 1
      ⟨none, none, [], [], List.replicate 64 0, false⟩ 0 [1, 2, 3] 2 100 (by decide)).2.1
      (by decide)).2.2⟩

end Thingstream

namespace Thingstream

/-! ## Lemmas on creation and teardown in `run_example` -/

theorem createModemStack_created {α : Type} (env : StackEnv) (transport : Option Nat)
    (tr : List Event) (error : List Event → α) (next : Option Nat → List Event → α) :
    ∃ l : List Event, (∀ e ∈ l, e.isSetup = true)
      ∧ ((l.any Event.isCreateNull = true
            ∧ (env.ringBuffer.isSome && (!env.DEBUG_LOG_MODEM || env.modemLogger.isSome)
                && env.modem.isSome) = false
            ∧ createModemStack env transport tr error next = error (tr ++ l))
          ∨ (l.any Event.isCreateNull = false
            ∧ (env.ringBuffer.isSome && (!env.DEBUG_LOG_MODEM || env.modemLogger.isSome)
                && env.modem.isSome) = true
            ∧ createModemStack env transport tr error next = next env.modem (tr ++ l))) := by
  simp only [createModemStack, CHECK]
  split_ifs
  all_goals simp only [List.append_assoc]
  all_goals first
    | exact ⟨_, by simp [Event.isSetup], Or.inl ⟨by simp_all [Event.isCreateNull],
        by simp_all, rfl⟩⟩
    | exact ⟨_, by simp [Event.isSetup], Or.inr ⟨by simp_all [Event.isCreateNull],
        by simp_all, rfl⟩⟩

theorem createProtocolStack_created {α : Type} (env : StackEnv) (transport : Option Nat)
    (tr : List Event) (error : List Event → α) (next : Option Nat → List Event → α) :
    ∃ l : List Event, (∀ e ∈ l, e.isSetup = true)
      ∧ ((l.any Event.isCreateNull = true
            ∧ (env.base64.isSome && env.protocol.isSome
                && (!env.DEBUG_LOG_CLIENT || env.clientLogger.isSome)) = false
            ∧ createProtocolStack env transport tr error next = error (tr ++ l))
          ∨ (l.any Event.isCreateNull = false
            ∧ (env.base64.isSome && env.protocol.isSome
                && (!env.DEBUG_LOG_CLIENT || env.clientLogger.isSome)) = true
            ∧ ∃ t, createProtocolStack env transport tr error next = next t (tr ++ l))) := by
  simp only [createProtocolStack, CHECK]
  split_ifs
  all_goals simp only [List.append_assoc]
  all_goals first
    | exact ⟨_, by simp [Event.isSetup], Or.inl ⟨by simp_all [Event.isCreateNull],
        by simp_all, rfl⟩⟩
    | exact ⟨_, by simp [Event.isSetup], Or.inr ⟨by simp_all [Event.isCreateNull],
        by simp_all, _, rfl⟩⟩

theorem createStack_created {α : Type} (env : StackEnv) (transport : Option Nat)
    (error : List Event → α) (next : Option Nat → List Event → α) :
    ∃ l : List Event, (∀ e ∈ l, e.isSetup = true)
      ∧ ((l.any Event.isCreateNull = true ∧ env.created = false
            ∧ createModemStack env transport [] error
              (fun modem_transport tr => createProtocolStack env modem_transport tr error next)
              = error l)
          ∨ (l.any Event.isCreateNull = false ∧ env.created = true
            ∧ ∃ t, createModemStack env transport [] error
              (fun modem_transport tr => createProtocolStack env modem_transport tr error next)
              = next t l)) := by
  obtain ⟨l1, hl1, ⟨ha, hc, h1⟩ | ⟨ha, hc, h1⟩⟩ := createModemStack_created env transport []
    error (fun modem_transport tr => createProtocolStack env modem_transport tr error next)
  · refine ⟨l1, hl1, Or.inl ⟨ha, ?_, by rw [h1]; simp⟩⟩
    simp only [StackEnv.created, hc, Bool.false_and]
  · rw [h1]
    obtain ⟨l2, hl2, ⟨ha2, hc2, h2⟩ | ⟨ha2, hc2, t, h2⟩⟩ :=
      createProtocolStack_created env env.modem ([] ++ l1) error next
    · refine ⟨l1 ++ l2, ?_, Or.inl ⟨by simp [ha, ha2], ?_, by rw [h2]; simp⟩⟩
      · intro e he; rcases List.mem_append.1 he with h | h
        · exact hl1 e h
        · exact hl2 e h
      · simp only [StackEnv.created, Bool.and_assoc] at hc hc2 ⊢
        simp only [Bool.and_eq_true, Bool.and_eq_false_iff] at hc hc2 ⊢
        tauto
    · refine ⟨l1 ++ l2, ?_, Or.inr ⟨by simp [ha, ha2], ?_, t, by rw [h2]; simp⟩⟩
      · intro e he; rcases List.mem_append.1 he with h | h
        · exact hl1 e h
        · exact hl2 e h
      · simp only [StackEnv.created, Bool.and_assoc] at hc hc2 ⊢
        simp only [Bool.and_eq_true] at hc hc2 ⊢
        tauto

theorem filter_setup_nil (q : Event → Bool) (hq : ∀ e, e.isSetup = true → q e = false)
    (l : List Event) (hl : ∀ e ∈ l, e.isSetup = true) : l.filter q = [] := by
  have h := filter_setup_append q hq l [] hl
  simpa using h

theorem any_eq_filter (q : Event → Bool) (l : List Event) :
    l.any q = !(l.filter q).isEmpty := by
  induction l with
  | nil => rfl
  | cons a l ih =>
    by_cases h : q a = true
    · simp [List.filter_cons, h]
    · simp only [Bool.not_eq_true] at h
      simp [List.filter_cons, h, ih]

end Thingstream

namespace Thingstream

/-! ## connected_sendAndReceive.c: the publish interval and the error flag -/

theorem connected_callbacks_last_publish (g : connected_sendAndReceive.Globals)
    (cbs : List connected_sendAndReceive.Callback) :
    (connected_sendAndReceive.callbacks g cbs).last_publish = g.last_publish := by
  induction cbs generalizing g with
  | nil => rfl
  | cons cb cbs ih =>
    simp only [connected_sendAndReceive.callbacks, List.foldl_cons] at ih ⊢
    rw [ih]
    cases cb
    · simp only [connected_sendAndReceive.Callback.apply,
        connected_sendAndReceive.Thingstream_Application_subscribeCallback]
      split_ifs <;> rfl
    · rfl
    · rfl

theorem connected_publish_section_publish (env : connected_sendAndReceive.Env)
    (g : connected_sendAndReceive.Globals) (tr : List Event) :
    ((connected_sendAndReceive.publish_section env g tr).2.filter Event.isPublish
      = tr.filter Event.isPublish ++
          if sub32 (Thingstream_Platform_getTimeMillis env.clock) g.last_publish
              > (connected_sendAndReceive.publish_interval * 1000) % U32 then
            [Event.Client_publish g.client g.publish_topic ThingstreamQOS1 false
              connected_sendAndReceive.msg (sizeofMinus1 connected_sendAndReceive.msg)
              env.publish]
          else [])
    ∧ ((connected_sendAndReceive.publish_section env g tr).1.last_publish
      = if sub32 (Thingstream_Platform_getTimeMillis env.clock) g.last_publish
            > (connected_sendAndReceive.publish_interval * 1000) % U32 then
          Thingstream_Platform_getTimeMillis env.clock
        else g.last_publish) := by
  simp only [connected_sendAndReceive.publish_section, connected_sendAndReceive.disconnect,
    connected_sendAndReceive.shutdown, connected_sendAndReceive.destroy,
    connected_sendAndReceive.error, CHECK_CLIENT_SUCCESS, Thingstream_Client_destroy]
  split_ifs <;>
    simp [List.filter_cons, Event.isPublish, connected_callbacks_last_publish]

theorem sub32_add32_elapsed (last e : Nat) (he : e < U32) : sub32 (add32 last e) last = e := by
  simp only [sub32, add32, U32] at *
  omega

/-- A wrap of the clock between two calls, 1000 seconds apart: the second call
reads a smaller clock value than the first stored, and makes no publish. -/
theorem publish_not_early_at_wrap :
    Thingstream_Platform_getTimeMillis 4295000000 < 4294000000
    ∧ sub32 (Thingstream_Platform_getTimeMillis 4295000000) 4294000000 = 1000000
    ∧ 1000000 < connected_sendAndReceive.publish_interval * 1000
    ∧ (connected_sendAndReceive.publish_and_get_messages
        { createClient := some 1, init := 0, connect := 0, register := 0,
          publish_topic := ⟨0, 5⟩, subscribe := 0, receive_topic := ⟨0, 6⟩, publish := 0,
          disconnect := 0, shutdown := 0, clock := 4295000000, cb_init := [], cb_connect := [],
          cb_register := [], cb_subscribe := [], cb_publish := [], cb_run := [],
          cb_disconnect := [], cb_shutdown := [] }
        (some 0)
        { client := some 1, publish_topic := ⟨0, 5⟩, receive_topic := ⟨0, 6⟩,
          disconnectOrPubackError := 0, last_publish := 4294000000 })
      = ({ client := some 1, publish_topic := ⟨0, 5⟩, receive_topic := ⟨0, 6⟩,
            disconnectOrPubackError := 0, last_publish := 4294000000 },
          [Event.Platform_getTimeMillis 32704, Event.Client_run (some 1) 0]) := by
  decide

/-- Claim C25. In `publish_and_get_messages`, with the client set and no error
flagged, a publish is made exactly when the 32-bit difference between the clock
and `last_publish` exceeds `publish_interval * 1000 = 3600000`; `last_publish`
becomes the clock value exactly then.  For every `last_publish`, also one just
before the clock wraps, a call made `e` milliseconds later makes no publish
while `e` is at most 3600000 and makes one when `e` is above it (and below
`2 ^ 32`): a wrap of the clock causes no early publish. -/
theorem publish_interval_wrap_safe (env : connected_sendAndReceive.Env)
    (transport : Option Nat) (g : connected_sendAndReceive.Globals)
    (hc : g.client ≠ none) (hf : g.disconnectOrPubackError = 0) :
    connected_sendAndReceive.publish_and_get_messages env transport g
      = connected_sendAndReceive.publish_section env g []
    ∧ ((connected_sendAndReceive.publish_and_get_messages env transport g).2.filter
          Event.isPublish
        = if sub32 (Thingstream_Platform_getTimeMillis env.clock) g.last_publish > 3600000 then
            [Event.Client_publish g.client g.publish_topic ThingstreamQOS1 false
              connected_sendAndReceive.msg (sizeofMinus1 connected_sendAndReceive.msg)
              env.publish]
          else [])
    ∧ ((connected_sendAndReceive.publish_and_get_messages env transport g).1.last_publish
        = if sub32 (Thingstream_Platform_getTimeMillis env.clock) g.last_publish > 3600000 then
            Thingstream_Platform_getTimeMillis env.clock
          else g.last_publish)
    ∧ (∀ e, e ≤ 3600000 →
        Thingstream_Platform_getTimeMillis env.clock = add32 g.last_publish e →
        (connected_sendAndReceive.publish_and_get_messages env transport g).2.filter
            Event.isPublish = []
        ∧ (connected_sendAndReceive.publish_and_get_messages env transport g).1.last_publish
            = g.last_publish)
    ∧ (∀ e, 3600000 < e → e < U32 →
        Thingstream_Platform_getTimeMillis env.clock = add32 g.last_publish e →
        (connected_sendAndReceive.publish_and_get_messages env transport g).2.filter
            Event.isPublish
          = [Event.Client_publish g.client g.publish_topic ThingstreamQOS1 false
              connected_sendAndReceive.msg (sizeofMinus1 connected_sendAndReceive.msg)
              env.publish]
        ∧ (connected_sendAndReceive.publish_and_get_messages env transport g).1.last_publish
            = Thingstream_Platform_getTimeMillis env.clock)
    ∧ connected_sendAndReceive.publish_interval * 1000 % U32 = 3600000 := by
  have hstep : connected_sendAndReceive.publish_and_get_messages env transport g
      = connected_sendAndReceive.publish_section env g [] := by
    simp only [connected_sendAndReceive.publish_and_get_messages]
    rw [if_neg hc, if_neg (by simp [hf])]
  have hi : connected_sendAndReceive.publish_interval * 1000 % U32 = 3600000 := by decide
  have hp := connected_publish_section_publish env g []
  rw [hi] at hp
  simp only [List.filter_nil, List.nil_append] at hp
  refine ⟨hstep, ?_, ?_, ?_, ?_, hi⟩
  · rw [hstep]; exact hp.1
  · rw [hstep]; exact hp.2
  · intro e he hnow
    have hd : sub32 (Thingstream_Platform_getTimeMillis env.clock) g.last_publish = e := by
      rw [hnow]; exact sub32_add32_elapsed _ _ (by simp only [U32]; omega)
    have hn : ¬ e > 3600000 := by omega
    rw [hstep, hp.1, hp.2, hd, if_neg hn, if_neg hn]
    exact ⟨rfl, rfl⟩
  · intro e he hu hnow
    have hd : sub32 (Thingstream_Platform_getTimeMillis env.clock) g.last_publish = e := by
      rw [hnow]; exact sub32_add32_elapsed _ _ hu
    have hn : e > 3600000 := he
    rw [hstep, hp.1, hp.2, hd, if_pos hn, if_pos hn]
    exact ⟨rfl, rfl⟩

theorem publish_interval_wrap_safe_witness :
    (connected_sendAndReceive.publish_and_get_messages
        { createClient := some 1, init := 0, connect := 0, register := 0,
          publish_topic := ⟨0, 5⟩, subscribe := 0, receive_topic := ⟨0, 6⟩, publish := 0,
          disconnect := 0, shutdown := 0, clock := 4297600001, cb_init := [], cb_connect := [],
          cb_register := [], cb_subscribe := [], cb_publish := [], cb_run := [],
          cb_disconnect := [], cb_shutdown := [] }
        (some 0)
        { client := some 1, publish_topic := ⟨0, 5⟩, receive_topic := ⟨0, 6⟩,
          disconnectOrPubackError := 0, last_publish := 4294000000 }).2.filter Event.isPublish
      = [Event.Client_publish (some 1) ⟨0, 5⟩ ThingstreamQOS1 false
          connected_sendAndReceive.msg (sizeofMinus1 connected_sendAndReceive.msg) 0] :=
  ((publish_interval_wrap_safe
      { createClient := some 1, init := 0, connect := 0, register := 0,
        publish_topic := ⟨0, 5⟩, subscribe := 0, receive_topic := ⟨0, 6⟩, publish := 0,
        disconnect := 0, shutdown := 0, clock := 4297600001, cb_init := [], cb_connect := [],
        cb_register := [], cb_subscribe := [], cb_publish := [], cb_run := [],
        cb_disconnect := [], cb_shutdown := [] }
      (some 0)
      { client := some 1, publish_topic := ⟨0, 5⟩, receive_topic := ⟨0, 6⟩,
        disconnectOrPubackError := 0, last_publish := 4294000000 }
      (by decide) rfl).2.2.2.2.1 3600001 (by decide) (by decide) (by decide)).1

end Thingstream

namespace Thingstream

theorem one_or (n : Nat) : 1 ||| n = if n % 2 = 0 then n + 1 else n := by
  have h1 : 2 ^ 1 * (n / 2) + 1 = 2 ^ 1 * (n / 2) ||| 1 :=
    Nat.mul_add_lt_is_or (by decide) (n / 2)
  rw [Nat.lor_comm]
  split_ifs with h
  · have hn : n = 2 ^ 1 * (n / 2) := by omega
    rw [hn, ← h1]
  · have hn : n = 2 ^ 1 * (n / 2) ||| 1 := by rw [← h1]; omega
    rw [hn, Nat.lor_assoc, Nat.or_self]

theorem connected_inv_publish_section (env : connected_sendAndReceive.Env)
    (g : connected_sendAndReceive.Globals) (tr : List Event) (hc : g.client ≠ none) :
    (connected_sendAndReceive.publish_section env g tr).1.disconnectOrPubackError ≠ 0 →
      (connected_sendAndReceive.publish_section env g tr).1.client ≠ none := by
  simp only [connected_sendAndReceive.publish_section, CHECK_CLIENT_SUCCESS]
  split_ifs
  · intro _; simpa [connected_callbacks_client] using hc
  · intro h; exact absurd (connected_teardown_resets env _ _).1.2 h
  · intro _; simpa [connected_callbacks_client] using hc

theorem connected_inv_step (env : connected_sendAndReceive.Env) (transport : Option Nat)
    (g : connected_sendAndReceive.Globals)
    (hg : g.disconnectOrPubackError ≠ 0 → g.client ≠ none) :
    (connected_sendAndReceive.publish_and_get_messages env transport g).1.disconnectOrPubackError
        ≠ 0 →
      (connected_sendAndReceive.publish_and_get_messages env transport g).1.client ≠ none := by
  simp only [connected_sendAndReceive.publish_and_get_messages, CHECK, CHECK_CLIENT_SUCCESS]
  split_ifs with h1 h2 h3 h4 h5 h6 h7 h8
  · apply connected_inv_publish_section
    simp only [connected_callbacks_client]
    intro hn; rw [hn] at h2; simp at h2
  · intro h; exact absurd (connected_teardown_resets env _ _).1.2 h
  · intro h; exact absurd (connected_teardown_resets env _ _).1.2 h
  · intro h; exact absurd (connected_teardown_resets env _ _).2.1.2 h
  · intro h; exact absurd (connected_teardown_resets env _ _).2.2.2 h
  · intro h
    simp only [connected_sendAndReceive.error] at h
    exact absurd h1 (hg h)
  · intro _; simpa [connected_callbacks_client] using h1
  · intro h; exact absurd (connected_teardown_resets env _ _).1.2 h
  · exact connected_inv_publish_section env g [] h1

theorem connected_inv_loop (transport : Option Nat) (envs : List connected_sendAndReceive.Env)
    (g : connected_sendAndReceive.Globals)
    (hg : g.disconnectOrPubackError ≠ 0 → g.client ≠ none) :
    (connected_sendAndReceive.loop transport envs g).1.disconnectOrPubackError ≠ 0 →
      (connected_sendAndReceive.loop transport envs g).1.client ≠ none := by
  induction envs generalizing g with
  | nil => exact hg
  | cons env envs ih =>
    simp only [connected_sendAndReceive.loop]
    exact ih _ (connected_inv_step env transport g hg)

theorem connected_teardown_calls (env : connected_sendAndReceive.Env)
    (g : connected_sendAndReceive.Globals) (tr : List Event) :
    (connected_sendAndReceive.disconnect env g tr).2.filter (fun e => !e.isQuiet)
      = tr.filter (fun e => !e.isQuiet) ++ [Event.Client_disconnect g.client 0 env.disconnect,
          Event.Client_shutdown g.client env.shutdown]
    ∧ Event.Util_printf "%s ok\n" "destroy" ∈ (connected_sendAndReceive.disconnect env g tr).2 := by
  simp only [connected_sendAndReceive.disconnect, connected_sendAndReceive.shutdown,
    connected_sendAndReceive.destroy, connected_sendAndReceive.error, CHECK_CLIENT_SUCCESS,
    Thingstream_Client_destroy]
  split_ifs <;> simp [List.filter_cons, Event.isQuiet, connected_callbacks_client]

/-- Claim C26. The disconnect callback stores `1 | now` and the puback error
callback stores `1 | ((now + 60000) mod 2 ^ 32)` in `disconnectOrPubackError`:
the stored value is never 0 and lies 0 or 1 ms, respectively 60000 or 60001 ms,
after `now`.  With the client set and the flag non-zero,
`publish_and_get_messages` only reads the clock and calls
`Thingstream_Client_run(client, 10)` while `TIME_COMPARE(now, <, flag)` holds;
on a call where it does not hold, the client is disconnected, then shut down,
then destroyed (no create, init or connect call is made), and the flag and the
client pointer are reset.  In every state the loop reaches from the initial
one, a non-zero flag comes with a client that is set. -/
theorem error_flag_delays_teardown (env : connected_sendAndReceive.Env)
    (transport : Option Nat) (g : connected_sendAndReceive.Globals) (reading : Nat)
    (resultCode : Int) (envs : List connected_sendAndReceive.Env) :
    ((connected_sendAndReceive.Thingstream_Application_disconnectCallback g
          reading).1.disconnectOrPubackError
        = 1 ||| Thingstream_Platform_getTimeMillis reading
      ∧ (connected_sendAndReceive.Thingstream_Application_disconnectCallback g
          reading).1.disconnectOrPubackError ≠ 0
      ∧ (connected_sendAndReceive.Thingstream_Application_disconnectCallback g
          reading).1.disconnectOrPubackError < U32
      ∧ (sub32 (connected_sendAndReceive.Thingstream_Application_disconnectCallback g
            reading).1.disconnectOrPubackError (Thingstream_Platform_getTimeMillis reading) = 0
        ∨ sub32 (connected_sendAndReceive.Thingstream_Application_disconnectCallback g
            reading).1.disconnectOrPubackError (Thingstream_Platform_getTimeMillis reading) = 1))
    ∧ ((connected_sendAndReceive.Thingstream_Application_pubackErrorCallback g resultCode
          reading).1.disconnectOrPubackError
        = 1 ||| ((Thingstream_Platform_getTimeMillis reading + 60000) % 2 ^ 32)
      ∧ (connected_sendAndReceive.Thingstream_Application_pubackErrorCallback g resultCode
          reading).1.disconnectOrPubackError ≠ 0
      ∧ (connected_sendAndReceive.Thingstream_Application_pubackErrorCallback g resultCode
          reading).1.disconnectOrPubackError < U32
      ∧ (sub32 (connected_sendAndReceive.Thingstream_Application_pubackErrorCallback g resultCode
            reading).1.disconnectOrPubackError (Thingstream_Platform_getTimeMillis reading)
          = 60000
        ∨ sub32 (connected_sendAndReceive.Thingstream_Application_pubackErrorCallback g
            resultCode reading).1.disconnectOrPubackError
            (Thingstream_Platform_getTimeMillis reading) = 60001))
    ∧ (g.client ≠ none → g.disconnectOrPubackError ≠ 0 →
        TIME_COMPARE (Thingstream_Platform_getTimeMillis env.clock) Cmp.lt
          g.disconnectOrPubackError = true →
        connected_sendAndReceive.publish_and_get_messages env transport g
          = (connected_sendAndReceive.callbacks g env.cb_run,
              [Event.Platform_getTimeMillis (Thingstream_Platform_getTimeMillis env.clock),
                Event.Client_run g.client 10]))
    ∧ (g.client ≠ none → g.disconnectOrPubackError ≠ 0 →
        TIME_COMPARE (Thingstream_Platform_getTimeMillis env.clock) Cmp.lt
          g.disconnectOrPubackError = false →
        (connected_sendAndReceive.publish_and_get_messages env transport g).2.filter
            (fun e => !e.isQuiet)
          = [Event.Client_disconnect g.client 0 env.disconnect,
              Event.Client_shutdown g.client env.shutdown]
        ∧ Event.Util_printf "%s ok\n" "destroy"
            ∈ (connected_sendAndReceive.publish_and_get_messages env transport g).2
        ∧ (connected_sendAndReceive.publish_and_get_messages env transport
            g).1.disconnectOrPubackError = 0
        ∧ (connected_sendAndReceive.publish_and_get_messages env transport g).1.client = none)
    ∧ ((connected_sendAndReceive.loop transport envs
          connected_sendAndReceive.Globals.initial).1.disconnectOrPubackError ≠ 0 →
        (connected_sendAndReceive.loop transport envs
          connected_sendAndReceive.Globals.initial).1.client ≠ none) := by
  have hnow : Thingstream_Platform_getTimeMillis reading < 4294967296 := by
    simp only [Thingstream_Platform_getTimeMillis, U32]; omega
  refine ⟨?_, ?_, ?_, ?_, ?_⟩
  · simp only [connected_sendAndReceive.Thingstream_Application_disconnectCallback, one_or,
      sub32, U32]
    refine ⟨trivial, ?_, ?_, ?_⟩ <;> split_ifs <;> omega
  · simp only [connected_sendAndReceive.Thingstream_Application_pubackErrorCallback, one_or,
      sub32, add32, U32]
    refine ⟨by norm_num, ?_, ?_, ?_⟩ <;> split_ifs <;> omega
  · intro hc hf ht
    simp only [connected_sendAndReceive.publish_and_get_messages]
    rw [if_neg hc, if_pos hf, if_pos ht]
    rfl
  · intro hc hf ht
    have hstep : connected_sendAndReceive.publish_and_get_messages env transport g
        = connected_sendAndReceive.disconnect env g
            [Event.Platform_getTimeMillis (Thingstream_Platform_getTimeMillis env.clock)] := by
      simp only [connected_sendAndReceive.publish_and_get_messages]
      rw [if_neg hc, if_pos hf, if_neg (by simp [ht])]
    rw [hstep]
    have hcalls := connected_teardown_calls env g
      [Event.Platform_getTimeMillis (Thingstream_Platform_getTimeMillis env.clock)]
    have hreset := (connected_teardown_resets env g
      [Event.Platform_getTimeMillis (Thingstream_Platform_getTimeMillis env.clock)]).1
    refine ⟨?_, hcalls.2, hreset.2, hreset.1⟩
    rw [hcalls.1]
    simp [List.filter_cons, Event.isQuiet]
  · exact connected_inv_loop transport envs _ (fun h => absurd rfl h)

theorem error_flag_delays_teardown_witness :
    connected_sendAndReceive.publish_and_get_messages
        { createClient := some 1, init := 0, connect := 0, register := 0,
          publish_topic := ⟨0, 5⟩, subscribe := 0, receive_topic := ⟨0, 6⟩, publish := 0,
          disconnect := 0, shutdown := 0, clock := 4294967290, cb_init := [], cb_connect := [],
          cb_register := [], cb_subscribe := [], cb_publish := [], cb_run := [],
          cb_disconnect := [], cb_shutdown := [] }
        (some 0)
        { client := some 1, publish_topic := ⟨0, 5⟩, receive_topic := ⟨0, 6⟩,
          disconnectOrPubackError := 59995, last_publish := 4294000000 }
      = ({ client := some 1, publish_topic := ⟨0, 5⟩, receive_topic := ⟨0, 6⟩,
            disconnectOrPubackError := 59995, last_publish := 4294000000 },
          [Event.Platform_getTimeMillis 4294967290, Event.Client_run (some 1) 10]) :=
  (error_flag_delays_teardown
      { createClient := some 1, init := 0, connect := 0, register := 0,
        publish_topic := ⟨0, 5⟩, subscribe := 0, receive_topic := ⟨0, 6⟩, publish := 0,
        disconnect := 0, shutdown := 0, clock := 4294967290, cb_init := [], cb_connect := [],
        cb_register := [], cb_subscribe := [], cb_publish := [], cb_run := [],
        cb_disconnect := [], cb_shutdown := [] }
      (some 0)
      { client := some 1, publish_topic := ⟨0, 5⟩, receive_topic := ⟨0, 6⟩,
        disconnectOrPubackError := 59995, last_publish := 4294000000 }
      0 0 []).2.2.1 (by decide) (by decide) (by decide)

end Thingstream

namespace Thingstream

/-! ## client_api.h: the stored inbound queue size -/

end Thingstream

namespace Thingstream

/-! ## Lemmas on fragmentation and reassembly -/

end Thingstream

namespace Thingstream

end Thingstream

namespace Thingstream

end Thingstream

namespace Thingstream

set_option maxRecDepth 8000 in
/-- The scenario of the spec: 300 bytes over MTU 145 give exactly 3 fragments. -/
theorem fragment_count_300_145 :
    (ProtocolTransport.split 145 300 0 (List.replicate 300 0)).length = 3 := by
  decide

end Thingstream

namespace Thingstream

/-! ## Lemmas on the calls of `run_example` other than reports -/

theorem filter_report (q : Event → Bool) (hq : ∀ e, e.isReport = true → q e = false)
    (l : List Event) : (l.filter (fun e => !e.isReport)).filter q = l.filter q := by
  induction l with
  | nil => rfl
  | cons a l ih =>
    cases ha : a.isReport with
    | true => simp [List.filter_cons, ha, hq a ha, ih]
    | false =>
      by_cases hqa : q a = true
      · simp [List.filter_cons, ha, hqa, ih]
      · simp [List.filter_cons, ha, hqa, ih]

theorem any_report (q : Event → Bool) (hq : ∀ e, e.isReport = true → q e = false)
    (l : List Event) : (l.filter (fun e => !e.isReport)).any q = l.any q := by
  rw [any_eq_filter, any_eq_filter, filter_report q hq]

theorem filter_of_report_form (q : Event → Bool) (hq : ∀ e, e.isReport = true → q e = false)
    (hs : ∀ e, e.isSetup = true → q e = false) (tr l sk : List Event)
    (hl : ∀ e ∈ l, e.isSetup = true)
    (h : tr.filter (fun e => !e.isReport) = l.filter (fun e => !e.isReport) ++ sk) :
    tr.filter q = sk.filter q := by
  rw [← filter_report q hq tr, h, List.filter_append, filter_report q hq l,
    filter_setup_nil q hs l hl, List.nil_append]

theorem any_of_report_form (q : Event → Bool) (hq : ∀ e, e.isReport = true → q e = false)
    (tr l sk : List Event)
    (h : tr.filter (fun e => !e.isReport) = l.filter (fun e => !e.isReport) ++ sk) :
    tr.any q = (l.any q || sk.any q) := by
  rw [← any_report q hq tr, h, List.any_append, any_report q hq l]

theorem any_setup_false (q : Event → Bool) (hs : ∀ e, e.isSetup = true → q e = false)
    (l : List Event) (hl : ∀ e ∈ l, e.isSetup = true) : l.any q = false := by
  rw [any_eq_filter, filter_setup_nil q hs l hl]; rfl

theorem stepFailure_of_steps (l : List Event) :
    l.filterMap Event.stepFailure = (l.filter Event.isStep).filterMap Event.stepFailure := by
  induction l with
  | nil => rfl
  | cons a l ih =>
    cases a <;> simp [List.filter_cons, List.filterMap_cons, Event.isStep, Event.stepFailure, ih]

theorem report_not_step (e : Event) :
    (e.isReport = true → e.isShutdown = false)
    ∧ (e.isReport = true → (e.isDisconnect || e.isShutdown) = false)
    ∧ (e.isReport = true → e.isInitSuccess = false)
    ∧ (e.isReport = true → e.isConnectSuccess = false)
    ∧ (e.isReport = true → e.isCreateNull = false)
    ∧ (e.isReport = true → e.isStep = false)
    ∧ (e.isSetup = true → e.isShutdown = false)
    ∧ (e.isSetup = true → (e.isDisconnect || e.isShutdown) = false)
    ∧ (e.isSetup = true → e.isInitSuccess = false)
    ∧ (e.isSetup = true → e.isConnectSuccess = false)
    ∧ (e.isSetup = true → e.isStep = false) := by
  cases e <;>
    simp [Event.isReport, Event.isShutdown, Event.isDisconnect, Event.isInitSuccess,
      Event.isConnectSuccess, Event.isCreateNull, Event.isSetup, Event.isStep]

theorem echo_waitLoop_filter (env : echo_test.Env) (client : Option Nat) (limit fuel i : Nat)
    (g : echo_test.Globals) (tr : List Event) :
    (echo_test.waitLoop env client limit fuel i g tr).2.1.filter (fun e => !e.isReport)
      = tr.filter (fun e => !e.isReport) := by
  induction fuel generalizing i g tr with
  | zero => rfl
  | succ n ih =>
    simp only [echo_test.waitLoop]
    split_ifs
    · rw [ih]; simp [List.filter_cons, Event.isReport]
    · simp [List.filter_cons, Event.isReport]

theorem echo_waitLoop_finishes (env : echo_test.Env) (client : Option Nat) (limit fuel i : Nat)
    (g : echo_test.Globals) (tr : List Event)
    (h : ∃ n, i ≤ n ∧ n < i + fuel
      ∧ TIME_COMPARE (Thingstream_Platform_getTimeMillis (env.clock (n + 1))) Cmp.lt limit
          = false) :
    (echo_test.waitLoop env client limit fuel i g tr).2.2 = true := by
  induction fuel generalizing i g tr with
  | zero => obtain ⟨n, h1, h2, _⟩ := h; omega
  | succ k ih =>
    simp only [echo_test.waitLoop]
    split_ifs with hc
    · apply ih
      obtain ⟨n, h1, h2, h3⟩ := h
      have hne : i ≠ n := by
        intro h4; subst h4; rw [h3] at hc; simp at hc
      exact ⟨n, by omega, by omega, h3⟩
    · rfl

theorem echo_teardown_filter (env : echo_test.Env) (client : Option Nat) (result : Int)
    (tr : List Event) :
    (echo_test.disconnect env client result tr).1.filter (fun e => !e.isReport)
        = tr.filter (fun e => !e.isReport) ++ [Event.Client_disconnect client 0 env.disconnect,
            Event.Client_shutdown client env.shutdown]
    ∧ (echo_test.shutdown env client result tr).1.filter (fun e => !e.isReport)
        = tr.filter (fun e => !e.isReport) ++ [Event.Client_shutdown client env.shutdown]
    ∧ (echo_test.destroy client result tr).1.filter (fun e => !e.isReport)
        = tr.filter (fun e => !e.isReport) := by
  simp only [echo_test.disconnect, echo_test.shutdown, echo_test.destroy, echo_test.error,
    CHECK_CLIENT_SUCCESS, Thingstream_Client_destroy]
  split_ifs <;> simp [List.filter_cons, Event.isReport]

theorem echo_teardown_value (env : echo_test.Env) (client : Option Nat) (result : Int)
    (tr : List Event) :
    (echo_test.disconnect env client result tr).2 = some result
    ∧ (echo_test.shutdown env client result tr).2 = some result
    ∧ (echo_test.destroy client result tr).2 = some result := by
  simp only [echo_test.disconnect, echo_test.shutdown, echo_test.destroy, echo_test.error,
    CHECK_CLIENT_SUCCESS, Thingstream_Client_destroy]
  split_ifs <;> simp

theorem echo_run_client_filter (env : echo_test.Env) (fuel : Nat) (g : echo_test.Globals)
    (transport : Option Nat) (tr : List Event)
    (h : ∃ n, n < fuel
      ∧ TIME_COMPARE (Thingstream_Platform_getTimeMillis (env.clock (n + 1))) Cmp.lt
          (add32 (Thingstream_Platform_getTimeMillis (env.clock 0)) 60000) = false) :
    (echo_test.run_client env fuel g transport tr).1.filter (fun e => !e.isReport)
      = tr.filter (fun e => !e.isReport) ++ (Event.createClient transport env.client ::
          if env.client.isSome then
            Event.Client_init env.client env.init ::
              if env.init = ThingstreamResult.CLIENT_SUCCESS.toInt then
                Event.Client_connect env.client true 0 none env.connect ::
                  if env.connect = ThingstreamResult.CLIENT_SUCCESS.toInt then
                    Event.Client_subscribeName env.client echo_test.EXAMPLE_TOPIC
                        ThingstreamQOS1 env.subscribe ::
                      if env.subscribe = ThingstreamResult.CLIENT_SUCCESS.toInt then
                        [Event.Client_publish env.client env.topic ThingstreamQOS1 false
                            echo_test.msg (sizeofMinus1 echo_test.msg) env.publish,
                          Event.Client_disconnect env.client 0 env.disconnect,
                          Event.Client_shutdown env.client env.shutdown]
                      else
                        [Event.Client_disconnect env.client 0 env.disconnect,
                          Event.Client_shutdown env.client env.shutdown]
                  else [Event.Client_shutdown env.client env.shutdown]
              else []
          else [])
    ∧ (echo_test.run_client env fuel g transport tr).2
      = some (if env.client.isSome then
          if env.init ≠ ThingstreamResult.CLIENT_SUCCESS.toInt then env.init
          else if env.connect ≠ ThingstreamResult.CLIENT_SUCCESS.toInt then env.connect
          else if env.subscribe ≠ ThingstreamResult.CLIENT_SUCCESS.toInt then env.subscribe
          else if env.publish ≠ ThingstreamResult.CLIENT_SUCCESS.toInt then env.publish
          else ThingstreamResult.CLIENT_SUCCESS.toInt
        else ThingstreamResult.TRANSPORT_ERROR.toInt) := by
  have hd1 := fun c r t => (echo_teardown_filter env c r t).1
  have hd2 := fun c r t => (echo_teardown_filter env c r t).2.1
  have hd3 := fun c r t => (echo_teardown_filter env c r t).2.2
  have hv1 := fun c r t => (echo_teardown_value env c r t).1
  have hv2 := fun c r t => (echo_teardown_value env c r t).2.1
  have hv3 := fun c r t => (echo_teardown_value env c r t).2.2
  have hfin : ∀ g1 t, (echo_test.waitLoop env env.client
      (add32 (Thingstream_Platform_getTimeMillis (env.clock 0)) 60000) fuel 0 g1 t).2.2
        = true := by
    intro g1 t
    apply echo_waitLoop_finishes
    obtain ⟨n, hn, hc⟩ := h
    exact ⟨n, Nat.zero_le _, by omega, hc⟩
  simp only [echo_test.run_client, CHECK, CHECK_CLIENT_SUCCESS, hfin, if_true]
  by_cases h1 : env.client.isSome = true
  · by_cases h2 : env.init = ThingstreamResult.CLIENT_SUCCESS.toInt
    · by_cases h3 : env.connect = ThingstreamResult.CLIENT_SUCCESS.toInt
      · by_cases h4 : env.subscribe = ThingstreamResult.CLIENT_SUCCESS.toInt
        · by_cases h5 : env.publish = ThingstreamResult.CLIENT_SUCCESS.toInt
          · simp only [h1, h2, h3, h4, h5, ↓reduceIte, hd1, hv1, echo_waitLoop_filter,
              List.filter_append]
            simp [List.filter_cons, Event.isReport]
          · simp only [h1, h2, h3, h4, h5, ↓reduceIte, hd1, hv1, List.filter_append]
            simp [List.filter_cons, Event.isReport, h5]
        · simp only [h1, h2, h3, h4, ↓reduceIte, hd1, hv1, List.filter_append]
          simp [List.filter_cons, Event.isReport, h4]
      · simp only [h1, h2, h3, ↓reduceIte, hd2, hv2, List.filter_append]
        simp [List.filter_cons, Event.isReport, h3]
    · simp only [h1, h2, ↓reduceIte, hd3, hv3, List.filter_append]
      simp [List.filter_cons, Event.isReport, h2]
  · simp only [h1, ↓reduceIte, echo_test.error, List.filter_append]
    simp [List.filter_cons, Event.isReport, h1]

theorem basic_publish_run_client_filter (env : basic_publish.Env) (transport : Option Nat)
    (tr : List Event) :
    (basic_publish.run_client env transport tr).1.filter (fun e => !e.isReport)
      = tr.filter (fun e => !e.isReport) ++ (Event.createClient transport env.client ::
          if env.client.isSome then
            Event.Client_init env.client env.init ::
              if env.init = ThingstreamResult.CLIENT_SUCCESS.toInt then
                [Event.Client_publish env.client Thingstream_PredefinedSelfTopic
                    ThingstreamQOSM1 false basic_publish.msg (sizeofMinus1 basic_publish.msg)
                    env.publish,
                  Event.Client_shutdown env.client env.shutdown]
              else []
          else [])
    ∧ (basic_publish.run_client env transport tr).2
      = (if env.client.isSome then
          if env.init ≠ ThingstreamResult.CLIENT_SUCCESS.toInt then env.init
          else if env.publish ≠ ThingstreamResult.CLIENT_SUCCESS.toInt then env.publish
          else ThingstreamResult.CLIENT_SUCCESS.toInt
        else ThingstreamResult.TRANSPORT_ERROR.toInt) := by
  simp only [basic_publish.run_client, basic_publish.shutdown, basic_publish.destroy,
    basic_publish.error, CHECK, CHECK_CLIENT_SUCCESS, Thingstream_Client_destroy]
  by_cases h1 : env.client.isSome = true
  · by_cases h2 : env.init = ThingstreamResult.CLIENT_SUCCESS.toInt
    · by_cases h3 : env.publish = ThingstreamResult.CLIENT_SUCCESS.toInt
      · by_cases h4 : env.shutdown = ThingstreamResult.CLIENT_SUCCESS.toInt <;>
          simp [h1, h2, h3, h4, List.filter_cons, Event.isReport]
      · by_cases h4 : env.shutdown = ThingstreamResult.CLIENT_SUCCESS.toInt <;>
          simp [h1, h2, h3, h4, List.filter_cons, Event.isReport]
    · simp [h1, h2, List.filter_cons, Event.isReport]
  · simp [h1, List.filter_cons, Event.isReport]

end Thingstream

namespace Thingstream

theorem echo_run_example_teardown (env : echo_test.Env) (fuel : Nat) (g : echo_test.Globals)
    (transport : Option Nat)
    (h : ∃ n, n < fuel
      ∧ TIME_COMPARE (Thingstream_Platform_getTimeMillis (env.clock (n + 1))) Cmp.lt
          (add32 (Thingstream_Platform_getTimeMillis (env.clock 0)) 60000) = false) :
    ((echo_test.run_example env fuel g transport).1.filter Event.isShutdown
        = if (echo_test.run_example env fuel g transport).1.any Event.isInitSuccess then
            [Event.Client_shutdown env.client env.shutdown]
          else [])
    ∧ ((echo_test.run_example env fuel g transport).1.filter
          (fun e => e.isDisconnect || e.isShutdown)
        = if (echo_test.run_example env fuel g transport).1.any Event.isConnectSuccess then
            [Event.Client_disconnect env.client 0 env.disconnect,
              Event.Client_shutdown env.client env.shutdown]
          else (echo_test.run_example env fuel g transport).1.filter Event.isShutdown)
    ∧ ((echo_test.run_example env fuel g transport).2
        = some (if (echo_test.run_example env fuel g transport).1.any Event.isCreateNull then
            ThingstreamResult.TRANSPORT_ERROR.toInt
          else if env.init ≠ ThingstreamResult.CLIENT_SUCCESS.toInt then env.init
          else if env.connect ≠ ThingstreamResult.CLIENT_SUCCESS.toInt then env.connect
          else if env.subscribe ≠ ThingstreamResult.CLIENT_SUCCESS.toInt then env.subscribe
          else if env.publish ≠ ThingstreamResult.CLIENT_SUCCESS.toInt then env.publish
          else ThingstreamResult.CLIENT_SUCCESS.toInt))
    ∧ ((echo_test.run_example env fuel g transport).1.any Event.isCreateNull
        = !(env.created && env.client.isSome))
    ∧ ((echo_test.run_example env fuel g transport).1.filter Event.isStep
        = if env.created && env.client.isSome then
            Event.Client_init env.client env.init ::
              if env.init = ThingstreamResult.CLIENT_SUCCESS.toInt then
                Event.Client_connect env.client true 0 none env.connect ::
                  if env.connect = ThingstreamResult.CLIENT_SUCCESS.toInt then
                    Event.Client_subscribeName env.client echo_test.EXAMPLE_TOPIC
                        ThingstreamQOS1 env.subscribe ::
                      if env.subscribe = ThingstreamResult.CLIENT_SUCCESS.toInt then
                        [Event.Client_publish env.client env.topic ThingstreamQOS1 false
                            echo_test.msg (sizeofMinus1 echo_test.msg) env.publish,
                          Event.Client_disconnect env.client 0 env.disconnect,
                          Event.Client_shutdown env.client env.shutdown]
                      else
                        [Event.Client_disconnect env.client 0 env.disconnect,
                          Event.Client_shutdown env.client env.shutdown]
                  else [Event.Client_shutdown env.client env.shutdown]
              else []
          else [])
    ∧ ((echo_test.run_example env fuel g transport).2
        = some (if (echo_test.run_example env fuel g transport).1.any Event.isCreateNull then
            ThingstreamResult.TRANSPORT_ERROR.toInt
          else (((echo_test.run_example env fuel g transport).1.filterMap
            Event.stepFailure).head?).getD ThingstreamResult.CLIENT_SUCCESS.toInt)) := by
  have hq1 := fun e => (report_not_step e).1
  have hq2 := fun e => (report_not_step e).2.1
  have hq3 := fun e => (report_not_step e).2.2.1
  have hq4 := fun e => (report_not_step e).2.2.2.1
  have hq5 := fun e => (report_not_step e).2.2.2.2.1
  have hq6 := fun e => (report_not_step e).2.2.2.2.2.1
  have hs1 := fun e => (report_not_step e).2.2.2.2.2.2.1
  have hs2 := fun e => (report_not_step e).2.2.2.2.2.2.2.1
  have hs3 := fun e => (report_not_step e).2.2.2.2.2.2.2.2.1
  have hs4 := fun e => (report_not_step e).2.2.2.2.2.2.2.2.2.1
  have hs6 := fun e => (report_not_step e).2.2.2.2.2.2.2.2.2.2
  unfold echo_test.run_example
  obtain ⟨l, hl, ⟨ha, hc, hst⟩ | ⟨ha, hc, t, hst⟩⟩ := createStack_created env.toStackEnv transport
    (echo_test.error ThingstreamResult.TRANSPORT_ERROR.toInt)
    (fun transport1 tr1 => echo_test.run_client env fuel g transport1 tr1)
  · rw [hst]
    simp only [echo_test.error, filter_setup_nil Event.isShutdown hs1 l hl,
      filter_setup_nil (fun e => e.isDisconnect || e.isShutdown) hs2 l hl,
      filter_setup_nil Event.isStep hs6 l hl,
      any_setup_false Event.isInitSuccess hs3 l hl,
      any_setup_false Event.isConnectSuccess hs4 l hl, ha, hc]
    simp
  · rw [hst]
    obtain ⟨hf, hv⟩ := echo_run_client_filter env fuel g t l h
    rw [stepFailure_of_steps]
    simp only [filter_of_report_form Event.isShutdown hq1 hs1 _ l _ hl hf,
      filter_of_report_form (fun e => e.isDisconnect || e.isShutdown) hq2 hs2 _ l _ hl hf,
      filter_of_report_form Event.isStep hq6 hs6 _ l _ hl hf,
      any_of_report_form Event.isInitSuccess hq3 _ l _ hf,
      any_of_report_form Event.isConnectSuccess hq4 _ l _ hf,
      any_of_report_form Event.isCreateNull hq5 _ l _ hf,
      any_setup_false Event.isInitSuccess hs3 l hl,
      any_setup_false Event.isConnectSuccess hs4 l hl, ha, hc, hv]
    cases hcl : env.client with
    | none =>
      simp [List.filter_cons, Event.isShutdown, Event.isDisconnect, Event.isStep,
        Event.isInitSuccess, Event.isConnectSuccess, Event.isCreateNull]
    | some c =>
      by_cases h2 : env.init = ThingstreamResult.CLIENT_SUCCESS.toInt
      · by_cases h3 : env.connect = ThingstreamResult.CLIENT_SUCCESS.toInt
        · by_cases h4 : env.subscribe = ThingstreamResult.CLIENT_SUCCESS.toInt
          · by_cases h5 : env.publish = ThingstreamResult.CLIENT_SUCCESS.toInt
            · simp [h2, h3, h4, h5, List.filter_cons, Event.isShutdown, Event.isDisconnect,
                Event.isStep, Event.isInitSuccess, Event.isConnectSuccess, Event.isCreateNull,
                Event.stepFailure]
            · simp [h2, h3, h4, h5, List.filter_cons, Event.isShutdown, Event.isDisconnect,
                Event.isStep, Event.isInitSuccess, Event.isConnectSuccess, Event.isCreateNull,
                Event.stepFailure]
          · simp [h2, h3, h4, List.filter_cons, Event.isShutdown, Event.isDisconnect,
              Event.isStep, Event.isInitSuccess, Event.isConnectSuccess, Event.isCreateNull,
              Event.stepFailure]
        · simp [h2, h3, List.filter_cons, Event.isShutdown, Event.isDisconnect,
            Event.isStep, Event.isInitSuccess, Event.isConnectSuccess, Event.isCreateNull,
            Event.stepFailure]
      · simp [h2, List.filter_cons, Event.isShutdown, Event.isDisconnect,
          Event.isStep, Event.isInitSuccess, Event.isConnectSuccess, Event.isCreateNull,
          Event.stepFailure]

end Thingstream

namespace Thingstream

theorem basic_publish_run_example_teardown (env : basic_publish.Env) (transport : Option Nat) :
    ((basic_publish.run_example env transport).1.filter Event.isShutdown
        = if (basic_publish.run_example env transport).1.any Event.isInitSuccess then
            [Event.Client_shutdown env.client env.shutdown]
          else [])
    ∧ ((basic_publish.run_example env transport).2
        = if (basic_publish.run_example env transport).1.any Event.isCreateNull then
            ThingstreamResult.TRANSPORT_ERROR.toInt
          else if env.init ≠ ThingstreamResult.CLIENT_SUCCESS.toInt then env.init
          else if env.publish ≠ ThingstreamResult.CLIENT_SUCCESS.toInt then env.publish
          else ThingstreamResult.CLIENT_SUCCESS.toInt)
    ∧ ((basic_publish.run_example env transport).1.any Event.isCreateNull
        = !(env.created && env.client.isSome))
    ∧ ((basic_publish.run_example env transport).1.filter Event.isStep
        = if env.created && env.client.isSome then
            Event.Client_init env.client env.init ::
              if env.init = ThingstreamResult.CLIENT_SUCCESS.toInt then
                [Event.Client_publish env.client Thingstream_PredefinedSelfTopic
                    ThingstreamQOSM1 false basic_publish.msg (sizeofMinus1 basic_publish.msg)
                    env.publish,
                  Event.Client_shutdown env.client env.shutdown]
              else []
          else [])
    ∧ ((basic_publish.run_example env transport).2
        = if (basic_publish.run_example env transport).1.any Event.isCreateNull then
            ThingstreamResult.TRANSPORT_ERROR.toInt
          else (((basic_publish.run_example env transport).1.filterMap
            Event.stepFailure).head?).getD ThingstreamResult.CLIENT_SUCCESS.toInt) := by
  have hq1 := fun e => (report_not_step e).1
  have hq3 := fun e => (report_not_step e).2.2.1
  have hq5 := fun e => (report_not_step e).2.2.2.2.1
  have hq6 := fun e => (report_not_step e).2.2.2.2.2.1
  have hs1 := fun e => (report_not_step e).2.2.2.2.2.2.1
  have hs3 := fun e => (report_not_step e).2.2.2.2.2.2.2.2.1
  have hs6 := fun e => (report_not_step e).2.2.2.2.2.2.2.2.2.2
  unfold basic_publish.run_example
  obtain ⟨l, hl, ⟨ha, hc, hst⟩ | ⟨ha, hc, t, hst⟩⟩ := createStack_created env.toStackEnv transport
    (basic_publish.error ThingstreamResult.TRANSPORT_ERROR.toInt)
    (fun transport1 tr1 => basic_publish.run_client env transport1 tr1)
  · rw [hst]
    simp only [basic_publish.error, filter_setup_nil Event.isShutdown hs1 l hl,
      filter_setup_nil Event.isStep hs6 l hl,
      any_setup_false Event.isInitSuccess hs3 l hl, ha, hc]
    simp
  · rw [hst]
    obtain ⟨hf, hv⟩ := basic_publish_run_client_filter env t l
    rw [stepFailure_of_steps]
    simp only [filter_of_report_form Event.isShutdown hq1 hs1 _ l _ hl hf,
      filter_of_report_form Event.isStep hq6 hs6 _ l _ hl hf,
      any_of_report_form Event.isInitSuccess hq3 _ l _ hf,
      any_of_report_form Event.isCreateNull hq5 _ l _ hf,
      any_setup_false Event.isInitSuccess hs3 l hl, ha, hc, hv]
    cases hcl : env.client with
    | none =>
      simp [List.filter_cons, Event.isShutdown, Event.isInitSuccess, Event.isCreateNull,
        Event.isStep]
    | some c =>
      by_cases h2 : env.init = ThingstreamResult.CLIENT_SUCCESS.toInt
      · by_cases h3 : env.publish = ThingstreamResult.CLIENT_SUCCESS.toInt
        · simp [h2, h3, List.filter_cons, Event.isShutdown, Event.isInitSuccess,
            Event.isCreateNull, Event.isStep, Event.stepFailure]
        · simp [h2, h3, List.filter_cons, Event.isShutdown, Event.isInitSuccess,
            Event.isCreateNull, Event.isStep, Event.stepFailure]
      · simp [h2, List.filter_cons, Event.isShutdown, Event.isInitSuccess, Event.isCreateNull,
          Event.isStep, Event.stepFailure]

/-- Claim C24. In the `run_example` functions of basic_publish and echo_test the
calls of `Thingstream_Client_shutdown` are exactly one call, on the created
client, if a call of `Thingstream_Client_init` returned `CLIENT_SUCCESS`, and
none otherwise; in echo_test the disconnect and shutdown calls are exactly one
disconnect followed by one shutdown if a call of `Thingstream_Client_connect`
returned `CLIENT_SUCCESS`, and otherwise there is no disconnect.  The value
returned is `TRANSPORT_ERROR` when a create call returned `NULL`, otherwise
the value returned by the first call among init, connect, subscribe and publish
that did not return `CLIENT_SUCCESS`, otherwise `CLIENT_SUCCESS`; it does not
change when the results of disconnect and shutdown change.  The calls made are
tied to the results of the external calls: a create call returns `NULL` exactly
when the stack or the client is not created, and the init, connect, subscribe,
publish, disconnect and shutdown calls are, in order, exactly the listed ones,
each with the result the environment gives it.  For echo_test the wait loop is
given fuel for a pass at which the clock is no longer before the limit. -/
theorem run_example_teardown (benv : basic_publish.Env) (eenv : echo_test.Env)
    (transport : Option Nat) (g : echo_test.Globals) (fuel n : Nat) (hn : n < fuel)
    (hclock : TIME_COMPARE (Thingstream_Platform_getTimeMillis (eenv.clock (n + 1))) Cmp.lt
      (add32 (Thingstream_Platform_getTimeMillis (eenv.clock 0)) 60000) = false) :
    (((basic_publish.run_example benv transport).1.filter Event.isShutdown
        = if (basic_publish.run_example benv transport).1.any Event.isInitSuccess then
            [Event.Client_shutdown benv.client benv.shutdown]
          else [])
      ∧ ((basic_publish.run_example benv transport).2
        = if (basic_publish.run_example benv transport).1.any Event.isCreateNull then
            ThingstreamResult.TRANSPORT_ERROR.toInt
          else if benv.init ≠ ThingstreamResult.CLIENT_SUCCESS.toInt then benv.init
          else if benv.publish ≠ ThingstreamResult.CLIENT_SUCCESS.toInt then benv.publish
          else ThingstreamResult.CLIENT_SUCCESS.toInt)
      ∧ (∀ s, (basic_publish.run_example { benv with shutdown := s } transport).2
          = (basic_publish.run_example benv transport).2)
      ∧ ((basic_publish.run_example benv transport).1.any Event.isCreateNull
          = !(benv.created && benv.client.isSome))
      ∧ ((basic_publish.run_example benv transport).1.filter Event.isStep
          = if benv.created && benv.client.isSome then
              Event.Client_init benv.client benv.init ::
                if benv.init = ThingstreamResult.CLIENT_SUCCESS.toInt then
                  [Event.Client_publish benv.client Thingstream_PredefinedSelfTopic
                      ThingstreamQOSM1 false basic_publish.msg
                      (sizeofMinus1 basic_publish.msg) benv.publish,
                    Event.Client_shutdown benv.client benv.shutdown]
                else []
            else [])
      ∧ ((basic_publish.run_example benv transport).2
          = if (basic_publish.run_example benv transport).1.any Event.isCreateNull then
              ThingstreamResult.TRANSPORT_ERROR.toInt
            else (((basic_publish.run_example benv transport).1.filterMap
              Event.stepFailure).head?).getD ThingstreamResult.CLIENT_SUCCESS.toInt))
    ∧ (((echo_test.run_example eenv fuel g transport).1.filter Event.isShutdown
        = if (echo_test.run_example eenv fuel g transport).1.any Event.isInitSuccess then
            [Event.Client_shutdown eenv.client eenv.shutdown]
          else [])
      ∧ ((echo_test.run_example eenv fuel g transport).1.filter
            (fun e => e.isDisconnect || e.isShutdown)
        = if (echo_test.run_example eenv fuel g transport).1.any Event.isConnectSuccess then
            [Event.Client_disconnect eenv.client 0 eenv.disconnect,
              Event.Client_shutdown eenv.client eenv.shutdown]
          else (echo_test.run_example eenv fuel g transport).1.filter Event.isShutdown)
      ∧ ((echo_test.run_example eenv fuel g transport).2
        = some (if (echo_test.run_example eenv fuel g transport).1.any Event.isCreateNull then
            ThingstreamResult.TRANSPORT_ERROR.toInt
          else if eenv.init ≠ ThingstreamResult.CLIENT_SUCCESS.toInt then eenv.init
          else if eenv.connect ≠ ThingstreamResult.CLIENT_SUCCESS.toInt then eenv.connect
          else if eenv.subscribe ≠ ThingstreamResult.CLIENT_SUCCESS.toInt then eenv.subscribe
          else if eenv.publish ≠ ThingstreamResult.CLIENT_SUCCESS.toInt then eenv.publish
          else ThingstreamResult.CLIENT_SUCCESS.toInt))
      ∧ (∀ d s, (echo_test.run_example { eenv with disconnect := d, shutdown := s } fuel g
            transport).2
          = (echo_test.run_example eenv fuel g transport).2)
      ∧ ((echo_test.run_example eenv fuel g transport).1.any Event.isCreateNull
          = !(eenv.created && eenv.client.isSome))
      ∧ ((echo_test.run_example eenv fuel g transport).1.filter Event.isStep
          = if eenv.created && eenv.client.isSome then
              Event.Client_init eenv.client eenv.init ::
                if eenv.init = ThingstreamResult.CLIENT_SUCCESS.toInt then
                  Event.Client_connect eenv.client true 0 none eenv.connect ::
                    if eenv.connect = ThingstreamResult.CLIENT_SUCCESS.toInt then
                      Event.Client_subscribeName eenv.client echo_test.EXAMPLE_TOPIC
                          ThingstreamQOS1 eenv.subscribe ::
                        if eenv.subscribe = ThingstreamResult.CLIENT_SUCCESS.toInt then
                          [Event.Client_publish eenv.client eenv.topic ThingstreamQOS1 false
                              echo_test.msg (sizeofMinus1 echo_test.msg) eenv.publish,
                            Event.Client_disconnect eenv.client 0 eenv.disconnect,
                            Event.Client_shutdown eenv.client eenv.shutdown]
                        else
                          [Event.Client_disconnect eenv.client 0 eenv.disconnect,
                            Event.Client_shutdown eenv.client eenv.shutdown]
                    else [Event.Client_shutdown eenv.client eenv.shutdown]
                else []
            else [])
      ∧ ((echo_test.run_example eenv fuel g transport).2
          = some (if (echo_test.run_example eenv fuel g transport).1.any Event.isCreateNull then
              ThingstreamResult.TRANSPORT_ERROR.toInt
            else (((echo_test.run_example eenv fuel g transport).1.filterMap
              Event.stepFailure).head?).getD ThingstreamResult.CLIENT_SUCCESS.toInt))) := by
  have hb := basic_publish_run_example_teardown benv transport
  have he := echo_run_example_teardown eenv fuel g transport ⟨n, hn, hclock⟩
  refine ⟨⟨hb.1, hb.2.1, ?_, hb.2.2.1, hb.2.2.2.1, hb.2.2.2.2⟩,
    he.1, he.2.1, he.2.2.1, ?_, he.2.2.2.1, he.2.2.2.2.1, he.2.2.2.2.2⟩
  · intro s
    have hb2 := basic_publish_run_example_teardown { benv with shutdown := s } transport
    rw [hb.2.1, hb2.2.1, hb.2.2.1, hb2.2.2.1]
  · intro d s
    have he2 := echo_run_example_teardown { eenv with disconnect := d, shutdown := s } fuel g
      transport ⟨n, hn, hclock⟩
    rw [he.2.2.1, he2.2.2.1, he.2.2.2.1, he2.2.2.2.1]

theorem run_example_teardown_witness :
    (echo_test.run_example
      { DEBUG_LOG_MODEM := false, DEBUG_LOG_CLIENT := false, ringBuffer := some 1,
        modemLogger := none, modem := some 2, base64 := some 3, protocol := some 4,
        clientLogger := none, client := some 6, init := 0, connect := 0, subscribe := 0,
        topic := ⟨0, 77⟩, publish := 0, disconnect := -5, shutdown := -6,
        clock := fun n => 4294967000 + 30000 * n, inbound_connect := [],
        inbound_subscribe := [], inbound_publish := [], inbound_run := fun _ => [] }
      3 echo_test.Globals.initial (some 0)).1.filter (fun e => e.isDisconnect || e.isShutdown)
      = [Event.Client_disconnect (some 6) 0 (-5), Event.Client_shutdown (some 6) (-6)] :=
  (run_example_teardown
    { DEBUG_LOG_MODEM := false, DEBUG_LOG_CLIENT := false, ringBuffer := some 1,
      modemLogger := none, modem := some 2, base64 := none, protocol := some 4,
      clientLogger := none, client := some 6, init := 0, publish := -20, shutdown := -6 }
    { DEBUG_LOG_MODEM := false, DEBUG_LOG_CLIENT := false, ringBuffer := some 1,
      modemLogger := none, modem := some 2, base64 := some 3, protocol := some 4,
      clientLogger := none, client := some 6, init := 0, connect := 0, subscribe := 0,
      topic := ⟨0, 77⟩, publish := 0, disconnect := -5, shutdown := -6,
      clock := fun n => 4294967000 + 30000 * n, inbound_connect := [],
      inbound_subscribe := [], inbound_publish := [], inbound_run := fun _ => [] }
    (some 0) echo_test.Globals.initial 3 1 (by decide) (by decide)).2.2.1

end Thingstream
